import Mathlib

/-!
# Chronulator PM2V firmware (MSP430): a shallow embedding of `main.c`

The firmware is one interrupt routine, `Watchdog_ISR`, working on a handful of
global variables.  The globals become the fields of `State`; every C function
becomes a function on `State`.  `unsigned char` variables are natural numbers
reduced modulo `2^8` at every assignment, the `unsigned short` divider is
reduced modulo `2^16`.

What the routine does to the outside world (writes to the Timer_A registers)
and which handlers it calls is recorded in a list of `Event`s returned next to
the new state.
-/

namespace Chronulator

/-! ## Machine integers -/

/-- Conversion of a C `int` value to `unsigned char`. -/
def u8 (z : Int) : Nat := (z % 256).toNat

/-- Conversion of a C `int` value to `unsigned short`. -/
def u16 (z : Int) : Nat := (z % 65536).toNat

/-! ## Constants of the device header

`msp430x20x2.h` is not part of the sources.  The bit masks and register field
values that the routine takes from it are kept abstract: they are the fields of
`Header`, and the general results below hold for all values of them.  Concrete
runs are evaluated with the values of `msp430x20x2`. -/

/-- Constants that `main.c` takes from `msp430x20x2.h`. -/
structure Header where
  TASSEL_1 : Nat
  ID_0 : Nat
  MC_2 : Nat
  TACLR : Nat
  CM_0 : Nat
  CCIS_0 : Nat
  OUTMOD_0 : Nat
  OUTMOD_1 : Nat
  BIT0 : Nat
  BIT3 : Nat
deriving DecidableEq

/-- The values of these constants in the vendor's header for this device.  Of
these only `BIT0 = 1` and `BIT3 = 8` bear on the state: they are the port bits
0 and 3 that `main` sets up as inputs through the value `0x09`. -/
def msp430x20x2 : Header :=
  { TASSEL_1 := 0x0100, ID_0 := 0x0000, MC_2 := 0x0020, TACLR := 0x0004,
    CM_0 := 0x0000, CCIS_0 := 0x0000, OUTMOD_0 := 0x0000, OUTMOD_1 := 0x0020,
    BIT0 := 0x0001, BIT3 := 0x0008 }

/-- `#define S1_BIT BIT0`. -/
def S1_BIT (hdr : Header) : Nat := hdr.BIT0

/-- `#define S2_BIT BIT3`. -/
def S2_BIT (hdr : Header) : Nat := hdr.BIT3

/-! ## Globals -/

/-- `METER_MODE_SHOW_TIME = 0`. -/
def METER_MODE_SHOW_TIME : Nat := 0

/-- `METER_MODE_CALIBRATE_ZERO_SCALE = 1`. -/
def METER_MODE_CALIBRATE_ZERO_SCALE : Nat := 1

/-- `METER_MODE_CALIBRATE_FULL_SCALE = 2`. -/
def METER_MODE_CALIBRATE_FULL_SCALE : Nat := 2

/-- `static const unsigned char debounce_wait = 16;`. -/
def debounce_wait : Nat := 16

/-- `static const unsigned short second_divider = 512;` (local to the ISR). -/
def second_divider : Nat := 512

/-- The global variables of `main.c`, and the static local
`second_divider_count` of `Watchdog_ISR`. -/
structure State where
  meter_mode : Nat
  debounce_counter_s1 : Nat
  debounce_counter_s2 : Nat
  s1_active : Nat
  s2_active : Nat
  timer_count_h : Nat
  timer_count_m : Nat
  hour : Nat
  minute : Nat
  second : Nat
  second_divider_count : Nat
deriving DecidableEq

/-- The initialisers of the globals: the state at power-up. -/
def init : State :=
  { meter_mode := METER_MODE_SHOW_TIME
    debounce_counter_s1 := 0
    debounce_counter_s2 := 0
    s1_active := 0
    s2_active := 0
    timer_count_h := 0
    timer_count_m := 0
    hour := 6
    minute := 30
    second := 0
    second_divider_count := 1 }

/-! ## Observable actions -/

/-- Timer_A registers written by the interrupt routine. -/
inductive Reg where
  | TACTL
  | TACCTL0
  | TACCTL1
  | TACCR0
  | TACCR1
deriving DecidableEq

/-- One observable action of the interrupt routine: a register write, or a
call of `tick_second` or of one of the four button handlers. -/
inductive Event where
  | write (r : Reg) (v : Nat)
  | tick_second
  | s1_pressed
  | s1_released
  | s2_pressed
  | s2_released
deriving DecidableEq

/-! ## Time keeping -/

/-- `tick_hour`. -/
def tick_hour (s : State) : State :=
  if s.hour < 11 then { s with hour := u8 (s.hour + 1) }
  else { s with hour := 0 }

/-- `tick_minute`. -/
def tick_minute (s : State) : State :=
  if s.minute < 59 then { s with minute := u8 (s.minute + 1) }
  else tick_hour { s with minute := 0 }

/-- `tick_second`. -/
def tick_second (s : State) : State :=
  if s.second < 59 then { s with second := u8 (s.second + 1) }
  else tick_minute { s with second := 0 }

/-- `add_hour`. -/
def add_hour (s : State) : State :=
  if s.hour < 11 then { s with hour := u8 (s.hour + 1) }
  else { s with hour := 0 }

/-- `subtract_hour`. -/
def subtract_hour (s : State) : State :=
  if s.hour > 0 then { s with hour := u8 (s.hour - 1) }
  else { s with hour := 11 }

/-- `add_minute`. -/
def add_minute (s : State) : State :=
  if s.minute < 59 then { s with minute := u8 (s.minute + 1) }
  else { s with minute := 0 }

/-- `subtract_minute`. -/
def subtract_minute (s : State) : State :=
  if s.minute > 0 then { s with minute := u8 (s.minute - 1) }
  else { s with minute := 59 }

/-! ## Meter outputs and modes -/

/-- `show_time`: the two off-times, computed in `int` and stored in
`unsigned char`. -/
def show_time (s : State) : State :=
  let s := { s with timer_count_m := u8 (64 - s.minute) }
  { s with timer_count_h := u8 (64 - s.hour * 5) }

/-- `set_mode_show_time`. -/
def set_mode_show_time (s : State) : State :=
  show_time { s with meter_mode := METER_MODE_SHOW_TIME }

/-- `set_mode_calibrate_zero_scale`. -/
def set_mode_calibrate_zero_scale (s : State) : State :=
  let s := { s with meter_mode := METER_MODE_CALIBRATE_ZERO_SCALE }
  let s := { s with timer_count_m := u8 (64 - 0) }
  { s with timer_count_h := u8 (64 - 0) }

/-- `set_mode_calibrate_full_scale`. -/
def set_mode_calibrate_full_scale (s : State) : State :=
  let s := { s with meter_mode := METER_MODE_CALIBRATE_FULL_SCALE }
  let s := { s with timer_count_m := u8 (64 - 60) }
  { s with timer_count_h := u8 (64 - 60) }

/-! ## Button handlers -/

/-- `s1_pressed`: the `switch` on `meter_mode`, with its empty `default`. -/
def s1_pressed (s : State) : State :=
  if s.meter_mode = METER_MODE_SHOW_TIME then
    if s.s2_active ≠ 0 then set_mode_calibrate_zero_scale (subtract_minute s)
    else show_time (add_hour s)
  else if s.meter_mode = METER_MODE_CALIBRATE_ZERO_SCALE then
    if s.s2_active ≠ 0 then set_mode_calibrate_full_scale s else s
  else if s.meter_mode = METER_MODE_CALIBRATE_FULL_SCALE then
    if s.s2_active ≠ 0 then set_mode_show_time s else s
  else s

/-- `s1_released`: empty body. -/
def s1_released (s : State) : State := s

/-- `s2_pressed`: the `switch` on `meter_mode`, with its empty `default`. -/
def s2_pressed (s : State) : State :=
  if s.meter_mode = METER_MODE_SHOW_TIME then
    if s.s1_active ≠ 0 then set_mode_calibrate_zero_scale (subtract_hour s)
    else show_time (add_minute s)
  else if s.meter_mode = METER_MODE_CALIBRATE_ZERO_SCALE then
    if s.s1_active ≠ 0 then set_mode_calibrate_full_scale s else s
  else if s.meter_mode = METER_MODE_CALIBRATE_FULL_SCALE then
    if s.s1_active ≠ 0 then set_mode_show_time s else s
  else s

/-- `s2_released`: empty body. -/
def s2_released (s : State) : State := s

/-! ## Debouncing -/

/-- First half of `debounce_buttons` (the `if( s1_active )` statement); `rd` is
the value read from `P1IN` there. -/
def debounce_buttons_s1 (hdr : Header) (s : State) (rd : Nat) : State × List Event :=
  if s.s1_active ≠ 0 then
    if rd &&& S1_BIT hdr ≠ 0 then
      (s1_released { s with s1_active := 0 }, [Event.s1_released])
    else (s, [])
  else
    if rd &&& S1_BIT hdr = 0 then
      let t := { s with debounce_counter_s1 := u8 (s.debounce_counter_s1 + 1) }
      if t.debounce_counter_s1 = debounce_wait then
        (s1_pressed { t with s1_active := 1 }, [Event.s1_pressed])
      else (t, [])
    else ({ s with debounce_counter_s1 := 0 }, [])

/-- Second half of `debounce_buttons` (the `if( s2_active )` statement); `rd`
is the value read from `P1IN` there. -/
def debounce_buttons_s2 (hdr : Header) (s : State) (rd : Nat) : State × List Event :=
  if s.s2_active ≠ 0 then
    if rd &&& S2_BIT hdr ≠ 0 then
      (s2_released { s with s2_active := 0 }, [Event.s2_released])
    else (s, [])
  else
    if rd &&& S2_BIT hdr = 0 then
      let t := { s with debounce_counter_s2 := u8 (s.debounce_counter_s2 + 1) }
      if t.debounce_counter_s2 = debounce_wait then
        (s2_pressed { t with s2_active := 1 }, [Event.s2_pressed])
      else (t, [])
    else ({ s with debounce_counter_s2 := 0 }, [])

/-- `debounce_buttons`: S1 is handled first, then S2.  `P1IN` is a volatile
port register, read once for each button: `rd.1` is the value read for S1 and
`rd.2` the value read for S2. -/
def debounce_buttons (hdr : Header) (s : State) (rd : Nat × Nat) : State × List Event :=
  let a := debounce_buttons_s1 hdr s rd.1
  let b := debounce_buttons_s2 hdr a.1 rd.2
  (b.1, a.2 ++ b.2)

/-! ## The interrupt routine -/

/-- The register writes at the head of `Watchdog_ISR`, in program order. -/
def hardware_phase (hdr : Header) (s : State) : List Event :=
  [ Event.write Reg.TACTL
      (hdr.TASSEL_1 ||| hdr.ID_0 ||| hdr.MC_2 ||| hdr.TACLR ||| 0 ||| 0),
    Event.write Reg.TACCTL0
      (hdr.CM_0 ||| hdr.CCIS_0 ||| 0 ||| 0 ||| hdr.OUTMOD_0 ||| 0 ||| 0 ||| 0 ||| 0),
    Event.write Reg.TACCTL1
      (hdr.CM_0 ||| hdr.CCIS_0 ||| 0 ||| 0 ||| hdr.OUTMOD_0 ||| 0 ||| 0 ||| 0 ||| 0),
    Event.write Reg.TACCTL0
      (hdr.CM_0 ||| hdr.CCIS_0 ||| 0 ||| 0 ||| hdr.OUTMOD_1 ||| 0 ||| 0 ||| 0 ||| 0),
    Event.write Reg.TACCTL1
      (hdr.CM_0 ||| hdr.CCIS_0 ||| 0 ||| 0 ||| hdr.OUTMOD_1 ||| 0 ||| 0 ||| 0 ||| 0),
    Event.write Reg.TACCR1 s.timer_count_m,
    Event.write Reg.TACCR0 s.timer_count_h ]

/-- The `// Update time.` part of `Watchdog_ISR`: the divider is decremented,
and when it reaches zero it is reloaded, `tick_second` is called and, in
show-time mode, `show_time`. -/
def update_time (s : State) : State × List Event :=
  let t := { s with second_divider_count := u16 (s.second_divider_count - 1) }
  if t.second_divider_count = 0 then
    let t := tick_second { t with second_divider_count := second_divider }
    (if t.meter_mode = METER_MODE_SHOW_TIME then show_time t else t,
      [Event.tick_second])
  else (t, [])

/-- `Watchdog_ISR`: register writes, time update, then `debounce_buttons`. -/
def Watchdog_ISR (hdr : Header) (s : State) (rd : Nat × Nat) : State × List Event :=
  let t := update_time s
  let d := debounce_buttons hdr t.1 rd
  (d.1, hardware_phase hdr s ++ t.2 ++ d.2)

/-! ## Runs -/

/-- State after `n` invocations of `Watchdog_ISR` from `s0`, the `i`-th
invocation (counted from 0) reading `ins i` from the port. -/
def isrState (hdr : Header) (s0 : State) (ins : Nat → Nat × Nat) : Nat → State
  | 0 => s0
  | n + 1 => (Watchdog_ISR hdr (isrState hdr s0 ins n) (ins n)).1

/-- Events of invocation number `n` (counted from 0) of a run from `s0`. -/
def isrEvents (hdr : Header) (s0 : State) (ins : Nat → Nat × Nat) (n : Nat) : List Event :=
  (Watchdog_ISR hdr (isrState hdr s0 ins n) (ins n)).2

/-- State after `n` calls of `debounce_buttons` from `s0`, with no time update
in between. -/
def debounceState (hdr : Header) (s0 : State) (ins : Nat → Nat × Nat) : Nat → State
  | 0 => s0
  | n + 1 => (debounce_buttons hdr (debounceState hdr s0 ins n) (ins n)).1

/-- Events of call number `n` (counted from 0) of such a run. -/
def debounceEvents (hdr : Header) (s0 : State) (ins : Nat → Nat × Nat) (n : Nat) :
    List Event :=
  (debounce_buttons hdr (debounceState hdr s0 ins n) (ins n)).2

/-! ## Predicates used in the statements -/

/-- The time of day is within range. -/
def TimeInRange (s : State) : Prop :=
  s.hour ≤ 11 ∧ s.minute ≤ 59 ∧ s.second ≤ 59

instance (s : State) : Decidable (TimeInRange s) := by
  unfold TimeInRange; exact inferInstance

/-- Whether an event is a register write. -/
def isWrite : Event → Bool
  | Event.write _ _ => true
  | _ => false

/-- The register writes among a list of events, in order. -/
def registerWrites (es : List Event) : List Event := es.filter isWrite

/-- The writes to one register among a list of events, in order. -/
def writesTo (r : Reg) (es : List Event) : List Nat :=
  es.filterMap fun e =>
    match e with
    | Event.write r1 v => if r1 = r then some v else none
    | _ => none

/-- Seconds since 00:00:00 on the 12-hour dial. -/
def toSeconds (s : State) : Nat := 3600 * s.hour + 60 * s.minute + s.second

/-- The state `s` with its time of day replaced by the time `n` seconds after
00:00:00. -/
def withSeconds (s : State) (n : Nat) : State :=
  { s with hour := n / 3600, minute := n / 60 % 60, second := n % 60 }

/-- The outputs are those that belong to the mode: in show-time mode the
off-times of the current time, in the calibration modes the fixed pairs. -/
def OutputsConsistent (s : State) : Prop :=
  (s.meter_mode = METER_MODE_SHOW_TIME →
    (s.timer_count_h : Int) = 64 - 5 * (s.hour : Int) ∧
    (s.timer_count_m : Int) = 64 - (s.minute : Int)) ∧
  (s.meter_mode = METER_MODE_CALIBRATE_ZERO_SCALE →
    s.timer_count_h = 64 ∧ s.timer_count_m = 64) ∧
  (s.meter_mode = METER_MODE_CALIBRATE_FULL_SCALE →
    s.timer_count_h = 4 ∧ s.timer_count_m = 4)

instance (s : State) : Decidable (OutputsConsistent s) := by
  unfold OutputsConsistent; exact inferInstance

/-! ## Machine integer facts -/

theorem u8_of_lt (n : Nat) (h : n < 256) : u8 (n : Int) = n := by
  unfold u8; omega

theorem u8_succ (n : Nat) (h : n < 255) : u8 ((n : Int) + 1) = n + 1 := by
  unfold u8; omega

theorem u8_pred (n : Nat) (h0 : 0 < n) (h : n ≤ 256) : u8 ((n : Int) - 1) = n - 1 := by
  unfold u8; omega

/-! ## Time keeping preserves the range -/

theorem tick_hour_inRange (s : State) (h : TimeInRange s) : TimeInRange (tick_hour s) := by
  simp only [TimeInRange, tick_hour, u8] at *
  split_ifs <;> simp at * <;> omega

theorem tick_minute_inRange (s : State) (h : TimeInRange s) : TimeInRange (tick_minute s) := by
  simp only [TimeInRange, tick_minute, tick_hour, u8] at *
  split_ifs <;> simp at * <;> omega

theorem tick_second_inRange (s : State) (h : TimeInRange s) : TimeInRange (tick_second s) := by
  simp only [TimeInRange, tick_second, tick_minute, tick_hour, u8] at *
  split_ifs <;> simp at * <;> omega

theorem add_hour_inRange (s : State) (h : TimeInRange s) : TimeInRange (add_hour s) := by
  simp only [TimeInRange, add_hour, u8] at *
  split_ifs <;> simp at * <;> omega

theorem subtract_hour_inRange (s : State) (h : TimeInRange s) :
    TimeInRange (subtract_hour s) := by
  simp only [TimeInRange, subtract_hour, u8] at *
  split_ifs <;> simp at * <;> omega

theorem add_minute_inRange (s : State) (h : TimeInRange s) : TimeInRange (add_minute s) := by
  simp only [TimeInRange, add_minute, u8] at *
  split_ifs <;> simp at * <;> omega

theorem subtract_minute_inRange (s : State) (h : TimeInRange s) :
    TimeInRange (subtract_minute s) := by
  simp only [TimeInRange, subtract_minute, u8] at *
  split_ifs <;> simp at * <;> omega

theorem show_time_inRange (s : State) (h : TimeInRange s) : TimeInRange (show_time s) := h

theorem set_mode_show_time_inRange (s : State) (h : TimeInRange s) :
    TimeInRange (set_mode_show_time s) := h

theorem set_mode_calibrate_zero_scale_inRange (s : State) (h : TimeInRange s) :
    TimeInRange (set_mode_calibrate_zero_scale s) := h

theorem set_mode_calibrate_full_scale_inRange (s : State) (h : TimeInRange s) :
    TimeInRange (set_mode_calibrate_full_scale s) := h

theorem s1_pressed_inRange (s : State) (h : TimeInRange s) : TimeInRange (s1_pressed s) := by
  unfold s1_pressed
  split_ifs
  · exact set_mode_calibrate_zero_scale_inRange _ (subtract_minute_inRange _ h)
  · exact show_time_inRange _ (add_hour_inRange _ h)
  · exact set_mode_calibrate_full_scale_inRange _ h
  · exact h
  · exact set_mode_show_time_inRange _ h
  · exact h
  · exact h

theorem s2_pressed_inRange (s : State) (h : TimeInRange s) : TimeInRange (s2_pressed s) := by
  unfold s2_pressed
  split_ifs
  · exact set_mode_calibrate_zero_scale_inRange _ (subtract_hour_inRange _ h)
  · exact show_time_inRange _ (add_minute_inRange _ h)
  · exact set_mode_calibrate_full_scale_inRange _ h
  · exact h
  · exact set_mode_show_time_inRange _ h
  · exact h
  · exact h

theorem debounce_buttons_s1_inRange (hdr : Header) (s : State) (rd : Nat)
    (h : TimeInRange s) : TimeInRange (debounce_buttons_s1 hdr s rd).1 := by
  simp only [debounce_buttons_s1]
  split_ifs
  · exact h
  · exact h
  · exact s1_pressed_inRange _ h
  · exact h
  · exact h

theorem debounce_buttons_s2_inRange (hdr : Header) (s : State) (rd : Nat)
    (h : TimeInRange s) : TimeInRange (debounce_buttons_s2 hdr s rd).1 := by
  simp only [debounce_buttons_s2]
  split_ifs
  · exact h
  · exact h
  · exact s2_pressed_inRange _ h
  · exact h
  · exact h

theorem debounce_buttons_inRange (hdr : Header) (s : State) (rd : Nat × Nat)
    (h : TimeInRange s) : TimeInRange (debounce_buttons hdr s rd).1 :=
  debounce_buttons_s2_inRange hdr _ _ (debounce_buttons_s1_inRange hdr s _ h)

theorem update_time_inRange (s : State) (h : TimeInRange s) :
    TimeInRange (update_time s).1 := by
  unfold update_time
  simp only
  split_ifs
  · exact show_time_inRange _ (tick_second_inRange _ h)
  · exact tick_second_inRange _ h
  · exact h

theorem Watchdog_ISR_inRange (hdr : Header) (s : State) (rd : Nat × Nat)
    (h : TimeInRange s) : TimeInRange (Watchdog_ISR hdr s rd).1 :=
  debounce_buttons_inRange hdr _ _ (update_time_inRange s h)

theorem isrState_inRange (hdr : Header) (s0 : State) (ins : Nat → Nat × Nat)
    (h : TimeInRange s0) (n : Nat) : TimeInRange (isrState hdr s0 ins n) := by
  induction n with
  | zero => exact h
  | succ n ih => exact Watchdog_ISR_inRange hdr _ _ ih

/-- C1. In every state reached from the cold-start state by any number of
`Watchdog_ISR` invocations with arbitrary port reads, `hour ≤ 11`,
`minute ≤ 59` and `second ≤ 59`; and each of the seven time-keeping functions
maps an in-range time to an in-range time. -/
theorem C1_time_in_range :
    (∀ (hdr : Header) (ins : Nat → Nat × Nat) (n : Nat),
        (isrState hdr init ins n).hour ≤ 11 ∧ (isrState hdr init ins n).minute ≤ 59 ∧
          (isrState hdr init ins n).second ≤ 59) ∧
    (∀ s : State, TimeInRange s →
        TimeInRange (tick_second s) ∧ TimeInRange (tick_minute s) ∧
        TimeInRange (tick_hour s) ∧ TimeInRange (add_hour s) ∧
        TimeInRange (subtract_hour s) ∧ TimeInRange (add_minute s) ∧
        TimeInRange (subtract_minute s)) := by
  refine ⟨fun hdr ins n => ?_, fun s h => ?_⟩
  · exact isrState_inRange hdr init ins (by decide) n
  · exact ⟨tick_second_inRange s h, tick_minute_inRange s h, tick_hour_inRange s h,
      add_hour_inRange s h, subtract_hour_inRange s h, add_minute_inRange s h,
      subtract_minute_inRange s h⟩

/-- C1 at the time 11:59:59, where every counter is at its upper end. -/
theorem C1_time_in_range_witness :
    TimeInRange { init with hour := 11, minute := 59, second := 59 } ∧
    TimeInRange (tick_second { init with hour := 11, minute := 59, second := 59 }) :=
  ⟨by decide, (C1_time_in_range.2 { init with hour := 11, minute := 59, second := 59 }
      (by decide)).1⟩

/-! ## Meter outputs in show-time mode -/

/-- C8. For every time with `hour ≤ 11` and `minute ≤ 59`, `show_time` sets
`timer_count_m = 64 - minute` and `timer_count_h = 64 - 5 * hour` exactly (as
integers, with no 8-bit wraparound), so `timer_count_h` lies in `[9, 64]` and
`timer_count_m` in `[5, 64]`; at 11:59 the outputs are 9 and 5; and `show_time`
changes neither the time nor the mode (nor anything but the two outputs). -/
theorem C8_show_time :
    (∀ s : State, s.hour ≤ 11 → s.minute ≤ 59 →
        ((show_time s).timer_count_m : Int) = 64 - (s.minute : Int) ∧
        ((show_time s).timer_count_h : Int) = 64 - 5 * (s.hour : Int) ∧
        9 ≤ (show_time s).timer_count_h ∧ (show_time s).timer_count_h ≤ 64 ∧
        5 ≤ (show_time s).timer_count_m ∧ (show_time s).timer_count_m ≤ 64) ∧
    (∀ s : State, s.hour = 11 → s.minute = 59 →
        (show_time s).timer_count_h = 9 ∧ (show_time s).timer_count_m = 5) ∧
    (∀ s : State,
        (show_time s).hour = s.hour ∧ (show_time s).minute = s.minute ∧
        (show_time s).second = s.second ∧ (show_time s).meter_mode = s.meter_mode ∧
        show_time s =
          { s with timer_count_h := (show_time s).timer_count_h,
                   timer_count_m := (show_time s).timer_count_m }) := by
  refine ⟨fun s hh hm => ?_, fun s hh hm => ?_, fun s => ?_⟩
  · have em : (64 - (s.minute : Int)) % 256 = 64 - (s.minute : Int) :=
      Int.emod_eq_of_lt (by omega) (by omega)
    have eh : (64 - (s.hour : Int) * 5) % 256 = 64 - (s.hour : Int) * 5 :=
      Int.emod_eq_of_lt (by omega) (by omega)
    simp only [show_time, u8, em, eh]
    omega
  · simp only [show_time, u8, hh, hm]
    decide
  · simp [show_time]

/-- C8 at the cold-start time 06:30: the outputs are 34 (hours) and 34
(minutes). -/
theorem C8_show_time_witness :
    init.hour ≤ 11 ∧ init.minute ≤ 59 ∧
    (show_time init).timer_count_h = 34 ∧ (show_time init).timer_count_m = 34 := by
  have h := C8_show_time.1 init (by decide) (by decide)
  refine ⟨by decide, by decide, ?_, ?_⟩
  · have h2 := h.2.1
    have : (init.hour : Int) = 6 := rfl
    omega
  · have h1 := h.1
    have : (init.minute : Int) = 30 := rfl
    omega

/-! ## Seconds roll over into minutes -/

theorem tick_second_lt (s : State) (h : s.second < 59) :
    tick_second s = { s with second := s.second + 1 } := by
  have e : u8 ((s.second : Int) + 1) = s.second + 1 := u8_succ _ (by omega)
  simp [tick_second, h, e]

theorem tick_second_iterate (s : State) (h0 : s.second = 0) (k : Nat) (hk : k ≤ 59) :
    tick_second^[k] s = { s with second := k } := by
  induction k with
  | zero => cases s; simp_all
  | succ k ih =>
    rw [Function.iterate_succ_apply', ih (by omega), tick_second_lt _ (by simp; omega)]

/-- C9. From any time with `minute ≤ 59` and `second = 0`, whatever the hour, the
first 59 calls of `tick_second` change only the second counter (after `k` calls
it is `k`, minute and hour are as at the start), and the 60th call leaves
`second = 0` and `minute = (minute + 1) mod 60`. -/
theorem C9_sixty_seconds (s : State) (hm : s.minute ≤ 59) (hs : s.second = 0) :
    (∀ k, k < 60 → (tick_second^[k] s).minute = s.minute ∧
        (tick_second^[k] s).hour = s.hour ∧ (tick_second^[k] s).second = k) ∧
    (tick_second^[60] s).second = 0 ∧
    (tick_second^[60] s).minute = (s.minute + 1) % 60 := by
  refine ⟨fun k hk => ?_, ?_, ?_⟩
  · rw [tick_second_iterate s hs k (by omega)]
    exact ⟨rfl, rfl, rfl⟩
  · rw [Function.iterate_succ_apply', tick_second_iterate s hs 59 (by omega)]
    simp only [tick_second, tick_minute, tick_hour, u8]
    split_ifs <;> simp at *
  · rw [Function.iterate_succ_apply', tick_second_iterate s hs 59 (by omega)]
    simp only [tick_second, tick_minute, tick_hour, u8]
    split_ifs <;> simp at * <;> omega

/-- C9 at 11:59:00: sixty ticks later the minute is 0 and the second is 0. -/
theorem C9_sixty_seconds_witness :
    (tick_second^[60] { init with hour := 11, minute := 59 }).second = 0 ∧
    (tick_second^[60] { init with hour := 11, minute := 59 }).minute = 0 :=
  (C9_sixty_seconds { init with hour := 11, minute := 59 } (by decide) rfl).2

/-! ## Manual setting -/

/-- C10. On the valid range the manual set operations are mutually inverse:
for `hour ≤ 11`, `subtract_hour` after `add_hour` and `add_hour` after
`subtract_hour` give back the state, `add_hour` at 11 gives 0 and
`subtract_hour` at 0 gives 11; for `minute ≤ 59` the same holds of
`add_minute` and `subtract_minute`, with 59 going to 0 and 0 going to 59. -/
theorem C10_set_inverse :
    (∀ s : State, s.hour ≤ 11 →
        subtract_hour (add_hour s) = s ∧ add_hour (subtract_hour s) = s) ∧
    (∀ s : State, s.hour = 11 → (add_hour s).hour = 0) ∧
    (∀ s : State, s.hour = 0 → (subtract_hour s).hour = 11) ∧
    (∀ s : State, s.minute ≤ 59 →
        subtract_minute (add_minute s) = s ∧ add_minute (subtract_minute s) = s) ∧
    (∀ s : State, s.minute = 59 → (add_minute s).minute = 0) ∧
    (∀ s : State, s.minute = 0 → (subtract_minute s).minute = 59) := by
  refine ⟨fun s h => ⟨?_, ?_⟩, fun s h => ?_, fun s h => ?_, fun s h => ⟨?_, ?_⟩,
    fun s h => ?_, fun s h => ?_⟩
  · cases s
    simp only [add_hour, subtract_hour, u8] at *
    split_ifs <;> simp at * <;> omega
  · cases s
    simp only [add_hour, subtract_hour, u8] at *
    split_ifs <;> simp at * <;> omega
  · simp [add_hour, h]
  · simp [subtract_hour, h]
  · cases s
    simp only [add_minute, subtract_minute, u8] at *
    split_ifs <;> simp at * <;> omega
  · cases s
    simp only [add_minute, subtract_minute, u8] at *
    split_ifs <;> simp at * <;> omega
  · simp [add_minute, h]
  · simp [subtract_minute, h]

/-- C10 at the cold-start time 06:30. -/
theorem C10_set_inverse_witness :
    subtract_hour (add_hour init) = init ∧ add_hour (subtract_hour init) = init ∧
    subtract_minute (add_minute init) = init ∧ add_minute (subtract_minute init) = init :=
  ⟨(C10_set_inverse.1 init (by decide)).1, (C10_set_inverse.1 init (by decide)).2,
   (C10_set_inverse.2.2.2.1 init (by decide)).1, (C10_set_inverse.2.2.2.1 init (by decide)).2⟩

/-! ## What the button handlers leave alone -/

theorem s1_pressed_frame (s : State) :
    (s1_pressed s).s1_active = s.s1_active ∧ (s1_pressed s).s2_active = s.s2_active ∧
    (s1_pressed s).debounce_counter_s1 = s.debounce_counter_s1 ∧
    (s1_pressed s).debounce_counter_s2 = s.debounce_counter_s2 ∧
    (s1_pressed s).second = s.second ∧
    (s1_pressed s).second_divider_count = s.second_divider_count := by
  simp only [s1_pressed, set_mode_calibrate_zero_scale, set_mode_calibrate_full_scale,
    set_mode_show_time, show_time, subtract_minute, add_hour]
  split_ifs <;> simp

theorem s2_pressed_frame (s : State) :
    (s2_pressed s).s1_active = s.s1_active ∧ (s2_pressed s).s2_active = s.s2_active ∧
    (s2_pressed s).debounce_counter_s1 = s.debounce_counter_s1 ∧
    (s2_pressed s).debounce_counter_s2 = s.debounce_counter_s2 ∧
    (s2_pressed s).second = s.second ∧
    (s2_pressed s).second_divider_count = s.second_divider_count := by
  simp only [s2_pressed, set_mode_calibrate_zero_scale, set_mode_calibrate_full_scale,
    set_mode_show_time, show_time, subtract_hour, add_minute]
  split_ifs <;> simp

theorem debounce_buttons_s1_frame (hdr : Header) (s : State) (rd : Nat) :
    (debounce_buttons_s1 hdr s rd).1.s2_active = s.s2_active ∧
    (debounce_buttons_s1 hdr s rd).1.debounce_counter_s2 = s.debounce_counter_s2 ∧
    (debounce_buttons_s1 hdr s rd).1.second = s.second ∧
    (debounce_buttons_s1 hdr s rd).1.second_divider_count = s.second_divider_count := by
  simp only [debounce_buttons_s1, s1_released]
  split_ifs <;> simp [(s1_pressed_frame _).2.1, (s1_pressed_frame _).2.2.2]

theorem debounce_buttons_s2_frame (hdr : Header) (s : State) (rd : Nat) :
    (debounce_buttons_s2 hdr s rd).1.s1_active = s.s1_active ∧
    (debounce_buttons_s2 hdr s rd).1.debounce_counter_s1 = s.debounce_counter_s1 ∧
    (debounce_buttons_s2 hdr s rd).1.second = s.second ∧
    (debounce_buttons_s2 hdr s rd).1.second_divider_count = s.second_divider_count := by
  simp only [debounce_buttons_s2, s2_released]
  split_ifs <;> simp [(s2_pressed_frame _).1, (s2_pressed_frame _).2.2]

theorem debounce_buttons_second (hdr : Header) (s : State) (rd : Nat × Nat) :
    (debounce_buttons hdr s rd).1.second = s.second := by
  simp only [debounce_buttons]
  rw [(debounce_buttons_s2_frame hdr _ _).2.2.1, (debounce_buttons_s1_frame hdr _ _).2.2.1]

theorem debounce_buttons_divider (hdr : Header) (s : State) (rd : Nat × Nat) :
    (debounce_buttons hdr s rd).1.second_divider_count = s.second_divider_count := by
  simp only [debounce_buttons]
  rw [(debounce_buttons_s2_frame hdr _ _).2.2.2, (debounce_buttons_s1_frame hdr _ _).2.2.2]

/-! ## Which events each part of the routine can produce -/

theorem debounce_buttons_s1_events (hdr : Header) (s : State) (rd : Nat) :
    (debounce_buttons_s1 hdr s rd).2 = [] ∨
    (debounce_buttons_s1 hdr s rd).2 = [Event.s1_pressed] ∨
    (debounce_buttons_s1 hdr s rd).2 = [Event.s1_released] := by
  simp only [debounce_buttons_s1]
  split_ifs <;> simp

theorem debounce_buttons_s2_events (hdr : Header) (s : State) (rd : Nat) :
    (debounce_buttons_s2 hdr s rd).2 = [] ∨
    (debounce_buttons_s2 hdr s rd).2 = [Event.s2_pressed] ∨
    (debounce_buttons_s2 hdr s rd).2 = [Event.s2_released] := by
  simp only [debounce_buttons_s2]
  split_ifs <;> simp

theorem tick_not_mem_debounce_buttons (hdr : Header) (s : State) (rd : Nat × Nat) :
    Event.tick_second ∉ (debounce_buttons hdr s rd).2 := by
  simp only [debounce_buttons, List.mem_append]
  rcases debounce_buttons_s1_events hdr s rd.1 with h | h | h <;>
    rcases debounce_buttons_s2_events hdr (debounce_buttons_s1 hdr s rd.1).1 rd.2 with
      g | g | g <;> simp [h, g]

theorem tick_not_mem_hardware_phase (hdr : Header) (s : State) :
    Event.tick_second ∉ hardware_phase hdr s := by
  simp [hardware_phase]

/-! ## The divider -/

theorem tick_second_frame (s : State) :
    (tick_second s).second_divider_count = s.second_divider_count ∧
    (tick_second s).meter_mode = s.meter_mode ∧
    (tick_second s).s1_active = s.s1_active ∧ (tick_second s).s2_active = s.s2_active ∧
    (tick_second s).debounce_counter_s1 = s.debounce_counter_s1 ∧
    (tick_second s).debounce_counter_s2 = s.debounce_counter_s2 := by
  simp only [tick_second, tick_minute, tick_hour]
  split_ifs <;> simp

theorem update_time_divider (s : State) :
    (update_time s).1.second_divider_count =
      if u16 ((s.second_divider_count : Int) - 1) = 0 then 512
      else u16 ((s.second_divider_count : Int) - 1) := by
  simp only [update_time, show_time, second_divider]
  split_ifs <;> simp [(tick_second_frame _).1]

theorem update_time_events (s : State) :
    (update_time s).2 =
      if u16 ((s.second_divider_count : Int) - 1) = 0 then [Event.tick_second] else [] := by
  simp only [update_time]
  split_ifs <;> rfl

theorem update_time_second (s : State) :
    (update_time s).1.second =
      if u16 ((s.second_divider_count : Int) - 1) = 0 then (tick_second s).second
      else s.second := by
  simp only [update_time, show_time, tick_second, tick_minute, tick_hour]
  split_ifs <;> simp

theorem Watchdog_ISR_divider (hdr : Header) (s : State) (rd : Nat × Nat) :
    (Watchdog_ISR hdr s rd).1.second_divider_count =
      if u16 ((s.second_divider_count : Int) - 1) = 0 then 512
      else u16 ((s.second_divider_count : Int) - 1) := by
  simp only [Watchdog_ISR]
  rw [debounce_buttons_divider, update_time_divider]

theorem Watchdog_ISR_second (hdr : Header) (s : State) (rd : Nat × Nat) :
    (Watchdog_ISR hdr s rd).1.second =
      if u16 ((s.second_divider_count : Int) - 1) = 0 then (tick_second s).second
      else s.second := by
  simp only [Watchdog_ISR]
  rw [debounce_buttons_second, update_time_second]

theorem Watchdog_ISR_tick_iff (hdr : Header) (s : State) (rd : Nat × Nat) :
    Event.tick_second ∈ (Watchdog_ISR hdr s rd).2 ↔
      u16 ((s.second_divider_count : Int) - 1) = 0 := by
  simp only [Watchdog_ISR, List.mem_append, update_time_events]
  have h1 := tick_not_mem_hardware_phase hdr s
  have h2 := tick_not_mem_debounce_buttons hdr (update_time s).1 rd
  split_ifs with h <;> simp [h, h1, h2]

theorem Watchdog_ISR_tick_count (hdr : Header) (s : State) (rd : Nat × Nat) :
    (Watchdog_ISR hdr s rd).2.count Event.tick_second ≤ 1 := by
  have h1 := tick_not_mem_hardware_phase hdr s
  have h2 := tick_not_mem_debounce_buttons hdr (update_time s).1 rd
  simp only [Watchdog_ISR, List.count_append, update_time_events,
    List.count_eq_zero_of_not_mem h1, List.count_eq_zero_of_not_mem h2]
  split_ifs <;> simp

theorem isrState_divider (hdr : Header) (ins : Nat → Nat × Nat) (n : Nat) :
    (isrState hdr init ins (n + 1)).second_divider_count = 512 - n % 512 := by
  induction n with
  | zero =>
    simp only [isrState, Watchdog_ISR_divider]
    decide
  | succ n ih =>
    rw [isrState, Watchdog_ISR_divider, ih]
    simp only [u16]
    split_ifs <;> omega

theorem isrEvents_tick_iff (hdr : Header) (ins : Nat → Nat × Nat) (n : Nat) :
    Event.tick_second ∈ isrEvents hdr init ins n ↔ n % 512 = 0 := by
  rw [isrEvents, Watchdog_ISR_tick_iff]
  cases n with
  | zero =>
    show u16 ((init.second_divider_count : Int) - 1) = 0 ↔ 0 % 512 = 0
    decide
  | succ n =>
    rw [isrState_divider]
    simp only [u16]
    omega

theorem isrState_second_first (hdr : Header) (ins : Nat → Nat × Nat) (n : Nat)
    (h1 : 1 ≤ n) (h2 : n ≤ 512) : (isrState hdr init ins n).second = 1 := by
  induction n with
  | zero => omega
  | succ n ih =>
    rw [isrState, Watchdog_ISR_second]
    cases n with
    | zero =>
      show (if u16 ((init.second_divider_count : Int) - 1) = 0 then (tick_second init).second
        else init.second) = 1
      decide
    | succ m =>
      rw [isrState_divider, ih (by omega) (by omega)]
      have : ¬ u16 (((512 - m % 512 : Nat) : Int) - 1) = 0 := by
        simp only [u16]
        omega
      rw [if_neg this]

/-- C2. In every run from cold start, whatever is read from the port: the
divider `second_divider_count` is in `[1, 512]` before every invocation, so its
decrement never wraps; an invocation calls `tick_second` at most once; after an
invocation that calls `tick_second`, the next 511 invocations do not and the
512th does; hence two consecutive calls are exactly 512 invocations apart. -/
theorem C2_second_every_512 (hdr : Header) (ins : Nat → Nat × Nat) :
    (∀ n, 1 ≤ (isrState hdr init ins n).second_divider_count ∧
        (isrState hdr init ins n).second_divider_count ≤ 512 ∧
        (u16 (((isrState hdr init ins n).second_divider_count : Int) - 1) : Int) =
          ((isrState hdr init ins n).second_divider_count : Int) - 1) ∧
    (∀ n, (isrEvents hdr init ins n).count Event.tick_second ≤ 1) ∧
    (∀ i, Event.tick_second ∈ isrEvents hdr init ins i →
        Event.tick_second ∈ isrEvents hdr init ins (i + 512) ∧
        ∀ k, i < k → k < i + 512 → Event.tick_second ∉ isrEvents hdr init ins k) ∧
    (∀ i j, i < j → Event.tick_second ∈ isrEvents hdr init ins i →
        Event.tick_second ∈ isrEvents hdr init ins j →
        (∀ k, i < k → k < j → Event.tick_second ∉ isrEvents hdr init ins k) →
        j = i + 512) := by
  refine ⟨fun n => ?_, fun n => Watchdog_ISR_tick_count hdr _ _, fun i hi => ?_,
    fun i j hij hi hj hk => ?_⟩
  · have key : 1 ≤ (isrState hdr init ins n).second_divider_count ∧
        (isrState hdr init ins n).second_divider_count ≤ 512 := by
      cases n with
      | zero => simp [isrState, init]
      | succ m =>
        rw [isrState_divider]
        omega
    refine ⟨key.1, key.2, ?_⟩
    simp only [u16]
    omega
  · rw [isrEvents_tick_iff] at hi
    refine ⟨by rw [isrEvents_tick_iff]; omega, fun k h1 h2 => ?_⟩
    rw [isrEvents_tick_iff]
    omega
  · rw [isrEvents_tick_iff] at hi hj
    by_contra hne
    have hlt : i + 512 < j := by omega
    have := hk (i + 512) (by omega) hlt
    rw [isrEvents_tick_iff] at this
    omega

/-- C2 on a run with both buttons released: the first invocation calls
`tick_second`, and so does the one 512 invocations later. -/
theorem C2_second_every_512_witness :
    Event.tick_second ∈ isrEvents msp430x20x2 init (fun _ => (9, 9)) 0 ∧
    Event.tick_second ∈ isrEvents msp430x20x2 init (fun _ => (9, 9)) 512 :=
  ⟨by decide,
    ((C2_second_every_512 msp430x20x2 (fun _ => (9, 9))).2.2.1 0 (by decide)).1⟩

/-- What the seed of 1 does on any run from cold start: the divider is 1 at
power-up and is reloaded with 512, so `Watchdog_ISR` calls `tick_second` on
its first invocation, on none of the following 511 invocations, and again on
the 513th; the second counter is 1 after each of the first 512 invocations
and 2 after the 513th. -/
theorem first_tick_schedule (hdr : Header) (ins : Nat → Nat × Nat) :
    init.second_divider_count = 1 ∧
    Event.tick_second ∈ isrEvents hdr init ins 0 ∧
    (∀ n, 1 ≤ n → n ≤ 511 → Event.tick_second ∉ isrEvents hdr init ins n) ∧
    Event.tick_second ∈ isrEvents hdr init ins 512 ∧
    (∀ n, 1 ≤ n → n ≤ 512 → (isrState hdr init ins n).second = 1) ∧
    (isrState hdr init ins 1).second_divider_count = 512 ∧
    (isrState hdr init ins 513).second = 2 := by
  refine ⟨rfl, ?_, fun n h1 h2 => ?_, ?_, fun n h1 h2 => ?_, ?_, ?_⟩
  · rw [isrEvents_tick_iff]
  · rw [isrEvents_tick_iff]
    omega
  · rw [isrEvents_tick_iff]
  · exact isrState_second_first hdr ins n h1 h2
  · rw [isrState_divider]
  · have h512 := isrState_second_first hdr ins 512 (by decide) (by decide)
    have hd := isrState_divider hdr ins 511
    rw [isrState, Watchdog_ISR_second, hd,
      tick_second_lt _ (by rw [h512]; decide)]
    simp only [h512]
    decide

/-- C3, evaluated on the run from cold start with both buttons released (port
value 9 on every read).  The divider `second_divider_count` is 1 at power-up,
not 512: the very first invocation of `Watchdog_ISR` calls `tick_second` and
leaves the second counter at 1 and the divider at 512; the 512th invocation
(index 511) does not call `tick_second`, the 513th does; and the second
counter is 1, not 0, after 511 invocations. -/
theorem C3_seed_is_one :
    init.second_divider_count = 1 ∧
    second_divider = 512 ∧
    Event.tick_second ∈ isrEvents msp430x20x2 init (fun _ => (9, 9)) 0 ∧
    (isrState msp430x20x2 init (fun _ => (9, 9)) 1).second = 1 ∧
    (isrState msp430x20x2 init (fun _ => (9, 9)) 1).second_divider_count = 512 ∧
    Event.tick_second ∉ isrEvents msp430x20x2 init (fun _ => (9, 9)) 511 ∧
    Event.tick_second ∈ isrEvents msp430x20x2 init (fun _ => (9, 9)) 512 ∧
    (isrState msp430x20x2 init (fun _ => (9, 9)) 511).second = 1 := by
  refine ⟨rfl, rfl, by decide, by decide, by decide, ?_, ?_,
    isrState_second_first _ _ 511 (by decide) (by decide)⟩
  · rw [isrEvents_tick_iff]
    decide
  · rw [isrEvents_tick_iff]

/-! ## One debounce step, button by button -/

theorem debounce_buttons_s1_step (hdr : Header) (s : State) (rd : Nat) :
    (debounce_buttons_s1 hdr s rd).1.s1_active =
      (if s.s1_active = 0 then
        if rd &&& S1_BIT hdr = 0 then
          if u8 ((s.debounce_counter_s1 : Int) + 1) = 16 then 1 else 0
        else 0
      else if rd &&& S1_BIT hdr = 0 then s.s1_active else 0) ∧
    (debounce_buttons_s1 hdr s rd).1.debounce_counter_s1 =
      (if s.s1_active = 0 then
        if rd &&& S1_BIT hdr = 0 then u8 ((s.debounce_counter_s1 : Int) + 1) else 0
      else s.debounce_counter_s1) ∧
    (debounce_buttons_s1 hdr s rd).2 =
      (if s.s1_active = 0 then
        if rd &&& S1_BIT hdr = 0 then
          if u8 ((s.debounce_counter_s1 : Int) + 1) = 16 then [Event.s1_pressed] else []
        else []
      else if rd &&& S1_BIT hdr = 0 then [] else [Event.s1_released]) := by
  simp only [debounce_buttons_s1, s1_released, debounce_wait]
  split_ifs <;> simp_all [(s1_pressed_frame _).1, (s1_pressed_frame _).2.2.1]

theorem debounce_buttons_s2_step (hdr : Header) (s : State) (rd : Nat) :
    (debounce_buttons_s2 hdr s rd).1.s2_active =
      (if s.s2_active = 0 then
        if rd &&& S2_BIT hdr = 0 then
          if u8 ((s.debounce_counter_s2 : Int) + 1) = 16 then 1 else 0
        else 0
      else if rd &&& S2_BIT hdr = 0 then s.s2_active else 0) ∧
    (debounce_buttons_s2 hdr s rd).1.debounce_counter_s2 =
      (if s.s2_active = 0 then
        if rd &&& S2_BIT hdr = 0 then u8 ((s.debounce_counter_s2 : Int) + 1) else 0
      else s.debounce_counter_s2) ∧
    (debounce_buttons_s2 hdr s rd).2 =
      (if s.s2_active = 0 then
        if rd &&& S2_BIT hdr = 0 then
          if u8 ((s.debounce_counter_s2 : Int) + 1) = 16 then [Event.s2_pressed] else []
        else []
      else if rd &&& S2_BIT hdr = 0 then [] else [Event.s2_released]) := by
  simp only [debounce_buttons_s2, s2_released, debounce_wait]
  split_ifs <;> simp_all [(s2_pressed_frame _).2.1, (s2_pressed_frame _).2.2.2.1]

/-- Number of S1 events (calls of `s1_pressed`, calls of `s1_released`) and
the S1 part of the state after one call of `debounce_buttons`. -/
theorem debounce_buttons_s1_view (hdr : Header) (s : State) (rd : Nat × Nat) :
    (debounce_buttons hdr s rd).1.s1_active = (debounce_buttons_s1 hdr s rd.1).1.s1_active ∧
    (debounce_buttons hdr s rd).1.debounce_counter_s1 =
      (debounce_buttons_s1 hdr s rd.1).1.debounce_counter_s1 ∧
    (debounce_buttons hdr s rd).2.count Event.s1_pressed =
      (debounce_buttons_s1 hdr s rd.1).2.count Event.s1_pressed ∧
    (debounce_buttons hdr s rd).2.count Event.s1_released =
      (debounce_buttons_s1 hdr s rd.1).2.count Event.s1_released := by
  simp only [debounce_buttons, List.count_append]
  refine ⟨(debounce_buttons_s2_frame hdr _ _).1, (debounce_buttons_s2_frame hdr _ _).2.1, ?_, ?_⟩ <;>
    rcases debounce_buttons_s2_events hdr (debounce_buttons_s1 hdr s rd.1).1 rd.2 with
      g | g | g <;> simp [g]

/-- Number of S2 events and the S2 part of the state after one call of
`debounce_buttons`: those of the second half, run on a state whose S2 part is
still that of `s`. -/
theorem debounce_buttons_s2_view (hdr : Header) (s : State) (rd : Nat × Nat) :
    (debounce_buttons_s1 hdr s rd.1).1.s2_active = s.s2_active ∧
    (debounce_buttons_s1 hdr s rd.1).1.debounce_counter_s2 = s.debounce_counter_s2 ∧
    (debounce_buttons hdr s rd).1 =
      (debounce_buttons_s2 hdr (debounce_buttons_s1 hdr s rd.1).1 rd.2).1 ∧
    (debounce_buttons hdr s rd).2.count Event.s2_pressed =
      (debounce_buttons_s2 hdr (debounce_buttons_s1 hdr s rd.1).1 rd.2).2.count
        Event.s2_pressed ∧
    (debounce_buttons hdr s rd).2.count Event.s2_released =
      (debounce_buttons_s2 hdr (debounce_buttons_s1 hdr s rd.1).1 rd.2).2.count
        Event.s2_released := by
  simp only [debounce_buttons, List.count_append]
  refine ⟨(debounce_buttons_s1_frame hdr _ _).1, (debounce_buttons_s1_frame hdr _ _).2.1,
    trivial, ?_, ?_⟩ <;>
    rcases debounce_buttons_s1_events hdr s rd.1 with g | g | g <;> simp [g]

/-- The S1 part of one call of `debounce_buttons`, as a function of the S1
part of the state and of the S1 line. -/
theorem debounce_buttons_s1_spec (hdr : Header) (s : State) (rd : Nat × Nat) :
    (debounce_buttons hdr s rd).1.s1_active =
      (if s.s1_active = 0 then
        if rd.1 &&& S1_BIT hdr = 0 then
          if u8 ((s.debounce_counter_s1 : Int) + 1) = 16 then 1 else 0
        else 0
      else if rd.1 &&& S1_BIT hdr = 0 then s.s1_active else 0) ∧
    (debounce_buttons hdr s rd).1.debounce_counter_s1 =
      (if s.s1_active = 0 then
        if rd.1 &&& S1_BIT hdr = 0 then u8 ((s.debounce_counter_s1 : Int) + 1) else 0
      else s.debounce_counter_s1) ∧
    (debounce_buttons hdr s rd).2.count Event.s1_pressed =
      (if s.s1_active = 0 ∧ rd.1 &&& S1_BIT hdr = 0 ∧
          u8 ((s.debounce_counter_s1 : Int) + 1) = 16 then 1 else 0) ∧
    (debounce_buttons hdr s rd).2.count Event.s1_released =
      (if s.s1_active ≠ 0 ∧ rd.1 &&& S1_BIT hdr ≠ 0 then 1 else 0) := by
  obtain ⟨v1, v2, v3, v4⟩ := debounce_buttons_s1_view hdr s rd
  obtain ⟨w1, w2, w3⟩ := debounce_buttons_s1_step hdr s rd.1
  rw [v1, v2, v3, v4, w1, w2, w3]
  refine ⟨rfl, rfl, ?_, ?_⟩ <;> split_ifs <;> simp_all

/-- The S2 part of one call of `debounce_buttons`, as a function of the S2
part of the state and of the S2 line. -/
theorem debounce_buttons_s2_spec (hdr : Header) (s : State) (rd : Nat × Nat) :
    (debounce_buttons hdr s rd).1.s2_active =
      (if s.s2_active = 0 then
        if rd.2 &&& S2_BIT hdr = 0 then
          if u8 ((s.debounce_counter_s2 : Int) + 1) = 16 then 1 else 0
        else 0
      else if rd.2 &&& S2_BIT hdr = 0 then s.s2_active else 0) ∧
    (debounce_buttons hdr s rd).1.debounce_counter_s2 =
      (if s.s2_active = 0 then
        if rd.2 &&& S2_BIT hdr = 0 then u8 ((s.debounce_counter_s2 : Int) + 1) else 0
      else s.debounce_counter_s2) ∧
    (debounce_buttons hdr s rd).2.count Event.s2_pressed =
      (if s.s2_active = 0 ∧ rd.2 &&& S2_BIT hdr = 0 ∧
          u8 ((s.debounce_counter_s2 : Int) + 1) = 16 then 1 else 0) ∧
    (debounce_buttons hdr s rd).2.count Event.s2_released =
      (if s.s2_active ≠ 0 ∧ rd.2 &&& S2_BIT hdr ≠ 0 then 1 else 0) := by
  obtain ⟨f1, f2, v0, v3, v4⟩ := debounce_buttons_s2_view hdr s rd
  obtain ⟨w1, w2, w3⟩ := debounce_buttons_s2_step hdr (debounce_buttons_s1 hdr s rd.1).1 rd.2
  rw [v0, v3, v4, w1, w2, w3, f1, f2]
  refine ⟨rfl, rfl, ?_, ?_⟩ <;> split_ifs <;> simp_all

/-! ## Runs of the debouncer -/

theorem debounceState_s1_counting (hdr : Header) (s0 : State) (ins : Nat → Nat × Nat)
    (ha : s0.s1_active = 0) (hc : s0.debounce_counter_s1 = 0) (k : Nat) (hk : k ≤ 15)
    (hp : ∀ i, i < k → (ins i).1 &&& S1_BIT hdr = 0) :
    (debounceState hdr s0 ins k).s1_active = 0 ∧
    (debounceState hdr s0 ins k).debounce_counter_s1 = k := by
  induction k with
  | zero => exact ⟨ha, hc⟩
  | succ k ih =>
    obtain ⟨i1, i2⟩ := ih (by omega) (fun i hi => hp i (by omega))
    obtain ⟨e1, e2, -, -⟩ := debounce_buttons_s1_spec hdr (debounceState hdr s0 ins k) (ins k)
    have hu : u8 ((k : Int) + 1) = k + 1 := u8_succ k (by omega)
    rw [debounceState, e1, e2, i1, i2, hu]
    simp only [hp k (by omega), if_true]
    exact ⟨if_neg (by omega), trivial⟩

theorem debounceState_s2_counting (hdr : Header) (s0 : State) (ins : Nat → Nat × Nat)
    (ha : s0.s2_active = 0) (hc : s0.debounce_counter_s2 = 0) (k : Nat) (hk : k ≤ 15)
    (hp : ∀ i, i < k → (ins i).2 &&& S2_BIT hdr = 0) :
    (debounceState hdr s0 ins k).s2_active = 0 ∧
    (debounceState hdr s0 ins k).debounce_counter_s2 = k := by
  induction k with
  | zero => exact ⟨ha, hc⟩
  | succ k ih =>
    obtain ⟨i1, i2⟩ := ih (by omega) (fun i hi => hp i (by omega))
    obtain ⟨e1, e2, -, -⟩ := debounce_buttons_s2_spec hdr (debounceState hdr s0 ins k) (ins k)
    have hu : u8 ((k : Int) + 1) = k + 1 := u8_succ k (by omega)
    rw [debounceState, e1, e2, i1, i2, hu]
    simp only [hp k (by omega), if_true]
    exact ⟨if_neg (by omega), trivial⟩

theorem debounceEvents_s1_counting (hdr : Header) (s0 : State) (ins : Nat → Nat × Nat)
    (ha : s0.s1_active = 0) (hc : s0.debounce_counter_s1 = 0) (k : Nat) (hk : k < 15)
    (hp : ∀ i, i < k → (ins i).1 &&& S1_BIT hdr = 0) :
    (debounceEvents hdr s0 ins k).count Event.s1_pressed = 0 ∧
    (debounceEvents hdr s0 ins k).count Event.s1_released = 0 := by
  obtain ⟨i1, i2⟩ := debounceState_s1_counting hdr s0 ins ha hc k (by omega) hp
  obtain ⟨-, -, e3, e4⟩ := debounce_buttons_s1_spec hdr (debounceState hdr s0 ins k) (ins k)
  have hu : u8 ((k : Int) + 1) = k + 1 := u8_succ k (by omega)
  rw [debounceEvents, e3, e4, i1, i2, hu]
  constructor
  · exact if_neg (by omega)
  · exact if_neg (by simp)

theorem debounceEvents_s2_counting (hdr : Header) (s0 : State) (ins : Nat → Nat × Nat)
    (ha : s0.s2_active = 0) (hc : s0.debounce_counter_s2 = 0) (k : Nat) (hk : k < 15)
    (hp : ∀ i, i < k → (ins i).2 &&& S2_BIT hdr = 0) :
    (debounceEvents hdr s0 ins k).count Event.s2_pressed = 0 ∧
    (debounceEvents hdr s0 ins k).count Event.s2_released = 0 := by
  obtain ⟨i1, i2⟩ := debounceState_s2_counting hdr s0 ins ha hc k (by omega) hp
  obtain ⟨-, -, e3, e4⟩ := debounce_buttons_s2_spec hdr (debounceState hdr s0 ins k) (ins k)
  have hu : u8 ((k : Int) + 1) = k + 1 := u8_succ k (by omega)
  rw [debounceEvents, e3, e4, i1, i2, hu]
  constructor
  · exact if_neg (by omega)
  · exact if_neg (by simp)

/-- C4. The debouncer of each button, started inactive with its counter at 0
and run by successive calls of `debounce_buttons` (whatever the rest of the
state and whatever the other line reads):
(i) 15 pressed samples then one released sample: none of the 16 calls calls
the button's `pressed` or `released` handler, and afterwards the button is
inactive with counter 0;
(ii) 16 pressed samples: no handler is called during the first 15 calls, where
the button stays inactive, and the 16th call calls the `pressed` handler
exactly once, the `released` handler not at all, and sets the active flag;
(iii) in any state where the button is active, a released sample clears the
active flag and calls the `released` handler exactly once (and `pressed` not at
all), and a pressed sample calls no handler and leaves the flag as it is. -/
theorem C4_debouncer (hdr : Header) :
    (∀ (s0 : State) (ins : Nat → Nat × Nat),
        s0.s1_active = 0 → s0.debounce_counter_s1 = 0 →
        (∀ i, i < 15 → (ins i).1 &&& S1_BIT hdr = 0) → (ins 15).1 &&& S1_BIT hdr ≠ 0 →
        (∀ i, i < 16 → (debounceEvents hdr s0 ins i).count Event.s1_pressed = 0 ∧
            (debounceEvents hdr s0 ins i).count Event.s1_released = 0) ∧
        (debounceState hdr s0 ins 16).s1_active = 0 ∧
        (debounceState hdr s0 ins 16).debounce_counter_s1 = 0) ∧
    (∀ (s0 : State) (ins : Nat → Nat × Nat),
        s0.s1_active = 0 → s0.debounce_counter_s1 = 0 →
        (∀ i, i < 16 → (ins i).1 &&& S1_BIT hdr = 0) →
        (∀ i, i < 15 → (debounceEvents hdr s0 ins i).count Event.s1_pressed = 0 ∧
            (debounceEvents hdr s0 ins i).count Event.s1_released = 0 ∧
            (debounceState hdr s0 ins (i + 1)).s1_active = 0) ∧
        (debounceEvents hdr s0 ins 15).count Event.s1_pressed = 1 ∧
        (debounceEvents hdr s0 ins 15).count Event.s1_released = 0 ∧
        (debounceState hdr s0 ins 16).s1_active = 1) ∧
    (∀ (s : State) (rd : Nat × Nat), s.s1_active ≠ 0 →
        (rd.1 &&& S1_BIT hdr ≠ 0 →
          (debounce_buttons hdr s rd).1.s1_active = 0 ∧
          (debounce_buttons hdr s rd).2.count Event.s1_released = 1 ∧
          (debounce_buttons hdr s rd).2.count Event.s1_pressed = 0) ∧
        (rd.1 &&& S1_BIT hdr = 0 →
          (debounce_buttons hdr s rd).1.s1_active = s.s1_active ∧
          (debounce_buttons hdr s rd).2.count Event.s1_released = 0 ∧
          (debounce_buttons hdr s rd).2.count Event.s1_pressed = 0)) ∧
    (∀ (s0 : State) (ins : Nat → Nat × Nat),
        s0.s2_active = 0 → s0.debounce_counter_s2 = 0 →
        (∀ i, i < 15 → (ins i).2 &&& S2_BIT hdr = 0) → (ins 15).2 &&& S2_BIT hdr ≠ 0 →
        (∀ i, i < 16 → (debounceEvents hdr s0 ins i).count Event.s2_pressed = 0 ∧
            (debounceEvents hdr s0 ins i).count Event.s2_released = 0) ∧
        (debounceState hdr s0 ins 16).s2_active = 0 ∧
        (debounceState hdr s0 ins 16).debounce_counter_s2 = 0) ∧
    (∀ (s0 : State) (ins : Nat → Nat × Nat),
        s0.s2_active = 0 → s0.debounce_counter_s2 = 0 →
        (∀ i, i < 16 → (ins i).2 &&& S2_BIT hdr = 0) →
        (∀ i, i < 15 → (debounceEvents hdr s0 ins i).count Event.s2_pressed = 0 ∧
            (debounceEvents hdr s0 ins i).count Event.s2_released = 0 ∧
            (debounceState hdr s0 ins (i + 1)).s2_active = 0) ∧
        (debounceEvents hdr s0 ins 15).count Event.s2_pressed = 1 ∧
        (debounceEvents hdr s0 ins 15).count Event.s2_released = 0 ∧
        (debounceState hdr s0 ins 16).s2_active = 1) ∧
    (∀ (s : State) (rd : Nat × Nat), s.s2_active ≠ 0 →
        (rd.2 &&& S2_BIT hdr ≠ 0 →
          (debounce_buttons hdr s rd).1.s2_active = 0 ∧
          (debounce_buttons hdr s rd).2.count Event.s2_released = 1 ∧
          (debounce_buttons hdr s rd).2.count Event.s2_pressed = 0) ∧
        (rd.2 &&& S2_BIT hdr = 0 →
          (debounce_buttons hdr s rd).1.s2_active = s.s2_active ∧
          (debounce_buttons hdr s rd).2.count Event.s2_released = 0 ∧
          (debounce_buttons hdr s rd).2.count Event.s2_pressed = 0)) := by
  refine ⟨fun s0 ins ha hc hp hr => ?_, fun s0 ins ha hc hp => ?_, fun s rd ha => ?_,
    fun s0 ins ha hc hp hr => ?_, fun s0 ins ha hc hp => ?_, fun s rd ha => ?_⟩
  · obtain ⟨i1, i2⟩ := debounceState_s1_counting hdr s0 ins ha hc 15 (by omega) hp
    obtain ⟨e1, e2, e3, e4⟩ :=
      debounce_buttons_s1_spec hdr (debounceState hdr s0 ins 15) (ins 15)
    refine ⟨fun i hi => ?_, ?_, ?_⟩
    · rcases Nat.lt_or_ge i 15 with h | h
      · exact debounceEvents_s1_counting hdr s0 ins ha hc i h (fun j hj => hp j (by omega))
      · have : i = 15 := by omega
        subst this
        rw [debounceEvents, e3, e4, i1]
        simp [hr]
    · rw [debounceState, e1, i1]
      simp [hr]
    · rw [debounceState, e2, i1]
      simp [hr]
  · obtain ⟨i1, i2⟩ :=
      debounceState_s1_counting hdr s0 ins ha hc 15 (by omega) (fun j hj => hp j (by omega))
    obtain ⟨e1, e2, e3, e4⟩ :=
      debounce_buttons_s1_spec hdr (debounceState hdr s0 ins 15) (ins 15)
    have hu : u8 ((15 : Nat) + 1 : Int) = 16 := by decide
    refine ⟨fun i hi => ?_, ?_, ?_, ?_⟩
    · obtain ⟨c1, c2⟩ :=
        debounceEvents_s1_counting hdr s0 ins ha hc i hi (fun j hj => hp j (by omega))
      exact ⟨c1, c2, (debounceState_s1_counting hdr s0 ins ha hc (i + 1) (by omega)
        (fun j hj => hp j (by omega))).1⟩
    · rw [debounceEvents, e3, i1, i2, hu]
      simp [hp 15 (by omega)]
    · rw [debounceEvents, e4, i1]
      simp
    · rw [debounceState, e1, i1, i2, hu]
      simp [hp 15 (by omega)]
  · obtain ⟨e1, e2, e3, e4⟩ := debounce_buttons_s1_spec hdr s rd
    refine ⟨fun hr => ?_, fun hr => ?_⟩
    · rw [e1, e3, e4]
      simp [ha, hr]
    · rw [e1, e3, e4]
      simp [ha, hr]
  · obtain ⟨i1, i2⟩ := debounceState_s2_counting hdr s0 ins ha hc 15 (by omega) hp
    obtain ⟨e1, e2, e3, e4⟩ :=
      debounce_buttons_s2_spec hdr (debounceState hdr s0 ins 15) (ins 15)
    refine ⟨fun i hi => ?_, ?_, ?_⟩
    · rcases Nat.lt_or_ge i 15 with h | h
      · exact debounceEvents_s2_counting hdr s0 ins ha hc i h (fun j hj => hp j (by omega))
      · have : i = 15 := by omega
        subst this
        rw [debounceEvents, e3, e4, i1]
        simp [hr]
    · rw [debounceState, e1, i1]
      simp [hr]
    · rw [debounceState, e2, i1]
      simp [hr]
  · obtain ⟨i1, i2⟩ :=
      debounceState_s2_counting hdr s0 ins ha hc 15 (by omega) (fun j hj => hp j (by omega))
    obtain ⟨e1, e2, e3, e4⟩ :=
      debounce_buttons_s2_spec hdr (debounceState hdr s0 ins 15) (ins 15)
    have hu : u8 ((15 : Nat) + 1 : Int) = 16 := by decide
    refine ⟨fun i hi => ?_, ?_, ?_, ?_⟩
    · obtain ⟨c1, c2⟩ :=
        debounceEvents_s2_counting hdr s0 ins ha hc i hi (fun j hj => hp j (by omega))
      exact ⟨c1, c2, (debounceState_s2_counting hdr s0 ins ha hc (i + 1) (by omega)
        (fun j hj => hp j (by omega))).1⟩
    · rw [debounceEvents, e3, i1, i2, hu]
      simp [hp 15 (by omega)]
    · rw [debounceEvents, e4, i1]
      simp
    · rw [debounceState, e1, i1, i2, hu]
      simp [hp 15 (by omega)]
  · obtain ⟨e1, e2, e3, e4⟩ := debounce_buttons_s2_spec hdr s rd
    refine ⟨fun hr => ?_, fun hr => ?_⟩
    · rw [e1, e3, e4]
      simp [ha, hr]
    · rw [e1, e3, e4]
      simp [ha, hr]

/-- C4 on the cold-start state with S1 held down (port value 8: bit 0 low,
bit 3 high): the 16th call of `debounce_buttons` calls `s1_pressed` once and
S1 is active after it. -/
theorem C4_debouncer_witness :
    (debounceEvents msp430x20x2 init (fun _ => (8, 8)) 15).count Event.s1_pressed = 1 ∧
    (debounceState msp430x20x2 init (fun _ => (8, 8)) 16).s1_active = 1 :=
  ⟨((C4_debouncer msp430x20x2).2.1 init (fun _ => (8, 8)) rfl rfl
      (fun _ _ => by show (8 : Nat) &&& S1_BIT msp430x20x2 = 0; decide)).2.1,
   ((C4_debouncer msp430x20x2).2.1 init (fun _ => (8, 8)) rfl rfl
      (fun _ _ => by show (8 : Nat) &&& S1_BIT msp430x20x2 = 0; decide)).2.2.2⟩

/-! ## Runs in which one button counts while the other is quiet

A button is quiet on a sample when its half of `debounce_buttons` changes
nothing: it is inactive with counter 0 and reads released, or it is active and
reads pressed. -/

theorem debounceState_shift (hdr : Header) (s0 : State) (ins : Nat → Nat × Nat)
    (n k : Nat) :
    debounceState hdr s0 ins (n + k) =
      debounceState hdr (debounceState hdr s0 ins n) (fun i => ins (n + i)) k := by
  induction k with
  | zero => rfl
  | succ k ih =>
    show (debounce_buttons hdr (debounceState hdr s0 ins (n + k)) (ins (n + k))).1 = _
    rw [ih]
    rfl

theorem debounce_buttons_s1_quiet (hdr : Header) (s : State) (rd : Nat)
    (hq : (s.s1_active = 0 ∧ s.debounce_counter_s1 = 0 ∧ rd &&& S1_BIT hdr ≠ 0) ∨
      (s.s1_active ≠ 0 ∧ rd &&& S1_BIT hdr = 0)) :
    debounce_buttons_s1 hdr s rd = (s, []) := by
  rcases hq with ⟨h1, h2, h3⟩ | ⟨h1, h2⟩
  · cases s
    simp_all [debounce_buttons_s1]
  · simp [debounce_buttons_s1, h1, h2]

theorem debounce_buttons_s2_quiet (hdr : Header) (s : State) (rd : Nat)
    (hq : (s.s2_active = 0 ∧ s.debounce_counter_s2 = 0 ∧ rd &&& S2_BIT hdr ≠ 0) ∨
      (s.s2_active ≠ 0 ∧ rd &&& S2_BIT hdr = 0)) :
    debounce_buttons_s2 hdr s rd = (s, []) := by
  rcases hq with ⟨h1, h2, h3⟩ | ⟨h1, h2⟩
  · cases s
    simp_all [debounce_buttons_s2]
  · simp [debounce_buttons_s2, h1, h2]

theorem debounceState_quiet (hdr : Header) (s0 : State) (ins : Nat → Nat × Nat) (k : Nat)
    (hq1 : ∀ i, i < k →
      (s0.s1_active = 0 ∧ s0.debounce_counter_s1 = 0 ∧ (ins i).1 &&& S1_BIT hdr ≠ 0) ∨
      (s0.s1_active ≠ 0 ∧ (ins i).1 &&& S1_BIT hdr = 0))
    (hq2 : ∀ i, i < k →
      (s0.s2_active = 0 ∧ s0.debounce_counter_s2 = 0 ∧ (ins i).2 &&& S2_BIT hdr ≠ 0) ∨
      (s0.s2_active ≠ 0 ∧ (ins i).2 &&& S2_BIT hdr = 0)) :
    debounceState hdr s0 ins k = s0 := by
  induction k with
  | zero => rfl
  | succ k ih =>
    rw [debounceState, ih (fun i hi => hq1 i (by omega)) (fun i hi => hq2 i (by omega))]
    simp only [debounce_buttons]
    rw [debounce_buttons_s1_quiet hdr s0 _ (hq1 k (by omega)),
      debounce_buttons_s2_quiet hdr s0 _ (hq2 k (by omega))]

theorem debounceState_s1_count (hdr : Header) (s0 : State) (ins : Nat → Nat × Nat)
    (h1 : s0.s1_active = 0) (c1 : s0.debounce_counter_s1 = 0) (k : Nat) (hk : k ≤ 15)
    (hp : ∀ i, i < k → (ins i).1 &&& S1_BIT hdr = 0)
    (hq2 : ∀ i, i < k →
      (s0.s2_active = 0 ∧ s0.debounce_counter_s2 = 0 ∧ (ins i).2 &&& S2_BIT hdr ≠ 0) ∨
      (s0.s2_active ≠ 0 ∧ (ins i).2 &&& S2_BIT hdr = 0)) :
    debounceState hdr s0 ins k = { s0 with debounce_counter_s1 := k } := by
  induction k with
  | zero => cases s0; simp_all [debounceState]
  | succ k ih =>
    have hu : u8 ((k : Int) + 1) = k + 1 := u8_succ k (by omega)
    have hne : ¬ (k + 1 = 16) := by omega
    rw [debounceState, ih (by omega) (fun i hi => hp i (by omega))
      (fun i hi => hq2 i (by omega))]
    simp only [debounce_buttons]
    have e1 : debounce_buttons_s1 hdr { s0 with debounce_counter_s1 := k } (ins k).1 =
        ({ s0 with debounce_counter_s1 := k + 1 }, []) := by
      simp [debounce_buttons_s1, debounce_wait, h1, hu, hne, hp k (by omega)]
    rw [e1]
    dsimp only
    rw [debounce_buttons_s2_quiet hdr { s0 with debounce_counter_s1 := k + 1 } (ins k).2
      (hq2 k (by omega))]

theorem debounceState_s2_count (hdr : Header) (s0 : State) (ins : Nat → Nat × Nat)
    (h2 : s0.s2_active = 0) (c2 : s0.debounce_counter_s2 = 0) (k : Nat) (hk : k ≤ 15)
    (hp : ∀ i, i < k → (ins i).2 &&& S2_BIT hdr = 0)
    (hq1 : ∀ i, i < k →
      (s0.s1_active = 0 ∧ s0.debounce_counter_s1 = 0 ∧ (ins i).1 &&& S1_BIT hdr ≠ 0) ∨
      (s0.s1_active ≠ 0 ∧ (ins i).1 &&& S1_BIT hdr = 0)) :
    debounceState hdr s0 ins k = { s0 with debounce_counter_s2 := k } := by
  induction k with
  | zero => cases s0; simp_all [debounceState]
  | succ k ih =>
    have hu : u8 ((k : Int) + 1) = k + 1 := u8_succ k (by omega)
    have hne : ¬ (k + 1 = 16) := by omega
    rw [debounceState, ih (by omega) (fun i hi => hp i (by omega))
      (fun i hi => hq1 i (by omega))]
    simp only [debounce_buttons]
    rw [debounce_buttons_s1_quiet hdr { s0 with debounce_counter_s2 := k } (ins k).1
      (hq1 k (by omega))]
    simp [debounce_buttons_s2, debounce_wait, h2, hu, hne, hp k (by omega)]

theorem debounceState_s1_fire (hdr : Header) (s0 : State) (ins : Nat → Nat × Nat)
    (h1 : s0.s1_active = 0) (c1 : s0.debounce_counter_s1 = 0)
    (hp : ∀ i, i < 16 → (ins i).1 &&& S1_BIT hdr = 0)
    (hq2 : ∀ i, i < 16 →
      (s0.s2_active = 0 ∧ s0.debounce_counter_s2 = 0 ∧ (ins i).2 &&& S2_BIT hdr ≠ 0) ∨
      (s0.s2_active ≠ 0 ∧ (ins i).2 &&& S2_BIT hdr = 0)) :
    debounceState hdr s0 ins 16 =
      s1_pressed { s0 with debounce_counter_s1 := 16, s1_active := 1 } ∧
    debounceEvents hdr s0 ins 15 = [Event.s1_pressed] := by
  have hu : u8 16 = 16 := by decide
  have hs := debounceState_s1_count hdr s0 ins h1 c1 15 (by omega)
    (fun i hi => hp i (by omega)) (fun i hi => hq2 i (by omega))
  have e1 : debounce_buttons_s1 hdr { s0 with debounce_counter_s1 := 15 } (ins 15).1 =
      (s1_pressed { s0 with debounce_counter_s1 := 16, s1_active := 1 },
        [Event.s1_pressed]) := by
    simp [debounce_buttons_s1, debounce_wait, h1, hu, hp 15 (by omega)]
  have q : (s1_pressed { s0 with debounce_counter_s1 := 16, s1_active := 1 }).s2_active =
        s0.s2_active ∧
      (s1_pressed { s0 with debounce_counter_s1 := 16, s1_active := 1 }).debounce_counter_s2 =
        s0.debounce_counter_s2 :=
    ⟨(s1_pressed_frame _).2.1, (s1_pressed_frame _).2.2.2.1⟩
  have e2 := debounce_buttons_s2_quiet hdr
    (s1_pressed { s0 with debounce_counter_s1 := 16, s1_active := 1 }) (ins 15).2
    (by rw [q.1, q.2]; exact hq2 15 (by omega))
  constructor
  · rw [debounceState, hs]
    simp only [debounce_buttons]
    rw [e1]
    dsimp only
    rw [e2]
  · rw [debounceEvents, hs]
    simp only [debounce_buttons]
    rw [e1]
    dsimp only
    rw [e2]
    rfl

theorem debounceState_s2_fire (hdr : Header) (s0 : State) (ins : Nat → Nat × Nat)
    (h2 : s0.s2_active = 0) (c2 : s0.debounce_counter_s2 = 0)
    (hp : ∀ i, i < 16 → (ins i).2 &&& S2_BIT hdr = 0)
    (hq1 : ∀ i, i < 16 →
      (s0.s1_active = 0 ∧ s0.debounce_counter_s1 = 0 ∧ (ins i).1 &&& S1_BIT hdr ≠ 0) ∨
      (s0.s1_active ≠ 0 ∧ (ins i).1 &&& S1_BIT hdr = 0)) :
    debounceState hdr s0 ins 16 =
      s2_pressed { s0 with debounce_counter_s2 := 16, s2_active := 1 } ∧
    debounceEvents hdr s0 ins 15 = [Event.s2_pressed] := by
  have hu : u8 16 = 16 := by decide
  have hs := debounceState_s2_count hdr s0 ins h2 c2 15 (by omega)
    (fun i hi => hp i (by omega)) (fun i hi => hq1 i (by omega))
  have e1 := debounce_buttons_s1_quiet hdr { s0 with debounce_counter_s2 := 15 } (ins 15).1
    (hq1 15 (by omega))
  have e2 : debounce_buttons_s2 hdr { s0 with debounce_counter_s2 := 15 } (ins 15).2 =
      (s2_pressed { s0 with debounce_counter_s2 := 16, s2_active := 1 },
        [Event.s2_pressed]) := by
    simp [debounce_buttons_s2, debounce_wait, h2, hu, hp 15 (by omega)]
  constructor
  · rw [debounceState, hs]
    simp only [debounce_buttons]
    rw [e1]
    dsimp only
    rw [e2]
  · rw [debounceEvents, hs]
    simp only [debounce_buttons]
    rw [e1]
    dsimp only
    rw [e2]
    rfl

theorem debounceEvents_shift (hdr : Header) (s0 : State) (ins : Nat → Nat × Nat)
    (n k : Nat) :
    debounceEvents hdr s0 ins (n + k) =
      debounceEvents hdr (debounceState hdr s0 ins n) (fun i => ins (n + i)) k := by
  simp only [debounceEvents, debounceState_shift]

/-! ## The two-button combination -/

/-- S2 first, then S1: the states after S2's activation and after S1's. -/
theorem combo_s2_then_s1 (hdr : Header) (s0 : State) (ins : Nat → Nat × Nat) (a : Nat)
    (h1 : s0.s1_active = 0) (h2 : s0.s2_active = 0)
    (c1 : s0.debounce_counter_s1 = 0) (c2 : s0.debounce_counter_s2 = 0)
    (ha : 16 ≤ a)
    (hp2 : ∀ i, i < a + 16 → (ins i).2 &&& S2_BIT hdr = 0)
    (hr1 : ∀ i, i < a → (ins i).1 &&& S1_BIT hdr ≠ 0)
    (hp1 : ∀ i, a ≤ i → i < a + 16 → (ins i).1 &&& S1_BIT hdr = 0) :
    debounceState hdr s0 ins 16 =
      s2_pressed { s0 with debounce_counter_s2 := 16, s2_active := 1 } ∧
    debounceEvents hdr s0 ins 15 = [Event.s2_pressed] ∧
    debounceState hdr s0 ins (a + 16) =
      s1_pressed { s2_pressed { s0 with debounce_counter_s2 := 16, s2_active := 1 } with
        debounce_counter_s1 := 16, s1_active := 1 } ∧
    debounceEvents hdr s0 ins (a + 15) = [Event.s1_pressed] := by
  obtain ⟨f16, e15⟩ := debounceState_s2_fire hdr s0 ins h2 c2
    (fun i hi => hp2 i (by omega)) (fun i hi => Or.inl ⟨h1, c1, hr1 i (by omega)⟩)
  have fr := s2_pressed_frame { s0 with debounce_counter_s2 := 16, s2_active := 1 }
  have g1 : (debounceState hdr s0 ins 16).s1_active = 0 := by rw [f16, fr.1]; exact h1
  have g2 : (debounceState hdr s0 ins 16).s2_active ≠ 0 := by rw [f16, fr.2.1]; exact Nat.one_ne_zero
  have g3 : (debounceState hdr s0 ins 16).debounce_counter_s1 = 0 := by
    rw [f16, fr.2.2.1]; exact c1
  obtain ⟨j, rfl⟩ : ∃ j, a = 16 + j := ⟨a - 16, by omega⟩
  have fa : debounceState hdr s0 ins (16 + j) = debounceState hdr s0 ins 16 := by
    rw [debounceState_shift]
    exact debounceState_quiet hdr _ _ j
      (fun i hi => Or.inl ⟨g1, g3, hr1 (16 + i) (by omega)⟩)
      (fun i hi => Or.inr ⟨g2, hp2 (16 + i) (by omega)⟩)
  obtain ⟨ff, ef⟩ := debounceState_s1_fire hdr (debounceState hdr s0 ins (16 + j))
    (fun i => ins (16 + j + i)) (by rw [fa]; exact g1) (by rw [fa]; exact g3)
    (fun i hi => hp1 (16 + j + i) (by omega) (by omega))
    (fun i hi => Or.inr ⟨by rw [fa]; exact g2, hp2 (16 + j + i) (by omega)⟩)
  refine ⟨f16, e15, ?_, ?_⟩
  · rw [debounceState_shift, ff, fa, f16]
  · rw [debounceEvents_shift, ef]

/-- S1 first, then S2: the states after S1's activation and after S2's. -/
theorem combo_s1_then_s2 (hdr : Header) (s0 : State) (ins : Nat → Nat × Nat) (a : Nat)
    (h1 : s0.s1_active = 0) (h2 : s0.s2_active = 0)
    (c1 : s0.debounce_counter_s1 = 0) (c2 : s0.debounce_counter_s2 = 0)
    (ha : 16 ≤ a)
    (hp1 : ∀ i, i < a + 16 → (ins i).1 &&& S1_BIT hdr = 0)
    (hr2 : ∀ i, i < a → (ins i).2 &&& S2_BIT hdr ≠ 0)
    (hp2 : ∀ i, a ≤ i → i < a + 16 → (ins i).2 &&& S2_BIT hdr = 0) :
    debounceState hdr s0 ins 16 =
      s1_pressed { s0 with debounce_counter_s1 := 16, s1_active := 1 } ∧
    debounceEvents hdr s0 ins 15 = [Event.s1_pressed] ∧
    debounceState hdr s0 ins (a + 16) =
      s2_pressed { s1_pressed { s0 with debounce_counter_s1 := 16, s1_active := 1 } with
        debounce_counter_s2 := 16, s2_active := 1 } ∧
    debounceEvents hdr s0 ins (a + 15) = [Event.s2_pressed] := by
  obtain ⟨f16, e15⟩ := debounceState_s1_fire hdr s0 ins h1 c1
    (fun i hi => hp1 i (by omega)) (fun i hi => Or.inl ⟨h2, c2, hr2 i (by omega)⟩)
  have fr := s1_pressed_frame { s0 with debounce_counter_s1 := 16, s1_active := 1 }
  have g1 : (debounceState hdr s0 ins 16).s2_active = 0 := by rw [f16, fr.2.1]; exact h2
  have g2 : (debounceState hdr s0 ins 16).s1_active ≠ 0 := by rw [f16, fr.1]; exact Nat.one_ne_zero
  have g3 : (debounceState hdr s0 ins 16).debounce_counter_s2 = 0 := by
    rw [f16, fr.2.2.2.1]; exact c2
  obtain ⟨j, rfl⟩ : ∃ j, a = 16 + j := ⟨a - 16, by omega⟩
  have fa : debounceState hdr s0 ins (16 + j) = debounceState hdr s0 ins 16 := by
    rw [debounceState_shift]
    exact debounceState_quiet hdr _ _ j
      (fun i hi => Or.inr ⟨g2, hp1 (16 + i) (by omega)⟩)
      (fun i hi => Or.inl ⟨g1, g3, hr2 (16 + i) (by omega)⟩)
  obtain ⟨ff, ef⟩ := debounceState_s2_fire hdr (debounceState hdr s0 ins (16 + j))
    (fun i => ins (16 + j + i)) (by rw [fa]; exact g1) (by rw [fa]; exact g3)
    (fun i hi => hp2 (16 + j + i) (by omega) (by omega))
    (fun i hi => Or.inr ⟨by rw [fa]; exact g2, hp1 (16 + j + i) (by omega)⟩)
  refine ⟨f16, e15, ?_, ?_⟩
  · rw [debounceState_shift, ff, fa, f16]
  · rw [debounceEvents_shift, ef]

/-- Lone S2 press in show-time mode, then S1 with S2 active: the time is
back where it was and the mode is calibrate-zero. -/
theorem s1_after_s2_fields (s : State) (hm : s.meter_mode = METER_MODE_SHOW_TIME)
    (h1 : s.s1_active = 0) (hh : s.hour ≤ 11) (hmin : s.minute ≤ 59) (c1 c2 : Nat) :
    (s2_pressed { s with debounce_counter_s2 := c2, s2_active := 1 }).minute =
      (s.minute + 1) % 60 ∧
    (s2_pressed { s with debounce_counter_s2 := c2, s2_active := 1 }).hour = s.hour ∧
    (s2_pressed { s with debounce_counter_s2 := c2, s2_active := 1 }).meter_mode =
      METER_MODE_SHOW_TIME ∧
    (s2_pressed { s with debounce_counter_s2 := c2, s2_active := 1 }).timer_count_h =
      64 - 5 * s.hour ∧
    (s2_pressed { s with debounce_counter_s2 := c2, s2_active := 1 }).timer_count_m =
      64 - (s.minute + 1) % 60 ∧
    s1_pressed { s2_pressed { s with debounce_counter_s2 := c2, s2_active := 1 } with
        debounce_counter_s1 := c1, s1_active := 1 } =
      { s with debounce_counter_s1 := c1, s1_active := 1, debounce_counter_s2 := c2,
               s2_active := 1, meter_mode := METER_MODE_CALIBRATE_ZERO_SCALE,
               timer_count_h := 64, timer_count_m := 64 } := by
  have e64 : u8 64 = 64 := by decide
  have eh : u8 (64 - (s.hour : Int) * 5) = 64 - 5 * s.hour := by
    simp only [u8]; omega
  rcases Nat.lt_or_ge s.minute 59 with hlt | hge
  · have ea : u8 ((s.minute : Int) + 1) = s.minute + 1 := u8_succ _ (by omega)
    have e60 : (s.minute + 1) % 60 = s.minute + 1 := by omega
    simp [s1_pressed, s2_pressed, show_time, add_minute, subtract_minute,
      set_mode_calibrate_zero_scale, hm, h1, hlt, ea, e60, eh, e64,
      METER_MODE_SHOW_TIME, METER_MODE_CALIBRATE_ZERO_SCALE]
    constructor <;> simp only [u8] <;> omega
  · have h59 : s.minute = 59 := by omega
    simp [s1_pressed, s2_pressed, show_time, add_minute, subtract_minute,
      set_mode_calibrate_zero_scale, hm, h1, h59, eh, e64,
      METER_MODE_SHOW_TIME, METER_MODE_CALIBRATE_ZERO_SCALE]

/-- Lone S1 press in show-time mode, then S2 with S1 active: the time is
back where it was and the mode is calibrate-zero. -/
theorem s2_after_s1_fields (s : State) (hm : s.meter_mode = METER_MODE_SHOW_TIME)
    (h2 : s.s2_active = 0) (hh : s.hour ≤ 11) (hmin : s.minute ≤ 59) (c1 c2 : Nat) :
    (s1_pressed { s with debounce_counter_s1 := c1, s1_active := 1 }).hour =
      (s.hour + 1) % 12 ∧
    (s1_pressed { s with debounce_counter_s1 := c1, s1_active := 1 }).minute = s.minute ∧
    (s1_pressed { s with debounce_counter_s1 := c1, s1_active := 1 }).meter_mode =
      METER_MODE_SHOW_TIME ∧
    (s1_pressed { s with debounce_counter_s1 := c1, s1_active := 1 }).timer_count_h =
      64 - 5 * ((s.hour + 1) % 12) ∧
    (s1_pressed { s with debounce_counter_s1 := c1, s1_active := 1 }).timer_count_m =
      64 - s.minute ∧
    s2_pressed { s1_pressed { s with debounce_counter_s1 := c1, s1_active := 1 } with
        debounce_counter_s2 := c2, s2_active := 1 } =
      { s with debounce_counter_s1 := c1, s1_active := 1, debounce_counter_s2 := c2,
               s2_active := 1, meter_mode := METER_MODE_CALIBRATE_ZERO_SCALE,
               timer_count_h := 64, timer_count_m := 64 } := by
  have e64 : u8 64 = 64 := by decide
  have em : u8 (64 - (s.minute : Int)) = 64 - s.minute := by
    simp only [u8]; omega
  rcases Nat.lt_or_ge s.hour 11 with hlt | hge
  · have ea : u8 ((s.hour : Int) + 1) = s.hour + 1 := u8_succ _ (by omega)
    have e12 : (s.hour + 1) % 12 = s.hour + 1 := by omega
    simp [s1_pressed, s2_pressed, show_time, add_hour, subtract_hour,
      set_mode_calibrate_zero_scale, hm, h2, hlt, ea, e12, em, e64,
      METER_MODE_SHOW_TIME, METER_MODE_CALIBRATE_ZERO_SCALE]
    constructor <;> simp only [u8] <;> omega
  · have h11 : s.hour = 11 := by omega
    simp [s1_pressed, s2_pressed, show_time, add_hour, subtract_hour,
      set_mode_calibrate_zero_scale, hm, h2, h11, em, e64,
      METER_MODE_SHOW_TIME, METER_MODE_CALIBRATE_ZERO_SCALE]

/-- C6. Combo scenario, run by successive calls of `debounce_buttons` (so with
no call of `tick_second` in between), from any state in show-time mode with an
in-range time, both buttons inactive and both counters 0.
S2 first: if S2 reads pressed on the first `a + 16` samples, and S1 reads
released on the first `a ≥ 16` of them and pressed on the last 16, then call 16
(index 15) calls `s2_pressed`, after which S2 is active, the minute is
`(minute + 1) mod 60`, the mode is still show-time and the outputs are those of
the new time; and call `a + 16` calls `s1_pressed`, after which minute, hour
and second have their original values, the mode is calibrate-zero and the
outputs are (64, 64).
S1 first: symmetrically, with the hour going to `(hour + 1) mod 12` and back. -/
theorem C6_combo (hdr : Header) (s0 : State) (ins : Nat → Nat × Nat) (a : Nat)
    (ht : TimeInRange s0) (hm : s0.meter_mode = METER_MODE_SHOW_TIME)
    (h1 : s0.s1_active = 0) (h2 : s0.s2_active = 0)
    (c1 : s0.debounce_counter_s1 = 0) (c2 : s0.debounce_counter_s2 = 0)
    (ha : 16 ≤ a) :
    ((∀ i, i < a + 16 → (ins i).2 &&& S2_BIT hdr = 0) →
      (∀ i, i < a → (ins i).1 &&& S1_BIT hdr ≠ 0) →
      (∀ i, a ≤ i → i < a + 16 → (ins i).1 &&& S1_BIT hdr = 0) →
      (debounceEvents hdr s0 ins 15 = [Event.s2_pressed] ∧
        (debounceState hdr s0 ins 16).s2_active = 1 ∧
        (debounceState hdr s0 ins 16).s1_active = 0 ∧
        (debounceState hdr s0 ins 16).minute = (s0.minute + 1) % 60 ∧
        (debounceState hdr s0 ins 16).hour = s0.hour ∧
        (debounceState hdr s0 ins 16).meter_mode = METER_MODE_SHOW_TIME ∧
        (debounceState hdr s0 ins 16).timer_count_h = 64 - 5 * s0.hour ∧
        (debounceState hdr s0 ins 16).timer_count_m = 64 - (s0.minute + 1) % 60) ∧
      (debounceEvents hdr s0 ins (a + 15) = [Event.s1_pressed] ∧
        (debounceState hdr s0 ins (a + 16)).minute = s0.minute ∧
        (debounceState hdr s0 ins (a + 16)).hour = s0.hour ∧
        (debounceState hdr s0 ins (a + 16)).second = s0.second ∧
        (debounceState hdr s0 ins (a + 16)).meter_mode = METER_MODE_CALIBRATE_ZERO_SCALE ∧
        (debounceState hdr s0 ins (a + 16)).timer_count_h = 64 ∧
        (debounceState hdr s0 ins (a + 16)).timer_count_m = 64 ∧
        (debounceState hdr s0 ins (a + 16)).s1_active = 1 ∧
        (debounceState hdr s0 ins (a + 16)).s2_active = 1)) ∧
    ((∀ i, i < a + 16 → (ins i).1 &&& S1_BIT hdr = 0) →
      (∀ i, i < a → (ins i).2 &&& S2_BIT hdr ≠ 0) →
      (∀ i, a ≤ i → i < a + 16 → (ins i).2 &&& S2_BIT hdr = 0) →
      (debounceEvents hdr s0 ins 15 = [Event.s1_pressed] ∧
        (debounceState hdr s0 ins 16).s1_active = 1 ∧
        (debounceState hdr s0 ins 16).s2_active = 0 ∧
        (debounceState hdr s0 ins 16).hour = (s0.hour + 1) % 12 ∧
        (debounceState hdr s0 ins 16).minute = s0.minute ∧
        (debounceState hdr s0 ins 16).meter_mode = METER_MODE_SHOW_TIME ∧
        (debounceState hdr s0 ins 16).timer_count_h = 64 - 5 * ((s0.hour + 1) % 12) ∧
        (debounceState hdr s0 ins 16).timer_count_m = 64 - s0.minute) ∧
      (debounceEvents hdr s0 ins (a + 15) = [Event.s2_pressed] ∧
        (debounceState hdr s0 ins (a + 16)).minute = s0.minute ∧
        (debounceState hdr s0 ins (a + 16)).hour = s0.hour ∧
        (debounceState hdr s0 ins (a + 16)).second = s0.second ∧
        (debounceState hdr s0 ins (a + 16)).meter_mode = METER_MODE_CALIBRATE_ZERO_SCALE ∧
        (debounceState hdr s0 ins (a + 16)).timer_count_h = 64 ∧
        (debounceState hdr s0 ins (a + 16)).timer_count_m = 64 ∧
        (debounceState hdr s0 ins (a + 16)).s1_active = 1 ∧
        (debounceState hdr s0 ins (a + 16)).s2_active = 1)) := by
  obtain ⟨hh, hmin, -⟩ := ht
  constructor
  · intro hp2 hr1 hp1
    obtain ⟨f16, e15, ff, ef⟩ := combo_s2_then_s1 hdr s0 ins a h1 h2 c1 c2 ha hp2 hr1 hp1
    obtain ⟨m1, m2, m3, m4, m5, m6⟩ := s1_after_s2_fields s0 hm h1 hh hmin 16 16
    have fr := s2_pressed_frame { s0 with debounce_counter_s2 := 16, s2_active := 1 }
    refine ⟨⟨e15, ?_, ?_, ?_, ?_, ?_, ?_, ?_⟩, ef, ?_⟩
    · rw [f16, fr.2.1]
    · rw [f16, fr.1]; exact h1
    · rw [f16, m1]
    · rw [f16, m2]
    · rw [f16, m3]
    · rw [f16, m4]
    · rw [f16, m5]
    · rw [ff, m6]
      exact ⟨rfl, rfl, rfl, rfl, rfl, rfl, rfl, rfl⟩
  · intro hp1 hr2 hp2
    obtain ⟨f16, e15, ff, ef⟩ := combo_s1_then_s2 hdr s0 ins a h1 h2 c1 c2 ha hp1 hr2 hp2
    obtain ⟨m1, m2, m3, m4, m5, m6⟩ := s2_after_s1_fields s0 hm h2 hh hmin 16 16
    have fr := s1_pressed_frame { s0 with debounce_counter_s1 := 16, s1_active := 1 }
    refine ⟨⟨e15, ?_, ?_, ?_, ?_, ?_, ?_, ?_⟩, ef, ?_⟩
    · rw [f16, fr.1]
    · rw [f16, fr.2.1]; exact h2
    · rw [f16, m1]
    · rw [f16, m2]
    · rw [f16, m3]
    · rw [f16, m4]
    · rw [f16, m5]
    · rw [ff, m6]
      exact ⟨rfl, rfl, rfl, rfl, rfl, rfl, rfl, rfl⟩

/-- C6 from the cold-start state (06:30): S2 is held on all 32 samples, S1 is
up on the first 16 and down on the last 16; the minute goes to 31 and back to
30, and the mode ends as calibrate-zero with outputs (64, 64). -/
theorem C6_combo_witness :
    (debounceState msp430x20x2 init (fun i => (if i < 16 then 1 else 0, 0)) 16).minute = 31 ∧
    (debounceState msp430x20x2 init (fun i => (if i < 16 then 1 else 0, 0)) 32).minute = 30 ∧
    (debounceState msp430x20x2 init (fun i => (if i < 16 then 1 else 0, 0)) 32).meter_mode =
      METER_MODE_CALIBRATE_ZERO_SCALE ∧
    (debounceState msp430x20x2 init (fun i => (if i < 16 then 1 else 0, 0)) 32).timer_count_h
      = 64 ∧
    (debounceState msp430x20x2 init (fun i => (if i < 16 then 1 else 0, 0)) 32).timer_count_m
      = 64 := by
  have h := (C6_combo msp430x20x2 init (fun i => (if i < 16 then 1 else 0, 0)) 16
    (by decide) rfl rfl rfl rfl rfl (Nat.le_refl 16)).1
    (fun i _ => by show (0 : Nat) &&& S2_BIT msp430x20x2 = 0; decide)
    (fun i hi => by
      show (if i < 16 then 1 else 0) &&& S1_BIT msp430x20x2 ≠ 0
      rw [if_pos hi]; decide)
    (fun i hi _ => by
      show (if i < 16 then 1 else 0) &&& S1_BIT msp430x20x2 = 0
      rw [if_neg (by omega)]; decide)
  exact ⟨h.1.2.2.2.1, h.2.2.1, h.2.2.2.2.2.1, h.2.2.2.2.2.2.1, h.2.2.2.2.2.2.2.1⟩

/-! ## Mode transitions -/

theorem s1_pressed_mode (s : State) :
    (s1_pressed s).meter_mode = s.meter_mode ∨
    (s.s2_active ≠ 0 ∧ s.meter_mode ≤ 2 ∧
      (s1_pressed s).meter_mode = (s.meter_mode + 1) % 3) := by
  simp only [s1_pressed, set_mode_calibrate_zero_scale, set_mode_calibrate_full_scale,
    set_mode_show_time, show_time, subtract_minute, add_hour, METER_MODE_SHOW_TIME,
    METER_MODE_CALIBRATE_ZERO_SCALE, METER_MODE_CALIBRATE_FULL_SCALE]
  split_ifs <;> simp_all

theorem s2_pressed_mode (s : State) :
    (s2_pressed s).meter_mode = s.meter_mode ∨
    (s.s1_active ≠ 0 ∧ s.meter_mode ≤ 2 ∧
      (s2_pressed s).meter_mode = (s.meter_mode + 1) % 3) := by
  simp only [s2_pressed, set_mode_calibrate_zero_scale, set_mode_calibrate_full_scale,
    set_mode_show_time, show_time, subtract_hour, add_minute, METER_MODE_SHOW_TIME,
    METER_MODE_CALIBRATE_ZERO_SCALE, METER_MODE_CALIBRATE_FULL_SCALE]
  split_ifs <;> simp_all

theorem debounce_buttons_s1_mode (hdr : Header) (s : State) (rd : Nat) :
    (debounce_buttons_s1 hdr s rd).1.meter_mode = s.meter_mode ∨
    ((debounce_buttons_s1 hdr s rd).2 = [Event.s1_pressed] ∧ s.s2_active ≠ 0 ∧
      s.meter_mode ≤ 2 ∧
      (debounce_buttons_s1 hdr s rd).1.meter_mode = (s.meter_mode + 1) % 3) := by
  simp only [debounce_buttons_s1, s1_released]
  split_ifs
  · exact Or.inl rfl
  · exact Or.inl rfl
  · rcases s1_pressed_mode
      { s with debounce_counter_s1 := u8 (s.debounce_counter_s1 + 1), s1_active := 1 } with
      h | ⟨h1, h2, h3⟩
    · exact Or.inl h
    · exact Or.inr ⟨rfl, h1, h2, h3⟩
  · exact Or.inl rfl
  · exact Or.inl rfl

theorem debounce_buttons_s2_mode (hdr : Header) (s : State) (rd : Nat) :
    (debounce_buttons_s2 hdr s rd).1.meter_mode = s.meter_mode ∨
    ((debounce_buttons_s2 hdr s rd).2 = [Event.s2_pressed] ∧ s.s1_active ≠ 0 ∧
      s.s2_active = 0 ∧ s.meter_mode ≤ 2 ∧
      (debounce_buttons_s2 hdr s rd).1.meter_mode = (s.meter_mode + 1) % 3) := by
  simp only [debounce_buttons_s2, s2_released]
  split_ifs with g1 g2 g3 g4
  · exact Or.inl rfl
  · exact Or.inl rfl
  · rcases s2_pressed_mode
      { s with debounce_counter_s2 := u8 (s.debounce_counter_s2 + 1), s2_active := 1 } with
      h | ⟨h1, h2, h3⟩
    · exact Or.inl h
    · exact Or.inr ⟨rfl, h1, not_not.mp g1, h2, h3⟩
  · exact Or.inl rfl
  · exact Or.inl rfl

theorem update_time_frame (s : State) :
    (update_time s).1.meter_mode = s.meter_mode ∧
    (update_time s).1.s1_active = s.s1_active ∧
    (update_time s).1.s2_active = s.s2_active ∧
    (update_time s).1.debounce_counter_s1 = s.debounce_counter_s1 ∧
    (update_time s).1.debounce_counter_s2 = s.debounce_counter_s2 := by
  obtain ⟨-, f2, f3, f4, f5, f6⟩ := tick_second_frame
    { s with second_divider_count := second_divider }
  simp only [update_time, show_time]
  split_ifs <;> simp_all

/-- One invocation of the routine leaves the mode alone or advances it by one
step of the cycle 0, 1, 2, 0; the latter only on a `pressed` call of one
button made while the other button's active flag is set. -/
theorem Watchdog_ISR_mode (hdr : Header) (s : State) (rd : Nat × Nat) :
    (Watchdog_ISR hdr s rd).1.meter_mode = s.meter_mode ∨
    (s.meter_mode ≤ 2 ∧ (Watchdog_ISR hdr s rd).1.meter_mode = (s.meter_mode + 1) % 3 ∧
      ((Event.s1_pressed ∈ (Watchdog_ISR hdr s rd).2 ∧ s.s2_active ≠ 0) ∨
       (Event.s2_pressed ∈ (Watchdog_ISR hdr s rd).2 ∧
        (Watchdog_ISR hdr s rd).1.s1_active ≠ 0))) := by
  obtain ⟨u1, u2, u3, -, -⟩ := update_time_frame s
  have f1 := (debounce_buttons_s1_frame hdr (update_time s).1 rd.1).1
  have f2 := (debounce_buttons_s2_frame hdr
    (debounce_buttons_s1 hdr (update_time s).1 rd.1).1 rd.2).1
  simp only [Watchdog_ISR, debounce_buttons, List.mem_append]
  rcases debounce_buttons_s1_mode hdr (update_time s).1 rd.1 with a | ⟨a1, a2, a3, a4⟩
  · rcases debounce_buttons_s2_mode hdr
      (debounce_buttons_s1 hdr (update_time s).1 rd.1).1 rd.2 with b | ⟨b1, b2, b3, b4, b5⟩
    · exact Or.inl (by rw [b, a, u1])
    · refine Or.inr ⟨by rw [← u1, ← a]; exact b4, by rw [b5, a, u1], Or.inr ⟨?_, ?_⟩⟩
      · rw [b1]; simp
      · rw [f2]; exact b2
  · rcases debounce_buttons_s2_mode hdr
      (debounce_buttons_s1 hdr (update_time s).1 rd.1).1 rd.2 with b | ⟨b1, b2, b3, b4, b5⟩
    · refine Or.inr ⟨by rw [← u1]; exact a3, by rw [b, a4, u1], Or.inl ⟨?_, ?_⟩⟩
      · rw [a1]; simp
      · rw [← u3]; exact a2
    · exact absurd (by rw [← f1]; exact b3) a2

theorem isrState_mode_valid (hdr : Header) (ins : Nat → Nat × Nat) (n : Nat) :
    (isrState hdr init ins n).meter_mode ≤ 2 := by
  induction n with
  | zero => exact Nat.zero_le 2
  | succ n ih =>
    rw [isrState]
    rcases Watchdog_ISR_mode hdr (isrState hdr init ins n) (ins n) with h | ⟨-, h, -⟩
    · rw [h]; exact ih
    · rw [h]; omega

theorem s1_pressed_combo (s : State) (h : s.s2_active ≠ 0) :
    (s.meter_mode = METER_MODE_SHOW_TIME →
      (s1_pressed s).meter_mode = METER_MODE_CALIBRATE_ZERO_SCALE ∧
      (s1_pressed s).timer_count_h = 64 ∧ (s1_pressed s).timer_count_m = 64) ∧
    (s.meter_mode = METER_MODE_CALIBRATE_ZERO_SCALE →
      (s1_pressed s).meter_mode = METER_MODE_CALIBRATE_FULL_SCALE ∧
      (s1_pressed s).timer_count_h = 4 ∧ (s1_pressed s).timer_count_m = 4) ∧
    (s.meter_mode = METER_MODE_CALIBRATE_FULL_SCALE →
      (s1_pressed s).meter_mode = METER_MODE_SHOW_TIME ∧
      (s1_pressed s).hour = s.hour ∧ (s1_pressed s).minute = s.minute ∧
      (s.hour ≤ 11 → s.minute ≤ 59 →
        ((s1_pressed s).timer_count_h : Int) = 64 - 5 * ((s1_pressed s).hour : Int) ∧
        ((s1_pressed s).timer_count_m : Int) = 64 - ((s1_pressed s).minute : Int))) := by
  have e64 : u8 64 = 64 := by decide
  have e4 : u8 4 = 4 := by decide
  refine ⟨fun hm => ?_, fun hm => ?_, fun hm => ?_⟩
  · simp [s1_pressed, set_mode_calibrate_zero_scale, hm, h, e64]
  · simp [s1_pressed, set_mode_calibrate_full_scale, hm, h, e4,
      METER_MODE_SHOW_TIME, METER_MODE_CALIBRATE_ZERO_SCALE]
  · have es : s1_pressed s = set_mode_show_time s := by
      simp [s1_pressed, hm, h, METER_MODE_SHOW_TIME, METER_MODE_CALIBRATE_ZERO_SCALE,
        METER_MODE_CALIBRATE_FULL_SCALE]
    rw [es]
    refine ⟨rfl, rfl, rfl, fun hh hmin => ?_⟩
    simp only [set_mode_show_time, show_time, u8]
    omega

theorem s2_pressed_combo (s : State) (h : s.s1_active ≠ 0) :
    (s.meter_mode = METER_MODE_SHOW_TIME →
      (s2_pressed s).meter_mode = METER_MODE_CALIBRATE_ZERO_SCALE ∧
      (s2_pressed s).timer_count_h = 64 ∧ (s2_pressed s).timer_count_m = 64) ∧
    (s.meter_mode = METER_MODE_CALIBRATE_ZERO_SCALE →
      (s2_pressed s).meter_mode = METER_MODE_CALIBRATE_FULL_SCALE ∧
      (s2_pressed s).timer_count_h = 4 ∧ (s2_pressed s).timer_count_m = 4) ∧
    (s.meter_mode = METER_MODE_CALIBRATE_FULL_SCALE →
      (s2_pressed s).meter_mode = METER_MODE_SHOW_TIME ∧
      (s2_pressed s).hour = s.hour ∧ (s2_pressed s).minute = s.minute ∧
      (s.hour ≤ 11 → s.minute ≤ 59 →
        ((s2_pressed s).timer_count_h : Int) = 64 - 5 * ((s2_pressed s).hour : Int) ∧
        ((s2_pressed s).timer_count_m : Int) = 64 - ((s2_pressed s).minute : Int))) := by
  have e64 : u8 64 = 64 := by decide
  have e4 : u8 4 = 4 := by decide
  refine ⟨fun hm => ?_, fun hm => ?_, fun hm => ?_⟩
  · simp [s2_pressed, set_mode_calibrate_zero_scale, hm, h, e64]
  · simp [s2_pressed, set_mode_calibrate_full_scale, hm, h, e4,
      METER_MODE_SHOW_TIME, METER_MODE_CALIBRATE_ZERO_SCALE]
  · have es : s2_pressed s = set_mode_show_time s := by
      simp [s2_pressed, hm, h, METER_MODE_SHOW_TIME, METER_MODE_CALIBRATE_ZERO_SCALE,
        METER_MODE_CALIBRATE_FULL_SCALE]
    rw [es]
    refine ⟨rfl, rfl, rfl, fun hh hmin => ?_⟩
    simp only [set_mode_show_time, show_time, u8]
    omega

/-- C7. A call of `s1_pressed` made while `s2_active` is set, or of `s2_pressed`
made while `s1_active` is set, takes show-time to calibrate-zero with outputs
(64, 64), calibrate-zero to calibrate-full with outputs (4, 4), and
calibrate-full to show-time with the time unchanged and, for an in-range time,
outputs (64 - 5 * hour, 64 - minute).  A `pressed` call made while the other
flag is clear, a `released` call and `tick_second` leave the mode as it is.
One invocation of `Watchdog_ISR` either leaves the mode as it is or advances it
by one step of the cycle, the latter only when it makes such a `pressed` call.
In every state reached from cold start the mode is one of the three
enumerated values. -/
theorem C7_mode_transitions :
    (∀ s : State, s.s2_active ≠ 0 →
      (s.meter_mode = METER_MODE_SHOW_TIME →
        (s1_pressed s).meter_mode = METER_MODE_CALIBRATE_ZERO_SCALE ∧
        (s1_pressed s).timer_count_h = 64 ∧ (s1_pressed s).timer_count_m = 64) ∧
      (s.meter_mode = METER_MODE_CALIBRATE_ZERO_SCALE →
        (s1_pressed s).meter_mode = METER_MODE_CALIBRATE_FULL_SCALE ∧
        (s1_pressed s).timer_count_h = 4 ∧ (s1_pressed s).timer_count_m = 4) ∧
      (s.meter_mode = METER_MODE_CALIBRATE_FULL_SCALE →
        (s1_pressed s).meter_mode = METER_MODE_SHOW_TIME ∧
        (s1_pressed s).hour = s.hour ∧ (s1_pressed s).minute = s.minute ∧
        (s.hour ≤ 11 → s.minute ≤ 59 →
          ((s1_pressed s).timer_count_h : Int) = 64 - 5 * ((s1_pressed s).hour : Int) ∧
          ((s1_pressed s).timer_count_m : Int) = 64 - ((s1_pressed s).minute : Int)))) ∧
    (∀ s : State, s.s1_active ≠ 0 →
      (s.meter_mode = METER_MODE_SHOW_TIME →
        (s2_pressed s).meter_mode = METER_MODE_CALIBRATE_ZERO_SCALE ∧
        (s2_pressed s).timer_count_h = 64 ∧ (s2_pressed s).timer_count_m = 64) ∧
      (s.meter_mode = METER_MODE_CALIBRATE_ZERO_SCALE →
        (s2_pressed s).meter_mode = METER_MODE_CALIBRATE_FULL_SCALE ∧
        (s2_pressed s).timer_count_h = 4 ∧ (s2_pressed s).timer_count_m = 4) ∧
      (s.meter_mode = METER_MODE_CALIBRATE_FULL_SCALE →
        (s2_pressed s).meter_mode = METER_MODE_SHOW_TIME ∧
        (s2_pressed s).hour = s.hour ∧ (s2_pressed s).minute = s.minute ∧
        (s.hour ≤ 11 → s.minute ≤ 59 →
          ((s2_pressed s).timer_count_h : Int) = 64 - 5 * ((s2_pressed s).hour : Int) ∧
          ((s2_pressed s).timer_count_m : Int) = 64 - ((s2_pressed s).minute : Int)))) ∧
    (∀ s : State, s.s2_active = 0 → (s1_pressed s).meter_mode = s.meter_mode) ∧
    (∀ s : State, s.s1_active = 0 → (s2_pressed s).meter_mode = s.meter_mode) ∧
    (∀ s : State, (s1_released s).meter_mode = s.meter_mode ∧
      (s2_released s).meter_mode = s.meter_mode ∧
      (tick_second s).meter_mode = s.meter_mode ∧
      (update_time s).1.meter_mode = s.meter_mode) ∧
    (∀ (hdr : Header) (s : State) (rd : Nat × Nat),
      (Watchdog_ISR hdr s rd).1.meter_mode = s.meter_mode ∨
      (s.meter_mode ≤ 2 ∧ (Watchdog_ISR hdr s rd).1.meter_mode = (s.meter_mode + 1) % 3 ∧
        ((Event.s1_pressed ∈ (Watchdog_ISR hdr s rd).2 ∧ s.s2_active ≠ 0) ∨
         (Event.s2_pressed ∈ (Watchdog_ISR hdr s rd).2 ∧
          (Watchdog_ISR hdr s rd).1.s1_active ≠ 0)))) ∧
    (∀ (hdr : Header) (ins : Nat → Nat × Nat) (n : Nat),
      (isrState hdr init ins n).meter_mode = METER_MODE_SHOW_TIME ∨
      (isrState hdr init ins n).meter_mode = METER_MODE_CALIBRATE_ZERO_SCALE ∨
      (isrState hdr init ins n).meter_mode = METER_MODE_CALIBRATE_FULL_SCALE) := by
  refine ⟨s1_pressed_combo, s2_pressed_combo, fun s h => ?_, fun s h => ?_, fun s => ?_,
    Watchdog_ISR_mode, fun hdr ins n => ?_⟩
  · rcases s1_pressed_mode s with g | ⟨g, -, -⟩
    · exact g
    · exact absurd h g
  · rcases s2_pressed_mode s with g | ⟨g, -, -⟩
    · exact g
    · exact absurd h g
  · exact ⟨rfl, rfl, (tick_second_frame s).2.1, (update_time_frame s).1⟩
  · have h := isrState_mode_valid hdr ins n
    simp only [METER_MODE_SHOW_TIME, METER_MODE_CALIBRATE_ZERO_SCALE,
      METER_MODE_CALIBRATE_FULL_SCALE]
    omega

/-- C7 on the cold-start state with `s2_active` set: `s1_pressed` enters
calibrate-zero with outputs (64, 64). -/
theorem C7_mode_transitions_witness :
    (s1_pressed { init with s2_active := 1 }).meter_mode = METER_MODE_CALIBRATE_ZERO_SCALE ∧
    (s1_pressed { init with s2_active := 1 }).timer_count_h = 64 ∧
    (s1_pressed { init with s2_active := 1 }).timer_count_m = 64 :=
  (C7_mode_transitions.1 { init with s2_active := 1 } (by decide)).1 rfl

/-! ## The S1 debouncer inside the interrupt routine -/

/-- The S1 part of one invocation of `Watchdog_ISR`, as a function of the S1
part of the state and of the S1 line. -/
theorem Watchdog_ISR_s1_spec (hdr : Header) (s : State) (rd : Nat × Nat) :
    (Watchdog_ISR hdr s rd).1.s1_active =
      (if s.s1_active = 0 then
        if rd.1 &&& S1_BIT hdr = 0 then
          if u8 ((s.debounce_counter_s1 : Int) + 1) = 16 then 1 else 0
        else 0
      else if rd.1 &&& S1_BIT hdr = 0 then s.s1_active else 0) ∧
    (Watchdog_ISR hdr s rd).1.debounce_counter_s1 =
      (if s.s1_active = 0 then
        if rd.1 &&& S1_BIT hdr = 0 then u8 ((s.debounce_counter_s1 : Int) + 1) else 0
      else s.debounce_counter_s1) ∧
    (Watchdog_ISR hdr s rd).2.count Event.s1_pressed =
      (if s.s1_active = 0 ∧ rd.1 &&& S1_BIT hdr = 0 ∧
          u8 ((s.debounce_counter_s1 : Int) + 1) = 16 then 1 else 0) ∧
    (Watchdog_ISR hdr s rd).2.count Event.s1_released =
      (if s.s1_active ≠ 0 ∧ rd.1 &&& S1_BIT hdr ≠ 0 then 1 else 0) := by
  obtain ⟨-, u2, -, u4, -⟩ := update_time_frame s
  obtain ⟨e1, e2, e3, e4⟩ := debounce_buttons_s1_spec hdr (update_time s).1 rd
  have hw1 : (hardware_phase hdr s).count Event.s1_pressed = 0 := by
    simp [hardware_phase]
  have hw2 : (hardware_phase hdr s).count Event.s1_released = 0 := by
    simp [hardware_phase]
  have t1 : (update_time s).2.count Event.s1_pressed = 0 := by
    rw [update_time_events]; split_ifs <;> simp
  have t2 : (update_time s).2.count Event.s1_released = 0 := by
    rw [update_time_events]; split_ifs <;> simp
  simp only [Watchdog_ISR, List.count_append, hw1, hw2, t1, t2, Nat.zero_add]
  rw [e1, e2, e3, e4, u2, u4]
  exact ⟨rfl, rfl, rfl, rfl⟩

/-- Once S1 has been active, its counter is left at 16 by the release.  From
such a state (S1 inactive, counter 16) a held S1 is recognised only on the
256th pressed sample, when the 8-bit counter has gone round to 16 again. -/
theorem stale_counter_wraps (hdr : Header) (s0 : State) (ins : Nat → Nat × Nat)
    (ha : s0.s1_active = 0) (hc : s0.debounce_counter_s1 = 16)
    (hp : ∀ i, i < 256 → (ins i).1 &&& S1_BIT hdr = 0) :
    (∀ k, k < 255 → (isrEvents hdr s0 ins k).count Event.s1_pressed = 0 ∧
        (isrState hdr s0 ins (k + 1)).s1_active = 0) ∧
    (isrEvents hdr s0 ins 255).count Event.s1_pressed = 1 ∧
    (isrState hdr s0 ins 256).s1_active = 1 := by
  have key : ∀ k, k ≤ 255 → (isrState hdr s0 ins k).s1_active = 0 ∧
      (isrState hdr s0 ins k).debounce_counter_s1 = (16 + k) % 256 := by
    intro k
    induction k with
    | zero => intro _; exact ⟨ha, hc⟩
    | succ k ih =>
      intro hk
      obtain ⟨i1, i2⟩ := ih (by omega)
      obtain ⟨e1, e2, -, -⟩ := Watchdog_ISR_s1_spec hdr (isrState hdr s0 ins k) (ins k)
      have hu : u8 (((16 + k) % 256 : Nat) + 1 : Int) = (16 + (k + 1)) % 256 := by
        simp only [u8]; omega
      rw [isrState, e1, e2, i1, i2, hu]
      simp only [hp k (by omega), if_true]
      exact ⟨if_neg (by omega), trivial⟩
  refine ⟨fun k hk => ⟨?_, (key (k + 1) (by omega)).1⟩, ?_, ?_⟩
  · obtain ⟨i1, i2⟩ := key k (by omega)
    obtain ⟨-, -, e3, -⟩ := Watchdog_ISR_s1_spec hdr (isrState hdr s0 ins k) (ins k)
    have hu : u8 (((16 + k) % 256 : Nat) + 1 : Int) = (16 + (k + 1)) % 256 := by
      simp only [u8]; omega
    rw [isrEvents, e3, i1, i2, hu]
    exact if_neg (by omega)
  · obtain ⟨i1, i2⟩ := key 255 (by omega)
    obtain ⟨-, -, e3, -⟩ := Watchdog_ISR_s1_spec hdr (isrState hdr s0 ins 255) (ins 255)
    rw [isrEvents, e3, i1, i2]
    simp [hp 255 (by omega)]
    decide
  · obtain ⟨i1, i2⟩ := key 255 (by omega)
    obtain ⟨e1, -, -, -⟩ := Watchdog_ISR_s1_spec hdr (isrState hdr s0 ins 255) (ins 255)
    rw [isrState, e1, i1, i2]
    simp [hp 255 (by omega)]
    decide

theorem isrState_shift (hdr : Header) (s0 : State) (ins : Nat → Nat × Nat) (n k : Nat) :
    isrState hdr s0 ins (n + k) =
      isrState hdr (isrState hdr s0 ins n) (fun i => ins (n + i)) k := by
  induction k with
  | zero => rfl
  | succ k ih =>
    show (Watchdog_ISR hdr (isrState hdr s0 ins (n + k)) (ins (n + k))).1 = _
    rw [ih]
    rfl

theorem isrEvents_shift (hdr : Header) (s0 : State) (ins : Nat → Nat × Nat) (n k : Nat) :
    isrEvents hdr s0 ins (n + k) =
      isrEvents hdr (isrState hdr s0 ins n) (fun i => ins (n + i)) k := by
  simp only [isrEvents, isrState_shift]

/-! ## Press recognition after a release -/

set_option maxRecDepth 1000000 in
/-- C5, evaluated on the run from cold start in which S1 reads pressed on
invocations 1 to 16, released on invocation 17 and pressed from invocation 18
on (indices 0-15, 16, 17 and up; S2 is up throughout).  S1 becomes active on
invocation 16 and inactive on invocation 17, with its debounce counter left at
16; the 16 pressed samples that follow take the counter from 17 to 32, never
through `debounce_wait`, so `s1_pressed` is not called on any of them and S1
is still inactive after invocation 33.  The next call of `s1_pressed` comes on
the 256th pressed sample after the release (invocation 273). -/
theorem C5_stale_counter :
    Event.s1_pressed ∈ isrEvents msp430x20x2 init (fun i => if i = 16 then (9, 9) else (8, 8)) 15 ∧
    Event.s1_released ∈
      isrEvents msp430x20x2 init (fun i => if i = 16 then (9, 9) else (8, 8)) 16 ∧
    (isrState msp430x20x2 init (fun i => if i = 16 then (9, 9) else (8, 8)) 17).s1_active = 0 ∧
    (isrState msp430x20x2 init
      (fun i => if i = 16 then (9, 9) else (8, 8)) 17).debounce_counter_s1 = 16 ∧
    (∀ i ∈ List.range 16,
      ((fun i => if i = 16 then ((9 : Nat), (9 : Nat)) else (8, 8)) (17 + i)).1 &&&
        S1_BIT msp430x20x2 = 0 ∧
      Event.s1_pressed ∉
        isrEvents msp430x20x2 init (fun i => if i = 16 then (9, 9) else (8, 8)) (17 + i)) ∧
    (isrState msp430x20x2 init (fun i => if i = 16 then (9, 9) else (8, 8)) 33).s1_active = 0 ∧
    (isrState msp430x20x2 init
      (fun i => if i = 16 then (9, 9) else (8, 8)) 33).debounce_counter_s1 = 32 ∧
    (∀ k, k < 255 →
      (isrEvents msp430x20x2 init (fun i => if i = 16 then (9, 9) else (8, 8)) (17 + k)).count
        Event.s1_pressed = 0) ∧
    (isrEvents msp430x20x2 init (fun i => if i = 16 then (9, 9) else (8, 8)) (17 + 255)).count
      Event.s1_pressed = 1 := by
  have a17 : (isrState msp430x20x2 init
      (fun i => if i = 16 then (9, 9) else (8, 8)) 17).s1_active = 0 := by decide
  have c17 : (isrState msp430x20x2 init
      (fun i => if i = 16 then (9, 9) else (8, 8)) 17).debounce_counter_s1 = 16 := by decide
  have hw := stale_counter_wraps msp430x20x2 _
    (fun i => (fun i => if i = 16 then ((9 : Nat), (9 : Nat)) else (8, 8)) (17 + i)) a17 c17
    (fun i _ => by
      show (if 17 + i = 16 then ((9 : Nat), (9 : Nat)) else (8, 8)).1 &&&
        S1_BIT msp430x20x2 = 0
      rw [if_neg (by omega)]
      decide)
  refine ⟨by decide, by decide, a17, c17, by decide, by decide, by decide, fun k hk => ?_, ?_⟩
  · rw [isrEvents_shift]
    exact (hw.1 k hk).1
  · rw [isrEvents_shift]
    exact hw.2.1

/-! ## The register writes of one invocation -/

theorem registerWrites_hardware_phase (hdr : Header) (s : State) :
    registerWrites (hardware_phase hdr s) = hardware_phase hdr s := by
  simp [registerWrites, hardware_phase, isWrite]

theorem registerWrites_update_time (s : State) : registerWrites (update_time s).2 = [] := by
  rw [update_time_events]
  split_ifs <;> simp [registerWrites, isWrite]

theorem registerWrites_debounce_buttons (hdr : Header) (s : State) (rd : Nat × Nat) :
    registerWrites (debounce_buttons hdr s rd).2 = [] := by
  simp only [debounce_buttons, registerWrites, List.filter_append]
  rcases debounce_buttons_s1_events hdr s rd.1 with h | h | h <;>
    rcases debounce_buttons_s2_events hdr (debounce_buttons_s1 hdr s rd.1).1 rd.2 with
      g | g | g <;> simp [h, g, isWrite]

theorem registerWrites_Watchdog_ISR (hdr : Header) (s : State) (rd : Nat × Nat) :
    registerWrites (Watchdog_ISR hdr s rd).2 = hardware_phase hdr s := by
  have h1 := registerWrites_hardware_phase hdr s
  have h2 := registerWrites_update_time s
  have h3 := registerWrites_debounce_buttons hdr (update_time s).1 rd
  simp only [registerWrites] at h1 h2 h3
  simp only [Watchdog_ISR, registerWrites, List.filter_append, h1, h2, h3, List.append_nil]

/-- C11. The events of one invocation of `Watchdog_ISR` begin with the seven
register writes of the hardware phase, computed from the state at entry, and
contain no other register write: everything the time update and the button
handling do comes after them.  The only value written to `TACCR0` is
`timer_count_h` as it was at entry, the only value written to `TACCR1` is
`timer_count_m` as it was at entry.  Two states that agree on `timer_count_h`
and `timer_count_m` produce the same sequence of register writes, whatever
else they hold and whatever the port reads. -/
theorem C11_hardware_phase :
    (∀ (hdr : Header) (s : State) (rd : Nat × Nat),
      (Watchdog_ISR hdr s rd).2 =
        hardware_phase hdr s ++
          ((update_time s).2 ++ (debounce_buttons hdr (update_time s).1 rd).2) ∧
      registerWrites ((update_time s).2 ++ (debounce_buttons hdr (update_time s).1 rd).2) = [] ∧
      registerWrites (Watchdog_ISR hdr s rd).2 = hardware_phase hdr s ∧
      writesTo Reg.TACCR0 (Watchdog_ISR hdr s rd).2 = [s.timer_count_h] ∧
      writesTo Reg.TACCR1 (Watchdog_ISR hdr s rd).2 = [s.timer_count_m]) ∧
    (∀ (hdr : Header) (s t : State) (rd rd2 : Nat × Nat),
      s.timer_count_h = t.timer_count_h → s.timer_count_m = t.timer_count_m →
      registerWrites (Watchdog_ISR hdr s rd).2 = registerWrites (Watchdog_ISR hdr t rd2).2) := by
  refine ⟨fun hdr s rd => ⟨?_, ?_, registerWrites_Watchdog_ISR hdr s rd, ?_, ?_⟩,
    fun hdr s t rd rd2 hh hm => ?_⟩
  · simp only [Watchdog_ISR, List.append_assoc]
  · have h2 := registerWrites_update_time s
    have h3 := registerWrites_debounce_buttons hdr (update_time s).1 rd
    simp only [registerWrites] at h2 h3
    simp only [registerWrites, List.filter_append, h2, h3, List.append_nil]
  · simp only [Watchdog_ISR, writesTo, List.filterMap_append]
    have hu : (update_time s).2.filterMap (fun e =>
        match e with
        | Event.write r1 v => if r1 = Reg.TACCR0 then some v else none
        | _ => none) = [] := by
      rw [update_time_events]; split_ifs <;> simp
    have hd : (debounce_buttons hdr (update_time s).1 rd).2.filterMap (fun e =>
        match e with
        | Event.write r1 v => if r1 = Reg.TACCR0 then some v else none
        | _ => none) = [] := by
      simp only [debounce_buttons, List.filterMap_append]
      rcases debounce_buttons_s1_events hdr (update_time s).1 rd.1 with h | h | h <;>
        rcases debounce_buttons_s2_events hdr
          (debounce_buttons_s1 hdr (update_time s).1 rd.1).1 rd.2 with g | g | g <;>
        simp [h, g]
    rw [hu, hd]
    simp [hardware_phase]
  · simp only [Watchdog_ISR, writesTo, List.filterMap_append]
    have hu : (update_time s).2.filterMap (fun e =>
        match e with
        | Event.write r1 v => if r1 = Reg.TACCR1 then some v else none
        | _ => none) = [] := by
      rw [update_time_events]; split_ifs <;> simp
    have hd : (debounce_buttons hdr (update_time s).1 rd).2.filterMap (fun e =>
        match e with
        | Event.write r1 v => if r1 = Reg.TACCR1 then some v else none
        | _ => none) = [] := by
      simp only [debounce_buttons, List.filterMap_append]
      rcases debounce_buttons_s1_events hdr (update_time s).1 rd.1 with h | h | h <;>
        rcases debounce_buttons_s2_events hdr
          (debounce_buttons_s1 hdr (update_time s).1 rd.1).1 rd.2 with g | g | g <;>
        simp [h, g]
    rw [hu, hd]
    simp [hardware_phase]
  · rw [registerWrites_Watchdog_ISR, registerWrites_Watchdog_ISR]
    simp only [hardware_phase, hh, hm]

/-- C11 on the cold-start state and the state one invocation later at another
time of day with the same outputs forced: both write the same registers.  The
first invocation writes the initial outputs 0 and 0, although it leaves the
outputs at 34 and 34. -/
theorem C11_hardware_phase_witness :
    registerWrites (Watchdog_ISR msp430x20x2 init (9, 9)).2 =
      registerWrites (Watchdog_ISR msp430x20x2
        { init with hour := 3, minute := 7, meter_mode := METER_MODE_CALIBRATE_FULL_SCALE,
                    second_divider_count := 77, s1_active := 1 } (8, 0)).2 ∧
    writesTo Reg.TACCR0 (Watchdog_ISR msp430x20x2 init (9, 9)).2 = [0] ∧
    (Watchdog_ISR msp430x20x2 init (9, 9)).1.timer_count_h = 34 :=
  ⟨C11_hardware_phase.2 msp430x20x2 init
      { init with hour := 3, minute := 7, meter_mode := METER_MODE_CALIBRATE_FULL_SCALE,
                  second_divider_count := 77, s1_active := 1 } (9, 9) (8, 0) rfl rfl,
    by decide, by decide⟩

/-! ## `tick_second` as a counter of seconds -/

theorem withSeconds_toSeconds (s : State) (h : TimeInRange s) :
    withSeconds s (toSeconds s) = s := by
  obtain ⟨hh, hm, hs⟩ := h
  cases s
  simp only [withSeconds, toSeconds, State.mk.injEq] at *
  refine ⟨trivial, trivial, trivial, trivial, trivial, trivial, trivial, ?_, ?_, ?_, trivial⟩ <;>
    omega

theorem toSeconds_withSeconds (s : State) (n : Nat) (h : n < 43200) :
    toSeconds (withSeconds s n) = n ∧ TimeInRange (withSeconds s n) := by
  simp only [withSeconds, toSeconds, TimeInRange]
  omega

theorem withSeconds_withSeconds (s : State) (n m : Nat) :
    withSeconds (withSeconds s n) m = withSeconds s m := rfl

theorem tick_second_eq (s : State) (h : TimeInRange s) :
    tick_second s = withSeconds s ((toSeconds s + 1) % 43200) := by
  obtain ⟨hh, hm, hs⟩ := h
  cases s
  simp only [tick_second, tick_minute, tick_hour, withSeconds, toSeconds, u8] at *
  split_ifs <;> simp only [State.mk.injEq, true_and, and_true] <;>
    refine ⟨?_, ?_, ?_⟩ <;> omega

theorem tick_second_iterate_eq (s : State) (h : TimeInRange s) (k : Nat) :
    tick_second^[k] s = withSeconds s ((toSeconds s + k) % 43200) := by
  induction k with
  | zero =>
    have : (toSeconds s + 0) % 43200 = toSeconds s := by
      obtain ⟨hh, hm, hs⟩ := h
      simp only [toSeconds]
      omega
    rw [this, withSeconds_toSeconds s h]
    rfl
  | succ k ih =>
    have hlt : (toSeconds s + k) % 43200 < 43200 := Nat.mod_lt _ (by decide)
    obtain ⟨e1, e2⟩ := toSeconds_withSeconds s _ hlt
    rw [Function.iterate_succ_apply', ih, tick_second_eq _ e2, e1, withSeconds_withSeconds]
    congr 1
    omega

/-- C12. On an in-range time `tick_second` adds one second on the 12-hour
dial: `toSeconds (tick_second s) = (toSeconds s + 1) mod 43200`, with nothing
but the time changed.  Hence the minute changes only when `second` was 59, the
hour only when `minute` and `second` were both 59, 11:59:59 goes to 00:00:00,
and 43200 calls in a row give back the state. -/
theorem C12_tick_second_clock :
    (∀ s : State, TimeInRange s →
      toSeconds (tick_second s) = (toSeconds s + 1) % 43200 ∧
      tick_second s = withSeconds s ((toSeconds s + 1) % 43200)) ∧
    (∀ s : State, TimeInRange s → (tick_second s).minute ≠ s.minute → s.second = 59) ∧
    (∀ s : State, TimeInRange s → (tick_second s).hour ≠ s.hour →
      s.minute = 59 ∧ s.second = 59) ∧
    (∀ s : State, s.hour = 11 → s.minute = 59 → s.second = 59 →
      (tick_second s).hour = 0 ∧ (tick_second s).minute = 0 ∧ (tick_second s).second = 0) ∧
    (∀ s : State, TimeInRange s → tick_second^[43200] s = s) := by
  refine ⟨fun s h => ⟨?_, tick_second_eq s h⟩, fun s h hne => ?_, fun s h hne => ?_,
    fun s hh hm hs => ?_, fun s h => ?_⟩
  · rw [tick_second_eq s h]
    exact (toSeconds_withSeconds s _ (Nat.mod_lt _ (by decide))).1
  · obtain ⟨hh, hm, hs⟩ := h
    by_contra hc
    have hlt : s.second < 59 := by omega
    rw [tick_second_lt s hlt] at hne
    exact hne rfl
  · obtain ⟨hh, hm, hs⟩ := h
    rw [tick_second_eq s ⟨hh, hm, hs⟩] at hne
    simp only [withSeconds, toSeconds] at hne
    omega
  · simp [tick_second, tick_minute, tick_hour, hh, hm, hs]
  · rw [tick_second_iterate_eq s h]
    have : (toSeconds s + 43200) % 43200 = toSeconds s := by
      obtain ⟨hh, hm, hs⟩ := h
      simp only [toSeconds]
      omega
    rw [this, withSeconds_toSeconds s h]

/-- C12 at 11:59:59: one call leads to 00:00:00, which is 0 seconds on the
dial, and 43200 calls lead back to 11:59:59. -/
theorem C12_tick_second_clock_witness :
    toSeconds (tick_second { init with hour := 11, minute := 59, second := 59 }) = 0 ∧
    tick_second^[43200] { init with hour := 11, minute := 59, second := 59 } =
      { init with hour := 11, minute := 59, second := 59 } :=
  ⟨(C12_tick_second_clock.1 { init with hour := 11, minute := 59, second := 59 }
      (by decide)).1,
   C12_tick_second_clock.2.2.2.2 { init with hour := 11, minute := 59, second := 59 }
      (by decide)⟩

/-! ## Undoing a lone press after some seconds -/

theorem add_hour_eq (s : State) (h : s.hour ≤ 11) :
    add_hour s = { s with hour := (s.hour + 1) % 12 } := by
  cases s
  simp only [add_hour, u8, State.mk.injEq, true_and, and_true] at *
  split_ifs <;> simp only [State.mk.injEq, true_and, and_true] <;> omega

theorem subtract_hour_eq (s : State) (h : s.hour ≤ 11) :
    subtract_hour s = { s with hour := (s.hour + 11) % 12 } := by
  cases s
  simp only [subtract_hour, u8, State.mk.injEq, true_and, and_true] at *
  split_ifs <;> simp only [State.mk.injEq, true_and, and_true] <;> omega

theorem add_minute_eq (s : State) (h : s.minute ≤ 59) :
    add_minute s = { s with minute := (s.minute + 1) % 60 } := by
  cases s
  simp only [add_minute, u8, State.mk.injEq, true_and, and_true] at *
  split_ifs <;> simp only [State.mk.injEq, true_and, and_true] <;> omega

theorem subtract_minute_eq (s : State) (h : s.minute ≤ 59) :
    subtract_minute s = { s with minute := (s.minute + 59) % 60 } := by
  cases s
  simp only [subtract_minute, u8, State.mk.injEq, true_and, and_true] at *
  split_ifs <;> simp only [State.mk.injEq, true_and, and_true] <;> omega

theorem undo_hour_after_ticks (s : State) (h : TimeInRange s) (k : Nat) :
    subtract_hour (tick_second^[k] (add_hour s)) = tick_second^[k] s := by
  have ha : TimeInRange (add_hour s) := add_hour_inRange s h
  have ht := (toSeconds_withSeconds (add_hour s) ((toSeconds (add_hour s) + k) % 43200)
    (Nat.mod_lt _ (by decide))).2
  rw [tick_second_iterate_eq _ ha, subtract_hour_eq _ ht.1, tick_second_iterate_eq _ h,
    add_hour_eq s h.1]
  obtain ⟨hh, hm, hs⟩ := h
  cases s
  simp only [withSeconds, toSeconds, State.mk.injEq, true_and, and_true] at *
  omega

theorem undo_minute_after_ticks (s : State) (h : TimeInRange s) (k : Nat) :
    subtract_minute (tick_second^[k] (add_minute s)) =
      { tick_second^[k] s with
        hour := (tick_second^[k] (add_minute s)).hour } ∧
    ((tick_second^[k] (add_minute s)).hour = (tick_second^[k] s).hour ↔
      (s.minute = 59 ↔ (tick_second^[k] (add_minute s)).minute = 0)) := by
  have ha : TimeInRange (add_minute s) := add_minute_inRange s h
  have ht := (toSeconds_withSeconds (add_minute s) ((toSeconds (add_minute s) + k) % 43200)
    (Nat.mod_lt _ (by decide))).2
  rw [tick_second_iterate_eq _ ha, subtract_minute_eq _ ht.2.1, tick_second_iterate_eq _ h,
    add_minute_eq s h.2.1]
  obtain ⟨hh, hm, hs⟩ := h
  cases s
  simp only [withSeconds, toSeconds, State.mk.injEq, true_and, and_true] at *
  omega

theorem undo_minute_same_minute (s : State) (h : TimeInRange s) (k : Nat)
    (hk : s.second + k < 60) :
    (s.minute = 59 ↔ (tick_second^[k] (add_minute s)).minute = 0) := by
  have ha : TimeInRange (add_minute s) := add_minute_inRange s h
  rw [tick_second_iterate_eq _ ha, add_minute_eq s h.2.1]
  obtain ⟨hh, hm, hs⟩ := h
  cases s
  simp only [withSeconds, toSeconds] at *
  omega

set_option maxRecDepth 1000000 in
/-- C13, refuted as stated.  At 06:58:59 a lone S2 press gives 06:59:59, one
`tick_second` later it is 07:00:00, and the undo by `subtract_minute` gives
07:59:00, while `tick_second` alone leads from 06:58:59 to 06:59:00: the hour
is 7 instead of 6.  The same on a run of the interrupt routine from that time
in show-time mode: S2 is held from the start and becomes active on invocation
16, the divider runs out on invocation 20, S1 is held from invocation 17 and
becomes active on invocation 32, entering calibrate-zero at 07:59. -/
theorem C13_counterexample :
    TimeInRange { init with minute := 58, second := 59 } ∧
    (subtract_minute (tick_second^[1] (add_minute { init with minute := 58, second := 59 }))).hour
      = 7 ∧
    (tick_second^[1] { init with minute := 58, second := 59 }).hour = 6 ∧
    (isrEvents msp430x20x2 { init with minute := 58, second := 59, second_divider_count := 20 }
      (fun i => (if i < 16 then 1 else 0, 0)) 15).count Event.s2_pressed = 1 ∧
    (isrEvents msp430x20x2 { init with minute := 58, second := 59, second_divider_count := 20 }
      (fun i => (if i < 16 then 1 else 0, 0)) 19).count Event.tick_second = 1 ∧
    (isrEvents msp430x20x2 { init with minute := 58, second := 59, second_divider_count := 20 }
      (fun i => (if i < 16 then 1 else 0, 0)) 31).count Event.s1_pressed = 1 ∧
    (isrState msp430x20x2 { init with minute := 58, second := 59, second_divider_count := 20 }
      (fun i => (if i < 16 then 1 else 0, 0)) 32).meter_mode =
        METER_MODE_CALIBRATE_ZERO_SCALE ∧
    (isrState msp430x20x2 { init with minute := 58, second := 59, second_divider_count := 20 }
      (fun i => (if i < 16 then 1 else 0, 0)) 32).hour = 7 ∧
    (isrState msp430x20x2 { init with minute := 58, second := 59, second_divider_count := 20 }
      (fun i => (if i < 16 then 1 else 0, 0)) 32).minute = 59 := by
  decide

/-- C13, amended.  For every in-range time and every number `k` of
`tick_second` calls between the two activations: the hour undo compensates
fully, `subtract_hour (tick_second^k (add_hour s)) = tick_second^k s`; the
minute undo gives the minute and the second of `tick_second^k s`, and changes
nothing else but the hour; its hour is that of `tick_second^k s` exactly when
the increment wrapped (`minute = 59`) if and only if the undo wraps (minute 0
at the second activation), which is the case whenever no minute rolls over in
between (`second + k < 60`), and then the undo compensates fully. -/
theorem C13_undo_after_ticks (s : State) (h : TimeInRange s) (k : Nat) :
    subtract_hour (tick_second^[k] (add_hour s)) = tick_second^[k] s ∧
    (subtract_minute (tick_second^[k] (add_minute s))).minute = (tick_second^[k] s).minute ∧
    (subtract_minute (tick_second^[k] (add_minute s))).second = (tick_second^[k] s).second ∧
    subtract_minute (tick_second^[k] (add_minute s)) =
      { tick_second^[k] s with
        hour := (subtract_minute (tick_second^[k] (add_minute s))).hour } ∧
    ((subtract_minute (tick_second^[k] (add_minute s))).hour = (tick_second^[k] s).hour ↔
      (s.minute = 59 ↔ (tick_second^[k] (add_minute s)).minute = 0)) ∧
    (s.second + k < 60 →
      subtract_minute (tick_second^[k] (add_minute s)) = tick_second^[k] s) := by
  obtain ⟨e, hiff⟩ := undo_minute_after_ticks s h k
  have eh : (subtract_minute (tick_second^[k] (add_minute s))).hour =
      (tick_second^[k] (add_minute s)).hour := by rw [e]
  refine ⟨undo_hour_after_ticks s h k, by rw [e], by rw [e], ?_, ?_, fun hk => ?_⟩
  · rw [eh]; exact e
  · rw [eh]; exact hiff
  · have hh := hiff.mpr (undo_minute_same_minute s h k hk)
    rw [e, hh]

/-- C13, amended, at 06:59:30 with 20 seconds between the activations: the
minute undo leads to 06:59:50, as 20 calls of `tick_second` alone do. -/
theorem C13_undo_after_ticks_witness :
    subtract_minute (tick_second^[20] (add_minute { init with minute := 59, second := 30 })) =
      tick_second^[20] { init with minute := 59, second := 30 } ∧
    (tick_second^[20] { init with minute := 59, second := 30 }).second = 50 :=
  ⟨(C13_undo_after_ticks { init with minute := 59, second := 30 } (by decide) 20).2.2.2.2.2
      (by decide), by decide⟩

/-! ## The S2 debouncer inside the interrupt routine -/

/-- The S2 part of one invocation of `Watchdog_ISR`, as a function of the S2
part of the state and of the S2 line. -/
theorem Watchdog_ISR_s2_spec (hdr : Header) (s : State) (rd : Nat × Nat) :
    (Watchdog_ISR hdr s rd).1.s2_active =
      (if s.s2_active = 0 then
        if rd.2 &&& S2_BIT hdr = 0 then
          if u8 ((s.debounce_counter_s2 : Int) + 1) = 16 then 1 else 0
        else 0
      else if rd.2 &&& S2_BIT hdr = 0 then s.s2_active else 0) ∧
    (Watchdog_ISR hdr s rd).1.debounce_counter_s2 =
      (if s.s2_active = 0 then
        if rd.2 &&& S2_BIT hdr = 0 then u8 ((s.debounce_counter_s2 : Int) + 1) else 0
      else s.debounce_counter_s2) ∧
    (Watchdog_ISR hdr s rd).2.count Event.s2_pressed =
      (if s.s2_active = 0 ∧ rd.2 &&& S2_BIT hdr = 0 ∧
          u8 ((s.debounce_counter_s2 : Int) + 1) = 16 then 1 else 0) ∧
    (Watchdog_ISR hdr s rd).2.count Event.s2_released =
      (if s.s2_active ≠ 0 ∧ rd.2 &&& S2_BIT hdr ≠ 0 then 1 else 0) := by
  obtain ⟨-, -, u3, -, u5⟩ := update_time_frame s
  obtain ⟨e1, e2, e3, e4⟩ := debounce_buttons_s2_spec hdr (update_time s).1 rd
  have hw1 : (hardware_phase hdr s).count Event.s2_pressed = 0 := by
    simp [hardware_phase]
  have hw2 : (hardware_phase hdr s).count Event.s2_released = 0 := by
    simp [hardware_phase]
  have t1 : (update_time s).2.count Event.s2_pressed = 0 := by
    rw [update_time_events]; split_ifs <;> simp
  have t2 : (update_time s).2.count Event.s2_released = 0 := by
    rw [update_time_events]; split_ifs <;> simp
  simp only [Watchdog_ISR, List.count_append, hw1, hw2, t1, t2, Nat.zero_add]
  rw [e1, e2, e3, e4, u3, u5]
  exact ⟨rfl, rfl, rfl, rfl⟩

/-! ## A counter below the threshold records a run of pressed samples -/

theorem isrState_s1_history (hdr : Header) (ins : Nat → Nat × Nat) (n : Nat) :
    (isrState hdr init ins n).debounce_counter_s1 < 256 ∧
    ((isrState hdr init ins n).s1_active ≠ 0 →
      (isrState hdr init ins n).debounce_counter_s1 = 16) ∧
    ((isrState hdr init ins n).s1_active = 0 →
      (isrState hdr init ins n).debounce_counter_s1 ≤ 15 →
      (isrState hdr init ins n).debounce_counter_s1 ≤ n ∧
      ∀ j, j < (isrState hdr init ins n).debounce_counter_s1 →
        (ins (n - 1 - j)).1 &&& S1_BIT hdr = 0) := by
  induction n with
  | zero =>
    refine ⟨Nat.zero_lt_succ 255, fun h => absurd rfl h,
      fun _ _ => ⟨Nat.le_refl 0, fun j hj => ?_⟩⟩
    exact absurd hj (Nat.not_lt_zero j)
  | succ n ih =>
    obtain ⟨hb, h16, hist⟩ := ih
    obtain ⟨e1, e2, -, -⟩ := Watchdog_ISR_s1_spec hdr (isrState hdr init ins n) (ins n)
    have hu : u8 (((isrState hdr init ins n).debounce_counter_s1 : Int) + 1) =
        ((isrState hdr init ins n).debounce_counter_s1 + 1) % 256 := by
      simp only [u8]; omega
    rw [isrState, e1, e2, hu]
    by_cases ha : (isrState hdr init ins n).s1_active = 0
    · by_cases hp : (ins n).1 &&& S1_BIT hdr = 0
      · by_cases hf : ((isrState hdr init ins n).debounce_counter_s1 + 1) % 256 = 16
        · simp only [ha, hp, hf, if_true]
          exact ⟨by decide, fun _ => trivial, fun h => absurd h Nat.one_ne_zero⟩
        · simp only [ha, hp, hf, if_true, if_false]
          refine ⟨Nat.mod_lt _ (by decide), fun h => absurd rfl h, fun _ hle => ?_⟩
          rcases Nat.eq_or_lt_of_le (Nat.succ_le_of_lt hb) with h255 | hlt
          · have h0 : ((isrState hdr init ins n).debounce_counter_s1 + 1) % 256 = 0 := by
              omega
            rw [h0]
            exact ⟨Nat.zero_le _, fun j hj => absurd hj (Nat.not_lt_zero j)⟩
          · have hc : ((isrState hdr init ins n).debounce_counter_s1 + 1) % 256 =
                (isrState hdr init ins n).debounce_counter_s1 + 1 := by omega
            rw [hc] at hle ⊢
            obtain ⟨hn, hprev⟩ := hist ha (by omega)
            refine ⟨by omega, fun j hj => ?_⟩
            rcases Nat.eq_zero_or_pos j with hj0 | hjpos
            · subst hj0
              exact hp
            · have := hprev (j - 1) (by omega)
              have hidx : n - 1 - (j - 1) = n + 1 - 1 - j := by omega
              rw [hidx] at this
              exact this
      · simp only [ha, hp, if_true, if_false]
        exact ⟨by decide, fun h => absurd rfl h,
          fun _ _ => ⟨Nat.zero_le _, fun j hj => absurd hj (Nat.not_lt_zero j)⟩⟩
    · have hc := h16 ha
      by_cases hp : (ins n).1 &&& S1_BIT hdr = 0
      · simp only [ha, hp, if_true, if_false]
        exact ⟨hb, fun _ => hc, fun h => h.elim⟩
      · simp only [ha, hp, if_false]
        refine ⟨hb, fun _ => hc, fun _ hle => ?_⟩
        omega

theorem isrState_s2_history (hdr : Header) (ins : Nat → Nat × Nat) (n : Nat) :
    (isrState hdr init ins n).debounce_counter_s2 < 256 ∧
    ((isrState hdr init ins n).s2_active ≠ 0 →
      (isrState hdr init ins n).debounce_counter_s2 = 16) ∧
    ((isrState hdr init ins n).s2_active = 0 →
      (isrState hdr init ins n).debounce_counter_s2 ≤ 15 →
      (isrState hdr init ins n).debounce_counter_s2 ≤ n ∧
      ∀ j, j < (isrState hdr init ins n).debounce_counter_s2 →
        (ins (n - 1 - j)).2 &&& S2_BIT hdr = 0) := by
  induction n with
  | zero =>
    refine ⟨Nat.zero_lt_succ 255, fun h => absurd rfl h,
      fun _ _ => ⟨Nat.le_refl 0, fun j hj => ?_⟩⟩
    exact absurd hj (Nat.not_lt_zero j)
  | succ n ih =>
    obtain ⟨hb, h16, hist⟩ := ih
    obtain ⟨e1, e2, -, -⟩ := Watchdog_ISR_s2_spec hdr (isrState hdr init ins n) (ins n)
    have hu : u8 (((isrState hdr init ins n).debounce_counter_s2 : Int) + 1) =
        ((isrState hdr init ins n).debounce_counter_s2 + 1) % 256 := by
      simp only [u8]; omega
    rw [isrState, e1, e2, hu]
    by_cases ha : (isrState hdr init ins n).s2_active = 0
    · by_cases hp : (ins n).2 &&& S2_BIT hdr = 0
      · by_cases hf : ((isrState hdr init ins n).debounce_counter_s2 + 1) % 256 = 16
        · simp only [ha, hp, hf, if_true]
          exact ⟨by decide, fun _ => trivial, fun h => absurd h Nat.one_ne_zero⟩
        · simp only [ha, hp, hf, if_true, if_false]
          refine ⟨Nat.mod_lt _ (by decide), fun h => absurd rfl h, fun _ hle => ?_⟩
          rcases Nat.eq_or_lt_of_le (Nat.succ_le_of_lt hb) with h255 | hlt
          · have h0 : ((isrState hdr init ins n).debounce_counter_s2 + 1) % 256 = 0 := by
              omega
            rw [h0]
            exact ⟨Nat.zero_le _, fun j hj => absurd hj (Nat.not_lt_zero j)⟩
          · have hc : ((isrState hdr init ins n).debounce_counter_s2 + 1) % 256 =
                (isrState hdr init ins n).debounce_counter_s2 + 1 := by omega
            rw [hc] at hle ⊢
            obtain ⟨hn, hprev⟩ := hist ha (by omega)
            refine ⟨by omega, fun j hj => ?_⟩
            rcases Nat.eq_zero_or_pos j with hj0 | hjpos
            · subst hj0
              exact hp
            · have := hprev (j - 1) (by omega)
              have hidx : n - 1 - (j - 1) = n + 1 - 1 - j := by omega
              rw [hidx] at this
              exact this
      · simp only [ha, hp, if_true, if_false]
        exact ⟨by decide, fun h => absurd rfl h,
          fun _ _ => ⟨Nat.zero_le _, fun j hj => absurd hj (Nat.not_lt_zero j)⟩⟩
    · have hc := h16 ha
      by_cases hp : (ins n).2 &&& S2_BIT hdr = 0
      · simp only [ha, hp, if_true, if_false]
        exact ⟨hb, fun _ => hc, fun h => h.elim⟩
      · simp only [ha, hp, if_false]
        refine ⟨hb, fun _ => hc, fun _ hle => ?_⟩
        omega

/-- C14. In every run from cold start, whatever is read from the port: if
invocation `n` (counted from 0) calls `s1_pressed`, then at least 15
invocations went before it and the S1 line read pressed on invocation `n` and
on each of the 15 invocations before it; likewise for `s2_pressed` and the S2
line.  So fewer than 16 pressed samples in a row never activate a button,
whatever releases and counter wraparounds came earlier. -/
theorem C14_debounce_filter (hdr : Header) (ins : Nat → Nat × Nat) (n : Nat) :
    (Event.s1_pressed ∈ isrEvents hdr init ins n →
      15 ≤ n ∧ ∀ j, j ≤ 15 → (ins (n - j)).1 &&& S1_BIT hdr = 0) ∧
    (Event.s2_pressed ∈ isrEvents hdr init ins n →
      15 ≤ n ∧ ∀ j, j ≤ 15 → (ins (n - j)).2 &&& S2_BIT hdr = 0) := by
  constructor
  · intro hmem
    obtain ⟨hb, -, hist⟩ := isrState_s1_history hdr ins n
    obtain ⟨-, -, e3, -⟩ := Watchdog_ISR_s1_spec hdr (isrState hdr init ins n) (ins n)
    have hpos : 0 < (isrEvents hdr init ins n).count Event.s1_pressed :=
      List.count_pos_iff.mpr hmem
    rw [isrEvents, e3] at hpos
    have hcond : (isrState hdr init ins n).s1_active = 0 ∧ (ins n).1 &&& S1_BIT hdr = 0 ∧
        u8 (((isrState hdr init ins n).debounce_counter_s1 : Int) + 1) = 16 := by
      by_contra hc
      rw [if_neg hc] at hpos
      exact Nat.lt_irrefl 0 hpos
    obtain ⟨ha, hp, hf⟩ := hcond
    have hc15 : (isrState hdr init ins n).debounce_counter_s1 = 15 := by
      simp only [u8] at hf
      omega
    obtain ⟨hn, hprev⟩ := hist ha (by omega)
    rw [hc15] at hn hprev
    refine ⟨hn, fun j hj => ?_⟩
    rcases Nat.eq_zero_or_pos j with hj0 | hjpos
    · subst hj0
      exact hp
    · have := hprev (j - 1) (by omega)
      have hidx : n - 1 - (j - 1) = n - j := by omega
      rw [hidx] at this
      exact this
  · intro hmem
    obtain ⟨hb, -, hist⟩ := isrState_s2_history hdr ins n
    obtain ⟨-, -, e3, -⟩ := Watchdog_ISR_s2_spec hdr (isrState hdr init ins n) (ins n)
    have hpos : 0 < (isrEvents hdr init ins n).count Event.s2_pressed :=
      List.count_pos_iff.mpr hmem
    rw [isrEvents, e3] at hpos
    have hcond : (isrState hdr init ins n).s2_active = 0 ∧ (ins n).2 &&& S2_BIT hdr = 0 ∧
        u8 (((isrState hdr init ins n).debounce_counter_s2 : Int) + 1) = 16 := by
      by_contra hc
      rw [if_neg hc] at hpos
      exact Nat.lt_irrefl 0 hpos
    obtain ⟨ha, hp, hf⟩ := hcond
    have hc15 : (isrState hdr init ins n).debounce_counter_s2 = 15 := by
      simp only [u8] at hf
      omega
    obtain ⟨hn, hprev⟩ := hist ha (by omega)
    rw [hc15] at hn hprev
    refine ⟨hn, fun j hj => ?_⟩
    rcases Nat.eq_zero_or_pos j with hj0 | hjpos
    · subst hj0
      exact hp
    · have := hprev (j - 1) (by omega)
      have hidx : n - 1 - (j - 1) = n - j := by omega
      rw [hidx] at this
      exact this

set_option maxRecDepth 1000000 in
/-- C14 on the run from cold start with S1 held down: invocation 16 (index
15) calls `s1_pressed`, and the S1 line read pressed on it and on the 15
invocations before. -/
theorem C14_debounce_filter_witness :
    Event.s1_pressed ∈ isrEvents msp430x20x2 init (fun _ => (8, 8)) 15 ∧
    (15 ≤ 15 ∧ ∀ j, j ≤ 15 →
      ((fun _ => ((8 : Nat), (8 : Nat))) (15 - j)).1 &&& S1_BIT msp430x20x2 = 0) :=
  ⟨by decide, (C14_debounce_filter msp430x20x2 (fun _ => (8, 8)) 15).1 (by decide)⟩

/-! ## Button handling in the calibration modes -/

theorem s1_pressed_cal (s : State)
    (hm : s.meter_mode = METER_MODE_CALIBRATE_ZERO_SCALE ∨
      s.meter_mode = METER_MODE_CALIBRATE_FULL_SCALE) :
    (s1_pressed s).hour = s.hour ∧ (s1_pressed s).minute = s.minute ∧
    (((s1_pressed s).meter_mode = s.meter_mode ∧
        (s1_pressed s).timer_count_h = s.timer_count_h ∧
        (s1_pressed s).timer_count_m = s.timer_count_m) ∨
      ((s1_pressed s).meter_mode ≠ s.meter_mode ∧ s.s2_active ≠ 0)) := by
  simp only [s1_pressed, set_mode_calibrate_zero_scale, set_mode_calibrate_full_scale,
    set_mode_show_time, show_time, subtract_minute, add_hour, METER_MODE_SHOW_TIME,
    METER_MODE_CALIBRATE_ZERO_SCALE, METER_MODE_CALIBRATE_FULL_SCALE] at *
  rcases hm with hm | hm <;> simp only [hm] <;> split_ifs <;> simp_all

theorem s2_pressed_cal (s : State)
    (hm : s.meter_mode = METER_MODE_CALIBRATE_ZERO_SCALE ∨
      s.meter_mode = METER_MODE_CALIBRATE_FULL_SCALE) :
    (s2_pressed s).hour = s.hour ∧ (s2_pressed s).minute = s.minute ∧
    (((s2_pressed s).meter_mode = s.meter_mode ∧
        (s2_pressed s).timer_count_h = s.timer_count_h ∧
        (s2_pressed s).timer_count_m = s.timer_count_m) ∨
      ((s2_pressed s).meter_mode ≠ s.meter_mode ∧ s.s1_active ≠ 0)) := by
  simp only [s2_pressed, set_mode_calibrate_zero_scale, set_mode_calibrate_full_scale,
    set_mode_show_time, show_time, subtract_hour, add_minute, METER_MODE_SHOW_TIME,
    METER_MODE_CALIBRATE_ZERO_SCALE, METER_MODE_CALIBRATE_FULL_SCALE] at *
  rcases hm with hm | hm <;> simp only [hm] <;> split_ifs <;> simp_all

theorem debounce_buttons_s1_cal (hdr : Header) (s : State) (rd : Nat)
    (hm : s.meter_mode = METER_MODE_CALIBRATE_ZERO_SCALE ∨
      s.meter_mode = METER_MODE_CALIBRATE_FULL_SCALE) :
    (debounce_buttons_s1 hdr s rd).1.hour = s.hour ∧
    (debounce_buttons_s1 hdr s rd).1.minute = s.minute ∧
    (((debounce_buttons_s1 hdr s rd).1.meter_mode = s.meter_mode ∧
        (debounce_buttons_s1 hdr s rd).1.timer_count_h = s.timer_count_h ∧
        (debounce_buttons_s1 hdr s rd).1.timer_count_m = s.timer_count_m) ∨
      ((debounce_buttons_s1 hdr s rd).1.meter_mode ≠ s.meter_mode ∧ s.s2_active ≠ 0)) := by
  simp only [debounce_buttons_s1, s1_released]
  split_ifs
  · exact ⟨rfl, rfl, Or.inl ⟨rfl, rfl, rfl⟩⟩
  · exact ⟨rfl, rfl, Or.inl ⟨rfl, rfl, rfl⟩⟩
  · exact s1_pressed_cal
      { s with debounce_counter_s1 := u8 (s.debounce_counter_s1 + 1), s1_active := 1 } hm
  · exact ⟨rfl, rfl, Or.inl ⟨rfl, rfl, rfl⟩⟩
  · exact ⟨rfl, rfl, Or.inl ⟨rfl, rfl, rfl⟩⟩

theorem debounce_buttons_s2_cal (hdr : Header) (s : State) (rd : Nat)
    (hm : s.meter_mode = METER_MODE_CALIBRATE_ZERO_SCALE ∨
      s.meter_mode = METER_MODE_CALIBRATE_FULL_SCALE) :
    (debounce_buttons_s2 hdr s rd).1.hour = s.hour ∧
    (debounce_buttons_s2 hdr s rd).1.minute = s.minute ∧
    (((debounce_buttons_s2 hdr s rd).1.meter_mode = s.meter_mode ∧
        (debounce_buttons_s2 hdr s rd).1.timer_count_h = s.timer_count_h ∧
        (debounce_buttons_s2 hdr s rd).1.timer_count_m = s.timer_count_m) ∨
      ((debounce_buttons_s2 hdr s rd).1.meter_mode ≠ s.meter_mode ∧ s.s1_active ≠ 0)) := by
  simp only [debounce_buttons_s2, s2_released]
  split_ifs
  · exact ⟨rfl, rfl, Or.inl ⟨rfl, rfl, rfl⟩⟩
  · exact ⟨rfl, rfl, Or.inl ⟨rfl, rfl, rfl⟩⟩
  · exact s2_pressed_cal
      { s with debounce_counter_s2 := u8 (s.debounce_counter_s2 + 1), s2_active := 1 } hm
  · exact ⟨rfl, rfl, Or.inl ⟨rfl, rfl, rfl⟩⟩
  · exact ⟨rfl, rfl, Or.inl ⟨rfl, rfl, rfl⟩⟩

/-- A button that is active can only be released: its half of
`debounce_buttons` changes nothing but its active flag. -/
theorem debounce_buttons_s2_of_active (hdr : Header) (s : State) (rd : Nat)
    (h : s.s2_active ≠ 0) :
    (debounce_buttons_s2 hdr s rd).1 = s ∨
    (debounce_buttons_s2 hdr s rd).1 = { s with s2_active := 0 } := by
  simp only [debounce_buttons_s2, s2_released, h]
  split_ifs <;> simp

theorem debounce_buttons_s1_of_active (hdr : Header) (s : State) (rd : Nat)
    (h : s.s1_active ≠ 0) :
    (debounce_buttons_s1 hdr s rd).1 = s ∨
    (debounce_buttons_s1 hdr s rd).1 = { s with s1_active := 0 } := by
  simp only [debounce_buttons_s1, s1_released, h]
  split_ifs <;> simp

theorem debounce_buttons_cal (hdr : Header) (s : State) (rd : Nat × Nat)
    (hm : s.meter_mode = METER_MODE_CALIBRATE_ZERO_SCALE ∨
      s.meter_mode = METER_MODE_CALIBRATE_FULL_SCALE) :
    (debounce_buttons hdr s rd).1.hour = s.hour ∧
    (debounce_buttons hdr s rd).1.minute = s.minute ∧
    (debounce_buttons hdr s rd).1.second = s.second ∧
    ((debounce_buttons hdr s rd).1.meter_mode = s.meter_mode →
      (debounce_buttons hdr s rd).1.timer_count_h = s.timer_count_h ∧
      (debounce_buttons hdr s rd).1.timer_count_m = s.timer_count_m) := by
  refine ⟨?_, ?_, debounce_buttons_second hdr s rd, ?_⟩
  all_goals
    simp only [debounce_buttons]
    obtain ⟨a1, a2, a3⟩ := debounce_buttons_s1_cal hdr s rd.1 hm
    have f2 := (debounce_buttons_s1_frame hdr s rd.1).1
    rcases a3 with ⟨am, ah, amn⟩ | ⟨am, as2⟩
    · obtain ⟨b1, b2, b3⟩ := debounce_buttons_s2_cal hdr (debounce_buttons_s1 hdr s rd.1).1 rd.2
        (by rw [am]; exact hm)
      first
        | (rw [b1, a1])
        | (rw [b2, a2])
        | (intro hmode
           rcases b3 with ⟨bm, bh, bmn⟩ | ⟨bm, -⟩
           · exact ⟨by rw [bh, ah], by rw [bmn, amn]⟩
           · exact absurd (by rw [hmode, am]) bm)
    · rcases debounce_buttons_s2_of_active hdr (debounce_buttons_s1 hdr s rd.1).1 rd.2
        (by rw [f2]; exact as2) with e | e
      all_goals
        rw [e]
        first
          | exact a1
          | exact a2
          | (intro hmode; exact absurd hmode am)
theorem tick_second_outputs (s : State) :
    (tick_second s).timer_count_h = s.timer_count_h ∧
    (tick_second s).timer_count_m = s.timer_count_m := by
  simp only [tick_second, tick_minute, tick_hour]
  split_ifs <;> simp

theorem update_time_cal (s : State) (hm : s.meter_mode ≠ METER_MODE_SHOW_TIME) :
    (update_time s).1.timer_count_h = s.timer_count_h ∧
    (update_time s).1.timer_count_m = s.timer_count_m := by
  have hmode := (tick_second_frame
    { s with second_divider_count := second_divider }).2.1
  have hout := tick_second_outputs { s with second_divider_count := second_divider }
  simp only [update_time]
  split_ifs with h1 h2
  · exact absurd (h2.symm.trans hmode |>.symm) hm
  · exact hout
  · exact ⟨rfl, rfl⟩

/-! ## Frame of the manual set operations -/

/-- C16. `add_minute` and `subtract_minute` change the minute and nothing
else, also at the wrap from 59 to 0 and from 0 to 59; `add_hour` and
`subtract_hour` change the hour and nothing else.  So hour, second and mode
are as before a minute operation, and minute, second and mode as before an
hour operation.  A lone press in show-time mode is `add_hour` (S1) or
`add_minute` (S2) followed by `show_time`, and leaves the second counter as it
is. -/
theorem C16_set_frame :
    (∀ s : State,
      add_minute s = { s with minute := (add_minute s).minute } ∧
      subtract_minute s = { s with minute := (subtract_minute s).minute } ∧
      add_hour s = { s with hour := (add_hour s).hour } ∧
      subtract_hour s = { s with hour := (subtract_hour s).hour }) ∧
    (∀ s : State,
      (add_minute s).hour = s.hour ∧ (add_minute s).second = s.second ∧
      (add_minute s).meter_mode = s.meter_mode ∧
      (subtract_minute s).hour = s.hour ∧ (subtract_minute s).second = s.second ∧
      (subtract_minute s).meter_mode = s.meter_mode ∧
      (add_hour s).minute = s.minute ∧ (add_hour s).second = s.second ∧
      (add_hour s).meter_mode = s.meter_mode ∧
      (subtract_hour s).minute = s.minute ∧ (subtract_hour s).second = s.second ∧
      (subtract_hour s).meter_mode = s.meter_mode) ∧
    (∀ s : State, s.minute = 59 → (add_minute s).minute = 0 ∧ (add_minute s).hour = s.hour) ∧
    (∀ s : State, s.minute = 0 →
      (subtract_minute s).minute = 59 ∧ (subtract_minute s).hour = s.hour) ∧
    (∀ s : State, s.meter_mode = METER_MODE_SHOW_TIME → s.s2_active = 0 →
      s1_pressed s = show_time (add_hour s) ∧ (s1_pressed s).second = s.second ∧
      (s1_pressed s).minute = s.minute) ∧
    (∀ s : State, s.meter_mode = METER_MODE_SHOW_TIME → s.s1_active = 0 →
      s2_pressed s = show_time (add_minute s) ∧ (s2_pressed s).second = s.second ∧
      (s2_pressed s).hour = s.hour) := by
  refine ⟨fun s => ⟨?_, ?_, ?_, ?_⟩, fun s => ?_, fun s h => ?_, fun s h => ?_,
    fun s hm h2 => ?_, fun s hm h1 => ?_⟩
  · simp only [add_minute]; split_ifs <;> rfl
  · simp only [subtract_minute]; split_ifs <;> rfl
  · simp only [add_hour]; split_ifs <;> rfl
  · simp only [subtract_hour]; split_ifs <;> rfl
  · simp only [add_minute, subtract_minute, add_hour, subtract_hour]
    split_ifs <;> simp
  · simp [add_minute, h]
  · simp [subtract_minute, h]
  · have e : s1_pressed s = show_time (add_hour s) := by
      simp [s1_pressed, hm, h2]
    refine ⟨e, (s1_pressed_frame s).2.2.2.2.1, ?_⟩
    rw [e]
    simp only [show_time, add_hour]
    split_ifs <;> rfl
  · have e : s2_pressed s = show_time (add_minute s) := by
      simp [s2_pressed, hm, h1]
    refine ⟨e, (s2_pressed_frame s).2.2.2.2.1, ?_⟩
    rw [e]
    simp only [show_time, add_minute]
    split_ifs <;> rfl

/-- C16 at 06:59:41 in show-time mode: a lone S2 press gives minute 0 and
leaves the hour at 6 and the second at 41. -/
theorem C16_set_frame_witness :
    (s2_pressed { init with minute := 59, second := 41 }).minute = 0 ∧
    (s2_pressed { init with minute := 59, second := 41 }).hour = 6 ∧
    (s2_pressed { init with minute := 59, second := 41 }).second = 41 :=
  ⟨by decide,
   (C16_set_frame.2.2.2.2.2 { init with minute := 59, second := 41 } rfl rfl).2.2,
   (C16_set_frame.2.2.2.2.2 { init with minute := 59, second := 41 } rfl rfl).2.1⟩

/-! ## Events that change nothing -/

/-- C17. In the two calibration modes a `pressed` call made while the other
button's flag is clear leaves the whole state as it is.  The `released`
handlers do nothing, and a release in `debounce_buttons` changes the button's
active flag only.  While the mode is calibrate-zero or calibrate-full, one call
of `debounce_buttons` leaves hour, minute and second as they are and, unless it
changes the mode, the outputs too; `update_time` leaves mode and outputs as
they are; so an invocation of `Watchdog_ISR` that does not change the mode
leaves the outputs as they are and changes the time only through
`update_time`. -/
theorem C17_no_ops :
    (∀ s : State, (s.meter_mode = METER_MODE_CALIBRATE_ZERO_SCALE ∨
        s.meter_mode = METER_MODE_CALIBRATE_FULL_SCALE) → s.s2_active = 0 →
      s1_pressed s = s) ∧
    (∀ s : State, (s.meter_mode = METER_MODE_CALIBRATE_ZERO_SCALE ∨
        s.meter_mode = METER_MODE_CALIBRATE_FULL_SCALE) → s.s1_active = 0 →
      s2_pressed s = s) ∧
    (∀ s : State, s1_released s = s ∧ s2_released s = s) ∧
    (∀ (hdr : Header) (s : State) (rd : Nat), s.s1_active ≠ 0 → rd &&& S1_BIT hdr ≠ 0 →
      debounce_buttons_s1 hdr s rd = ({ s with s1_active := 0 }, [Event.s1_released])) ∧
    (∀ (hdr : Header) (s : State) (rd : Nat), s.s2_active ≠ 0 → rd &&& S2_BIT hdr ≠ 0 →
      debounce_buttons_s2 hdr s rd = ({ s with s2_active := 0 }, [Event.s2_released])) ∧
    (∀ (hdr : Header) (s : State) (rd : Nat × Nat),
      (s.meter_mode = METER_MODE_CALIBRATE_ZERO_SCALE ∨
        s.meter_mode = METER_MODE_CALIBRATE_FULL_SCALE) →
      (debounce_buttons hdr s rd).1.hour = s.hour ∧
      (debounce_buttons hdr s rd).1.minute = s.minute ∧
      (debounce_buttons hdr s rd).1.second = s.second ∧
      ((debounce_buttons hdr s rd).1.meter_mode = s.meter_mode →
        (debounce_buttons hdr s rd).1.timer_count_h = s.timer_count_h ∧
        (debounce_buttons hdr s rd).1.timer_count_m = s.timer_count_m)) ∧
    (∀ s : State, (s.meter_mode = METER_MODE_CALIBRATE_ZERO_SCALE ∨
        s.meter_mode = METER_MODE_CALIBRATE_FULL_SCALE) →
      (update_time s).1.meter_mode = s.meter_mode ∧
      (update_time s).1.timer_count_h = s.timer_count_h ∧
      (update_time s).1.timer_count_m = s.timer_count_m) ∧
    (∀ (hdr : Header) (s : State) (rd : Nat × Nat),
      (s.meter_mode = METER_MODE_CALIBRATE_ZERO_SCALE ∨
        s.meter_mode = METER_MODE_CALIBRATE_FULL_SCALE) →
      (Watchdog_ISR hdr s rd).1.hour = (update_time s).1.hour ∧
      (Watchdog_ISR hdr s rd).1.minute = (update_time s).1.minute ∧
      (Watchdog_ISR hdr s rd).1.second = (update_time s).1.second ∧
      ((Watchdog_ISR hdr s rd).1.meter_mode = s.meter_mode →
        (Watchdog_ISR hdr s rd).1.timer_count_h = s.timer_count_h ∧
        (Watchdog_ISR hdr s rd).1.timer_count_m = s.timer_count_m)) := by
  have hne : ∀ s : State, (s.meter_mode = METER_MODE_CALIBRATE_ZERO_SCALE ∨
      s.meter_mode = METER_MODE_CALIBRATE_FULL_SCALE) →
      s.meter_mode ≠ METER_MODE_SHOW_TIME := by
    intro s hm h0
    rw [h0] at hm
    rcases hm with h | h <;> exact absurd h (by decide)
  refine ⟨fun s hm h2 => ?_, fun s hm h1 => ?_, fun s => ⟨rfl, rfl⟩,
    fun hdr s rd ha hr => ?_, fun hdr s rd ha hr => ?_,
    fun hdr s rd hm => debounce_buttons_cal hdr s rd hm,
    fun s hm => ⟨(update_time_frame s).1, update_time_cal s (hne s hm)⟩,
    fun hdr s rd hm => ?_⟩
  · simp only [s1_pressed, METER_MODE_SHOW_TIME, METER_MODE_CALIBRATE_ZERO_SCALE,
      METER_MODE_CALIBRATE_FULL_SCALE] at *
    rcases hm with hm | hm <;> simp [hm, h2]
  · simp only [s2_pressed, METER_MODE_SHOW_TIME, METER_MODE_CALIBRATE_ZERO_SCALE,
      METER_MODE_CALIBRATE_FULL_SCALE] at *
    rcases hm with hm | hm <;> simp [hm, h1]
  · simp [debounce_buttons_s1, s1_released, ha, hr]
  · simp [debounce_buttons_s2, s2_released, ha, hr]
  · have um := (update_time_frame s).1
    obtain ⟨uh, umn⟩ := update_time_cal s (hne s hm)
    obtain ⟨d1, d2, d3, d4⟩ := debounce_buttons_cal hdr (update_time s).1 rd
      (by rw [um]; exact hm)
    simp only [Watchdog_ISR]
    refine ⟨d1, d2, d3, fun hmode => ?_⟩
    obtain ⟨o1, o2⟩ := d4 (by rw [hmode, um])
    exact ⟨by rw [o1, uh], by rw [o2, umn]⟩

/-- C17 in calibrate-zero mode with outputs (64, 64), S2 inactive and S1 on
its 16th pressed sample, on an invocation that also ticks the second: the
mode and the outputs are as before. -/
theorem C17_no_ops_witness :
    (Watchdog_ISR msp430x20x2
      { init with meter_mode := METER_MODE_CALIBRATE_ZERO_SCALE, timer_count_h := 64,
                  timer_count_m := 64, debounce_counter_s1 := 15 } (8, 8)).1.meter_mode =
      METER_MODE_CALIBRATE_ZERO_SCALE ∧
    (Watchdog_ISR msp430x20x2
      { init with meter_mode := METER_MODE_CALIBRATE_ZERO_SCALE, timer_count_h := 64,
                  timer_count_m := 64, debounce_counter_s1 := 15 } (8, 8)).1.timer_count_h =
      64 ∧
    Event.s1_pressed ∈ (Watchdog_ISR msp430x20x2
      { init with meter_mode := METER_MODE_CALIBRATE_ZERO_SCALE, timer_count_h := 64,
                  timer_count_m := 64, debounce_counter_s1 := 15 } (8, 8)).2 :=
  ⟨by decide,
   ((C17_no_ops.2.2.2.2.2.2.2 msp430x20x2
      { init with meter_mode := METER_MODE_CALIBRATE_ZERO_SCALE, timer_count_h := 64,
                  timer_count_m := 64, debounce_counter_s1 := 15 } (8, 8)
      (Or.inl rfl)).2.2.2 (by decide)).1,
   by decide⟩

/-! ## Outputs agree with mode and time -/

theorem OutputsConsistent_congr (s t : State) (hm : t.meter_mode = s.meter_mode)
    (hh : t.timer_count_h = s.timer_count_h) (hmn : t.timer_count_m = s.timer_count_m)
    (ht : s.meter_mode = METER_MODE_SHOW_TIME → t.hour = s.hour ∧ t.minute = s.minute)
    (hc : OutputsConsistent s) : OutputsConsistent t := by
  obtain ⟨c0, c1, c2⟩ := hc
  refine ⟨fun h => ?_, fun h => ?_, fun h => ?_⟩
  · rw [hm] at h
    obtain ⟨e1, e2⟩ := ht h
    rw [hh, hmn, e1, e2]
    exact c0 h
  · rw [hm] at h
    rw [hh, hmn]
    exact c1 h
  · rw [hm] at h
    rw [hh, hmn]
    exact c2 h

theorem show_time_exact (s : State) (hh : s.hour ≤ 11) (hm : s.minute ≤ 59) :
    ((show_time s).timer_count_m : Int) = 64 - (s.minute : Int) ∧
    ((show_time s).timer_count_h : Int) = 64 - 5 * (s.hour : Int) := by
  have em : (64 - (s.minute : Int)) % 256 = 64 - (s.minute : Int) :=
    Int.emod_eq_of_lt (by omega) (by omega)
  have eh : (64 - (s.hour : Int) * 5) % 256 = 64 - (s.hour : Int) * 5 :=
    Int.emod_eq_of_lt (by omega) (by omega)
  simp only [show_time, u8, em, eh]
  omega

theorem add_keeps_mode (s : State) :
    (add_hour s).meter_mode = s.meter_mode ∧ (add_minute s).meter_mode = s.meter_mode := by
  simp only [add_hour, add_minute]
  split_ifs <;> simp

theorem show_time_consistent (s : State) (h : TimeInRange s)
    (hm : s.meter_mode = METER_MODE_SHOW_TIME) : OutputsConsistent (show_time s) := by
  obtain ⟨hh, hmin, -⟩ := h
  have o := (show_time_exact s hh hmin)
  refine ⟨fun _ => ⟨o.2, o.1⟩, fun h1 => ?_, fun h2 => ?_⟩
  · have : (show_time s).meter_mode = s.meter_mode := rfl
    rw [this, hm] at h1
    exact absurd h1 (by decide)
  · have : (show_time s).meter_mode = s.meter_mode := rfl
    rw [this, hm] at h2
    exact absurd h2 (by decide)

theorem set_mode_show_time_consistent (s : State) (h : TimeInRange s) :
    OutputsConsistent (set_mode_show_time s) :=
  show_time_consistent { s with meter_mode := METER_MODE_SHOW_TIME } h rfl

theorem set_mode_calibrate_zero_scale_consistent (s : State) :
    OutputsConsistent (set_mode_calibrate_zero_scale s) := by
  have e64 : u8 64 = 64 := by decide
  simp [OutputsConsistent, set_mode_calibrate_zero_scale, e64, METER_MODE_SHOW_TIME,
    METER_MODE_CALIBRATE_ZERO_SCALE, METER_MODE_CALIBRATE_FULL_SCALE]

theorem set_mode_calibrate_full_scale_consistent (s : State) :
    OutputsConsistent (set_mode_calibrate_full_scale s) := by
  have e4 : u8 4 = 4 := by decide
  simp [OutputsConsistent, set_mode_calibrate_full_scale, e4, METER_MODE_SHOW_TIME,
    METER_MODE_CALIBRATE_ZERO_SCALE, METER_MODE_CALIBRATE_FULL_SCALE]

theorem s1_pressed_consistent (s : State) (h : TimeInRange s) (hc : OutputsConsistent s) :
    OutputsConsistent (s1_pressed s) := by
  unfold s1_pressed
  split_ifs with h0 h1 h2 h3 h4 h5
  · exact set_mode_calibrate_zero_scale_consistent _
  · exact show_time_consistent _ (add_hour_inRange s h)
      (by rw [← h0]; exact (add_keeps_mode s).1)
  · exact set_mode_calibrate_full_scale_consistent _
  · exact hc
  · exact set_mode_show_time_consistent _ h
  · exact hc
  · exact hc

theorem s2_pressed_consistent (s : State) (h : TimeInRange s) (hc : OutputsConsistent s) :
    OutputsConsistent (s2_pressed s) := by
  unfold s2_pressed
  split_ifs with h0 h1 h2 h3 h4 h5
  · exact set_mode_calibrate_zero_scale_consistent _
  · exact show_time_consistent _ (add_minute_inRange s h)
      (by rw [← h0]; exact (add_keeps_mode s).2)
  · exact set_mode_calibrate_full_scale_consistent _
  · exact hc
  · exact set_mode_show_time_consistent _ h
  · exact hc
  · exact hc

theorem debounce_buttons_s1_consistent (hdr : Header) (s : State) (rd : Nat)
    (h : TimeInRange s) (hc : OutputsConsistent s) :
    OutputsConsistent (debounce_buttons_s1 hdr s rd).1 := by
  simp only [debounce_buttons_s1, s1_released]
  split_ifs
  · exact hc
  · exact hc
  · exact s1_pressed_consistent _ h hc
  · exact hc
  · exact hc

theorem debounce_buttons_s2_consistent (hdr : Header) (s : State) (rd : Nat)
    (h : TimeInRange s) (hc : OutputsConsistent s) :
    OutputsConsistent (debounce_buttons_s2 hdr s rd).1 := by
  simp only [debounce_buttons_s2, s2_released]
  split_ifs
  · exact hc
  · exact hc
  · exact s2_pressed_consistent _ h hc
  · exact hc
  · exact hc

theorem debounce_buttons_consistent (hdr : Header) (s : State) (rd : Nat × Nat)
    (h : TimeInRange s) (hc : OutputsConsistent s) :
    OutputsConsistent (debounce_buttons hdr s rd).1 :=
  debounce_buttons_s2_consistent hdr _ _ (debounce_buttons_s1_inRange hdr s _ h)
    (debounce_buttons_s1_consistent hdr s _ h hc)

theorem update_time_consistent (s : State) (h : TimeInRange s)
    (hc : OutputsConsistent s ∨
      (s.meter_mode = METER_MODE_SHOW_TIME ∧
        u16 ((s.second_divider_count : Int) - 1) = 0)) :
    OutputsConsistent (update_time s).1 := by
  have hmode := (tick_second_frame { s with second_divider_count := second_divider }).2.1
  have hout := tick_second_outputs { s with second_divider_count := second_divider }
  have hr : TimeInRange (tick_second { s with second_divider_count := second_divider }) :=
    tick_second_inRange _ h
  simp only [update_time]
  split_ifs with h1 h2
  · exact show_time_consistent _ hr h2
  · rcases hc with hc | ⟨hm, -⟩
    · exact OutputsConsistent_congr s _ hmode hout.1 hout.2
        (fun h0 => absurd (hmode.trans h0) h2) hc
    · exact absurd (hmode.trans hm) h2
  · rcases hc with hc | ⟨-, hz⟩
    · exact hc
    · exact absurd hz h1

theorem Watchdog_ISR_consistent (hdr : Header) (s : State) (rd : Nat × Nat)
    (h : TimeInRange s)
    (hc : OutputsConsistent s ∨
      (s.meter_mode = METER_MODE_SHOW_TIME ∧
        u16 ((s.second_divider_count : Int) - 1) = 0)) :
    OutputsConsistent (Watchdog_ISR hdr s rd).1 :=
  debounce_buttons_consistent hdr _ _ (update_time_inRange s h) (update_time_consistent s h hc)

theorem isrState_consistent (hdr : Header) (ins : Nat → Nat × Nat) (n : Nat) :
    OutputsConsistent (isrState hdr init ins (n + 1)) := by
  induction n with
  | zero =>
    exact Watchdog_ISR_consistent hdr init (ins 0) (by decide) (Or.inr ⟨rfl, by decide⟩)
  | succ n ih =>
    exact Watchdog_ISR_consistent hdr _ (ins (n + 1))
      (isrState_inRange hdr init ins (by decide) (n + 1)) (Or.inl ih)

/-- C18. After every invocation of `Watchdog_ISR` in a run from cold start
(that is, in every state reached after at least one invocation, whatever is
read from the port): in show-time mode the outputs are
`(64 - 5 * hour, 64 - minute)` for the current time, in calibrate-zero mode
they are (64, 64), in calibrate-full mode (4, 4).  Before the first invocation
the outputs are (0, 0) in show-time mode at 06:30. -/
theorem C18_outputs_consistent (hdr : Header) (ins : Nat → Nat × Nat) (n : Nat)
    (hn : 1 ≤ n) :
    ((isrState hdr init ins n).meter_mode = METER_MODE_SHOW_TIME →
      ((isrState hdr init ins n).timer_count_h : Int) =
        64 - 5 * ((isrState hdr init ins n).hour : Int) ∧
      ((isrState hdr init ins n).timer_count_m : Int) =
        64 - ((isrState hdr init ins n).minute : Int)) ∧
    ((isrState hdr init ins n).meter_mode = METER_MODE_CALIBRATE_ZERO_SCALE →
      (isrState hdr init ins n).timer_count_h = 64 ∧
      (isrState hdr init ins n).timer_count_m = 64) ∧
    ((isrState hdr init ins n).meter_mode = METER_MODE_CALIBRATE_FULL_SCALE →
      (isrState hdr init ins n).timer_count_h = 4 ∧
      (isrState hdr init ins n).timer_count_m = 4) := by
  obtain ⟨m, rfl⟩ : ∃ m, n = m + 1 := ⟨n - 1, by omega⟩
  exact isrState_consistent hdr ins m

/-- C18 after the first invocation from cold start, both buttons up: the mode
is show-time and the outputs are (34, 34), those of 06:30. -/
theorem C18_outputs_consistent_witness :
    (isrState msp430x20x2 init (fun _ => (9, 9)) 1).meter_mode = METER_MODE_SHOW_TIME ∧
    ((isrState msp430x20x2 init (fun _ => (9, 9)) 1).timer_count_h : Int) =
      64 - 5 * ((isrState msp430x20x2 init (fun _ => (9, 9)) 1).hour : Int) ∧
    ((isrState msp430x20x2 init (fun _ => (9, 9)) 1).timer_count_m : Int) =
      64 - ((isrState msp430x20x2 init (fun _ => (9, 9)) 1).minute : Int) ∧
    (isrState msp430x20x2 init (fun _ => (9, 9)) 1).timer_count_h = 34 :=
  ⟨by decide,
   ((C18_outputs_consistent msp430x20x2 (fun _ => (9, 9)) 1 (Nat.le_refl 1)).1
      (by decide)).1,
   ((C18_outputs_consistent msp430x20x2 (fun _ => (9, 9)) 1 (Nat.le_refl 1)).1
      (by decide)).2,
   by decide⟩

/-! ## Both buttons crossing the threshold on the same invocation -/

theorem debounce_buttons_double (hdr : Header) (s : State) (rd : Nat × Nat)
    (h1 : s.s1_active = 0) (h2 : s.s2_active = 0)
    (c1 : u8 ((s.debounce_counter_s1 : Int) + 1) = 16)
    (c2 : u8 ((s.debounce_counter_s2 : Int) + 1) = 16)
    (p1 : rd.1 &&& S1_BIT hdr = 0) (p2 : rd.2 &&& S2_BIT hdr = 0) :
    debounce_buttons hdr s rd =
      (s2_pressed { s1_pressed { s with debounce_counter_s1 := 16, s1_active := 1 } with
          debounce_counter_s2 := 16, s2_active := 1 },
        [Event.s1_pressed, Event.s2_pressed]) := by
  have e1 : debounce_buttons_s1 hdr s rd.1 =
      (s1_pressed { s with debounce_counter_s1 := 16, s1_active := 1 },
        [Event.s1_pressed]) := by
    simp [debounce_buttons_s1, debounce_wait, h1, c1, p1]
  have fr := s1_pressed_frame { s with debounce_counter_s1 := 16, s1_active := 1 }
  have e2 : debounce_buttons_s2 hdr
      (s1_pressed { s with debounce_counter_s1 := 16, s1_active := 1 }) rd.2 =
      (s2_pressed { s1_pressed { s with debounce_counter_s1 := 16, s1_active := 1 } with
          debounce_counter_s2 := 16, s2_active := 1 },
        [Event.s2_pressed]) := by
    simp only [debounce_buttons_s2, debounce_wait, fr.2.1, fr.2.2.2.1]
    simp [h2, c2, p2]
  simp only [debounce_buttons]
  rw [e1]
  dsimp only
  rw [e2]
  rfl

/-- C19. If both buttons are inactive, both counters are one short of the
threshold and both lines read pressed, one call of `debounce_buttons` calls
`s1_pressed` and then `s2_pressed` and sets both active flags.  From show-time
mode with an in-range time it leaves hour, minute and second as they are and
enters calibrate-zero with outputs (64, 64); from calibrate-zero it enters
calibrate-full with outputs (4, 4); from calibrate-full it enters show-time
with the outputs recomputed from the unchanged time.  Inside `Watchdog_ISR`
this applies to the state left by the time update. -/
theorem C19_same_tick (hdr : Header) (s : State) (rd : Nat × Nat)
    (ht : TimeInRange s) (h1 : s.s1_active = 0) (h2 : s.s2_active = 0)
    (c1 : s.debounce_counter_s1 = 15) (c2 : s.debounce_counter_s2 = 15)
    (p1 : rd.1 &&& S1_BIT hdr = 0) (p2 : rd.2 &&& S2_BIT hdr = 0) :
    (debounce_buttons hdr s rd).2 = [Event.s1_pressed, Event.s2_pressed] ∧
    (debounce_buttons hdr s rd).1.s1_active = 1 ∧
    (debounce_buttons hdr s rd).1.s2_active = 1 ∧
    (s.meter_mode = METER_MODE_SHOW_TIME →
      (debounce_buttons hdr s rd).1 =
        { s with debounce_counter_s1 := 16, s1_active := 1, debounce_counter_s2 := 16,
                 s2_active := 1, meter_mode := METER_MODE_CALIBRATE_ZERO_SCALE,
                 timer_count_h := 64, timer_count_m := 64 }) ∧
    (s.meter_mode = METER_MODE_CALIBRATE_ZERO_SCALE →
      (debounce_buttons hdr s rd).1 =
        { s with debounce_counter_s1 := 16, s1_active := 1, debounce_counter_s2 := 16,
                 s2_active := 1, meter_mode := METER_MODE_CALIBRATE_FULL_SCALE,
                 timer_count_h := 4, timer_count_m := 4 }) ∧
    (s.meter_mode = METER_MODE_CALIBRATE_FULL_SCALE →
      (debounce_buttons hdr s rd).1 =
        { s with debounce_counter_s1 := 16, s1_active := 1, debounce_counter_s2 := 16,
                 s2_active := 1, meter_mode := METER_MODE_SHOW_TIME,
                 timer_count_h := 64 - 5 * s.hour, timer_count_m := 64 - s.minute }) ∧
    (Watchdog_ISR hdr s rd).1 = (debounce_buttons hdr (update_time s).1 rd).1 ∧
    (s.meter_mode = METER_MODE_SHOW_TIME →
      (Watchdog_ISR hdr s rd).1.hour = (update_time s).1.hour ∧
      (Watchdog_ISR hdr s rd).1.minute = (update_time s).1.minute ∧
      (Watchdog_ISR hdr s rd).1.second = (update_time s).1.second ∧
      (Watchdog_ISR hdr s rd).1.meter_mode = METER_MODE_CALIBRATE_ZERO_SCALE ∧
      (Watchdog_ISR hdr s rd).1.timer_count_h = 64 ∧
      (Watchdog_ISR hdr s rd).1.timer_count_m = 64) := by
  have u15 : u8 (((15 : Nat) : Int) + 1) = 16 := by decide
  have e4 : u8 4 = 4 := by decide
  have key : ∀ t : State, TimeInRange t → t.s1_active = 0 → t.s2_active = 0 →
      t.debounce_counter_s1 = 15 → t.debounce_counter_s2 = 15 →
      debounce_buttons hdr t rd =
        (s2_pressed { s1_pressed { t with debounce_counter_s1 := 16, s1_active := 1 } with
            debounce_counter_s2 := 16, s2_active := 1 },
          [Event.s1_pressed, Event.s2_pressed]) := by
    intro t _ a1 a2 b1 b2
    exact debounce_buttons_double hdr t rd a1 a2 (by rw [b1]; exact u15)
      (by rw [b2]; exact u15) p1 p2
  have hd := key s ht h1 h2 c1 c2
  have fr1 := s1_pressed_frame { s with debounce_counter_s1 := 16, s1_active := 1 }
  have fr2 := s2_pressed_frame
    { s1_pressed { s with debounce_counter_s1 := 16, s1_active := 1 } with
      debounce_counter_s2 := 16, s2_active := 1 }
  refine ⟨by rw [hd], ?_, ?_, fun hm => ?_, fun hm => ?_, fun hm => ?_, rfl, fun hm => ?_⟩
  · rw [hd]
    show (s2_pressed _).s1_active = 1
    rw [fr2.1]
    exact fr1.1
  · rw [hd]
    show (s2_pressed _).s2_active = 1
    rw [fr2.2.1]
  · rw [hd]
    exact (s2_after_s1_fields s hm h2 ht.1 ht.2.1 16 16).2.2.2.2.2
  · rw [hd]
    simp [s1_pressed, s2_pressed, set_mode_calibrate_full_scale, hm, h2, e4,
      METER_MODE_SHOW_TIME, METER_MODE_CALIBRATE_ZERO_SCALE, METER_MODE_CALIBRATE_FULL_SCALE]
  · rw [hd]
    have eh : u8 (64 - (s.hour : Int) * 5) = 64 - 5 * s.hour := by
      obtain ⟨hh, -, -⟩ := ht
      simp only [u8]; omega
    have em : u8 (64 - (s.minute : Int)) = 64 - s.minute := by
      obtain ⟨-, hmin, -⟩ := ht
      simp only [u8]; omega
    simp [s1_pressed, s2_pressed, set_mode_show_time, show_time, hm, h2, eh, em,
      METER_MODE_SHOW_TIME, METER_MODE_CALIBRATE_ZERO_SCALE, METER_MODE_CALIBRATE_FULL_SCALE]
  · obtain ⟨u1, u2, u3, u4, u5⟩ := update_time_frame s
    have hr := update_time_inRange s ht
    have hk := key (update_time s).1 hr (by rw [u2]; exact h1) (by rw [u3]; exact h2)
      (by rw [u4]; exact c1) (by rw [u5]; exact c2)
    have hf := (s2_after_s1_fields (update_time s).1 (by rw [u1]; exact hm)
      (by rw [u3]; exact h2) hr.1 hr.2.1 16 16).2.2.2.2.2
    have : (Watchdog_ISR hdr s rd).1 = (debounce_buttons hdr (update_time s).1 rd).1 := rfl
    rw [this, hk]
    dsimp only
    rw [hf]
    exact ⟨rfl, rfl, rfl, rfl, rfl, rfl⟩

/-- C19 in show-time mode at 11:59:59 with both counters at 15 and both lines
down: one call of `debounce_buttons` calls both handlers, and the hour is 11
again afterwards, in calibrate-zero mode. -/
theorem C19_same_tick_witness :
    (debounce_buttons msp430x20x2
      { init with hour := 11, minute := 59, second := 59, debounce_counter_s1 := 15,
                  debounce_counter_s2 := 15 } (0, 0)).2 =
      [Event.s1_pressed, Event.s2_pressed] ∧
    (debounce_buttons msp430x20x2
      { init with hour := 11, minute := 59, second := 59, debounce_counter_s1 := 15,
                  debounce_counter_s2 := 15 } (0, 0)).1 =
      { init with hour := 11, minute := 59, second := 59, debounce_counter_s1 := 16,
                  s1_active := 1, debounce_counter_s2 := 16, s2_active := 1,
                  meter_mode := METER_MODE_CALIBRATE_ZERO_SCALE, timer_count_h := 64,
                  timer_count_m := 64 } :=
  ⟨(C19_same_tick msp430x20x2
      { init with hour := 11, minute := 59, second := 59, debounce_counter_s1 := 15,
                  debounce_counter_s2 := 15 } (0, 0)
      (by decide) rfl rfl rfl rfl (by decide) (by decide)).1,
   (C19_same_tick msp430x20x2
      { init with hour := 11, minute := 59, second := 59, debounce_counter_s1 := 15,
                  debounce_counter_s2 := 15 } (0, 0)
      (by decide) rfl rfl rfl rfl (by decide) (by decide)).2.2.2.1 rfl⟩

/-! ## One held button, the other one up -/

theorem debounce_buttons_s1_count_step (hdr : Header) (s : State) (rd : Nat × Nat) (c : Nat)
    (h1 : s.s1_active = 0) (hc : s.debounce_counter_s1 = c) (hlt : c < 15)
    (p1 : rd.1 &&& S1_BIT hdr = 0)
    (hq2 : (s.s2_active = 0 ∧ s.debounce_counter_s2 = 0 ∧ rd.2 &&& S2_BIT hdr ≠ 0) ∨
      (s.s2_active ≠ 0 ∧ rd.2 &&& S2_BIT hdr = 0)) :
    debounce_buttons hdr s rd = ({ s with debounce_counter_s1 := c + 1 }, []) := by
  have hu : u8 ((c : Int) + 1) = c + 1 := u8_succ c (by omega)
  have hne : ¬ (c + 1 = 16) := by omega
  have e1 : debounce_buttons_s1 hdr s rd.1 = ({ s with debounce_counter_s1 := c + 1 }, []) := by
    simp [debounce_buttons_s1, debounce_wait, h1, hc, hu, hne, p1]
  simp only [debounce_buttons]
  rw [e1]
  dsimp only
  rw [debounce_buttons_s2_quiet hdr { s with debounce_counter_s1 := c + 1 } rd.2 hq2]
  rfl

theorem debounce_buttons_s2_count_step (hdr : Header) (s : State) (rd : Nat × Nat) (c : Nat)
    (h2 : s.s2_active = 0) (hc : s.debounce_counter_s2 = c) (hlt : c < 15)
    (p2 : rd.2 &&& S2_BIT hdr = 0)
    (hq1 : (s.s1_active = 0 ∧ s.debounce_counter_s1 = 0 ∧ rd.1 &&& S1_BIT hdr ≠ 0) ∨
      (s.s1_active ≠ 0 ∧ rd.1 &&& S1_BIT hdr = 0)) :
    debounce_buttons hdr s rd = ({ s with debounce_counter_s2 := c + 1 }, []) := by
  have hu : u8 ((c : Int) + 1) = c + 1 := u8_succ c (by omega)
  have hne : ¬ (c + 1 = 16) := by omega
  simp only [debounce_buttons]
  rw [debounce_buttons_s1_quiet hdr s rd.1 hq1]
  simp [debounce_buttons_s2, debounce_wait, h2, hc, hu, hne, p2]

theorem debounce_buttons_s1_lone_step (hdr : Header) (s : State) (rd : Nat × Nat)
    (hm : s.meter_mode = METER_MODE_SHOW_TIME)
    (h1 : s.s1_active = 0) (hc : s.debounce_counter_s1 = 15)
    (p1 : rd.1 &&& S1_BIT hdr = 0)
    (h2 : s.s2_active = 0) (c2 : s.debounce_counter_s2 = 0) (r2 : rd.2 &&& S2_BIT hdr ≠ 0) :
    debounce_buttons hdr s rd =
      (show_time (add_hour { s with debounce_counter_s1 := 16, s1_active := 1 }),
        [Event.s1_pressed]) := by
  have hu : u8 16 = 16 := by decide
  have e1 : debounce_buttons_s1 hdr s rd.1 =
      (show_time (add_hour { s with debounce_counter_s1 := 16, s1_active := 1 }),
        [Event.s1_pressed]) := by
    simp [debounce_buttons_s1, debounce_wait, s1_pressed, h1, hc, hu, p1, hm, h2]
  have fr : (show_time (add_hour { s with debounce_counter_s1 := 16, s1_active := 1 })).s2_active
        = s.s2_active ∧
      (show_time (add_hour
        { s with debounce_counter_s1 := 16, s1_active := 1 })).debounce_counter_s2 =
        s.debounce_counter_s2 := by
    simp only [show_time, add_hour]
    split_ifs <;> exact ⟨rfl, rfl⟩
  simp only [debounce_buttons]
  rw [e1]
  dsimp only
  rw [debounce_buttons_s2_quiet hdr _ rd.2 (Or.inl ⟨by rw [fr.1]; exact h2,
    by rw [fr.2]; exact c2, r2⟩)]
  rfl

theorem debounce_buttons_s2_lone_step (hdr : Header) (s : State) (rd : Nat × Nat)
    (hm : s.meter_mode = METER_MODE_SHOW_TIME)
    (h2 : s.s2_active = 0) (hc : s.debounce_counter_s2 = 15)
    (p2 : rd.2 &&& S2_BIT hdr = 0)
    (h1 : s.s1_active = 0) (c1 : s.debounce_counter_s1 = 0) (r1 : rd.1 &&& S1_BIT hdr ≠ 0) :
    debounce_buttons hdr s rd =
      (show_time (add_minute { s with debounce_counter_s2 := 16, s2_active := 1 }),
        [Event.s2_pressed]) := by
  have hu : u8 16 = 16 := by decide
  simp only [debounce_buttons]
  rw [debounce_buttons_s1_quiet hdr s rd.1 (Or.inl ⟨h1, c1, r1⟩)]
  simp [debounce_buttons_s2, debounce_wait, s2_pressed, h2, hc, hu, p2, hm, h1]

theorem debounce_buttons_quiet_step (hdr : Header) (s : State) (rd : Nat × Nat)
    (hq1 : (s.s1_active = 0 ∧ s.debounce_counter_s1 = 0 ∧ rd.1 &&& S1_BIT hdr ≠ 0) ∨
      (s.s1_active ≠ 0 ∧ rd.1 &&& S1_BIT hdr = 0))
    (hq2 : (s.s2_active = 0 ∧ s.debounce_counter_s2 = 0 ∧ rd.2 &&& S2_BIT hdr ≠ 0) ∨
      (s.s2_active ≠ 0 ∧ rd.2 &&& S2_BIT hdr = 0)) :
    debounce_buttons hdr s rd = (s, []) := by
  simp only [debounce_buttons]
  rw [debounce_buttons_s1_quiet hdr s rd.1 hq1, debounce_buttons_s2_quiet hdr s rd.2 hq2]
  rfl

theorem lone_s1_frame (s : State) :
    (show_time (add_hour s)).meter_mode = s.meter_mode ∧
    (show_time (add_hour s)).s1_active = s.s1_active ∧
    (show_time (add_hour s)).s2_active = s.s2_active ∧
    (show_time (add_hour s)).debounce_counter_s1 = s.debounce_counter_s1 ∧
    (show_time (add_hour s)).debounce_counter_s2 = s.debounce_counter_s2 := by
  simp only [show_time, add_hour]
  split_ifs <;> exact ⟨rfl, rfl, rfl, rfl, rfl⟩

theorem lone_s2_frame (s : State) :
    (show_time (add_minute s)).meter_mode = s.meter_mode ∧
    (show_time (add_minute s)).s1_active = s.s1_active ∧
    (show_time (add_minute s)).s2_active = s.s2_active ∧
    (show_time (add_minute s)).debounce_counter_s1 = s.debounce_counter_s1 ∧
    (show_time (add_minute s)).debounce_counter_s2 = s.debounce_counter_s2 := by
  simp only [show_time, add_minute]
  split_ifs <;> exact ⟨rfl, rfl, rfl, rfl, rfl⟩

/-- Button handling of invocation `i` of a run in which S1 is held from the
start and S2 stays up, in terms of the state `t` left by the time update. -/
theorem held_s1_step (hdr : Header) (t : State) (rd : Nat × Nat) (i : Nat)
    (hm : t.meter_mode = METER_MODE_SHOW_TIME)
    (h2 : t.s2_active = 0) (c2 : t.debounce_counter_s2 = 0)
    (h1 : t.s1_active = if i < 16 then 0 else 1)
    (c1 : t.debounce_counter_s1 = min i 16)
    (p1 : rd.1 &&& S1_BIT hdr = 0) (r2 : rd.2 &&& S2_BIT hdr ≠ 0) :
    debounce_buttons hdr t rd =
      (if i = 15 then show_time (add_hour { t with debounce_counter_s1 := 16, s1_active := 1 })
        else { t with debounce_counter_s1 := min (i + 1) 16 },
       if i = 15 then [Event.s1_pressed] else []) := by
  rcases Nat.lt_trichotomy i 15 with hlt | heq | hgt
  · have a1 : t.s1_active = 0 := by rw [h1, if_pos (by omega)]
    have b1 : t.debounce_counter_s1 = i := by rw [c1]; omega
    have m1 : min (i + 1) 16 = i + 1 := by omega
    rw [if_neg (by omega), if_neg (by omega), m1]
    exact debounce_buttons_s1_count_step hdr t rd i a1 b1 hlt p1 (Or.inl ⟨h2, c2, r2⟩)
  · subst heq
    have a1 : t.s1_active = 0 := by rw [h1]; rfl
    have b1 : t.debounce_counter_s1 = 15 := by rw [c1]; rfl
    rw [if_pos rfl, if_pos rfl]
    exact debounce_buttons_s1_lone_step hdr t rd hm a1 b1 p1 h2 c2 r2
  · have a1 : t.s1_active = 1 := by rw [h1, if_neg (by omega)]
    have b1 : t.debounce_counter_s1 = 16 := by rw [c1]; omega
    have m1 : min (i + 1) 16 = 16 := by omega
    have et : { t with debounce_counter_s1 := 16 } = t := by
      cases t
      simp only [State.mk.injEq, true_and, and_true] at *
      exact b1.symm
    rw [if_neg (by omega), if_neg (by omega), m1, et]
    exact debounce_buttons_quiet_step hdr t rd
      (Or.inr ⟨by rw [a1]; exact Nat.one_ne_zero, p1⟩) (Or.inl ⟨h2, c2, r2⟩)

/-- Button handling of invocation `i` of a run in which S2 is held from the
start and S1 stays up, in terms of the state `t` left by the time update. -/
theorem held_s2_step (hdr : Header) (t : State) (rd : Nat × Nat) (i : Nat)
    (hm : t.meter_mode = METER_MODE_SHOW_TIME)
    (h1 : t.s1_active = 0) (c1 : t.debounce_counter_s1 = 0)
    (h2 : t.s2_active = if i < 16 then 0 else 1)
    (c2 : t.debounce_counter_s2 = min i 16)
    (p2 : rd.2 &&& S2_BIT hdr = 0) (r1 : rd.1 &&& S1_BIT hdr ≠ 0) :
    debounce_buttons hdr t rd =
      (if i = 15 then
          show_time (add_minute { t with debounce_counter_s2 := 16, s2_active := 1 })
        else { t with debounce_counter_s2 := min (i + 1) 16 },
       if i = 15 then [Event.s2_pressed] else []) := by
  rcases Nat.lt_trichotomy i 15 with hlt | heq | hgt
  · have a2 : t.s2_active = 0 := by rw [h2, if_pos (by omega)]
    have b2 : t.debounce_counter_s2 = i := by rw [c2]; omega
    have m2 : min (i + 1) 16 = i + 1 := by omega
    rw [if_neg (by omega), if_neg (by omega), m2]
    exact debounce_buttons_s2_count_step hdr t rd i a2 b2 hlt p2 (Or.inl ⟨h1, c1, r1⟩)
  · subst heq
    have a2 : t.s2_active = 0 := by rw [h2]; rfl
    have b2 : t.debounce_counter_s2 = 15 := by rw [c2]; rfl
    rw [if_pos rfl, if_pos rfl]
    exact debounce_buttons_s2_lone_step hdr t rd hm a2 b2 p2 h1 c1 r1
  · have a2 : t.s2_active = 1 := by rw [h2, if_neg (by omega)]
    have b2 : t.debounce_counter_s2 = 16 := by rw [c2]; omega
    have m2 : min (i + 1) 16 = 16 := by omega
    have et : { t with debounce_counter_s2 := 16 } = t := by
      cases t
      simp only [State.mk.injEq, true_and, and_true] at *
      exact b2.symm
    rw [if_neg (by omega), if_neg (by omega), m2, et]
    exact debounce_buttons_quiet_step hdr t rd (Or.inl ⟨h1, c1, r1⟩)
      (Or.inr ⟨by rw [a2]; exact Nat.one_ne_zero, p2⟩)

theorem held_s1_invariant (hdr : Header) (s0 : State) (ins : Nat → Nat × Nat) (N : Nat)
    (hm : s0.meter_mode = METER_MODE_SHOW_TIME)
    (h1 : s0.s1_active = 0) (c1 : s0.debounce_counter_s1 = 0)
    (h2 : s0.s2_active = 0) (c2 : s0.debounce_counter_s2 = 0)
    (hp : ∀ i, i < N → (ins i).1 &&& S1_BIT hdr = 0)
    (hr : ∀ i, i < N → (ins i).2 &&& S2_BIT hdr ≠ 0) (i : Nat) (hi : i ≤ N) :
    (isrState hdr s0 ins i).meter_mode = METER_MODE_SHOW_TIME ∧
    (isrState hdr s0 ins i).s2_active = 0 ∧
    (isrState hdr s0 ins i).debounce_counter_s2 = 0 ∧
    (isrState hdr s0 ins i).s1_active = (if i < 16 then 0 else 1) ∧
    (isrState hdr s0 ins i).debounce_counter_s1 = min i 16 := by
  induction i with
  | zero => exact ⟨hm, h2, c2, h1, c1⟩
  | succ i ih =>
    obtain ⟨im, i2, ic2, i1, ic1⟩ := ih (by omega)
    obtain ⟨u1, u2, u3, u4, u5⟩ := update_time_frame (isrState hdr s0 ins i)
    have hs := held_s1_step hdr (update_time (isrState hdr s0 ins i)).1 (ins i) i
      (by rw [u1]; exact im) (by rw [u3]; exact i2) (by rw [u5]; exact ic2)
      (by rw [u2]; exact i1) (by rw [u4]; exact ic1) (hp i (by omega)) (hr i (by omega))
    have e : isrState hdr s0 ins (i + 1) =
        (debounce_buttons hdr (update_time (isrState hdr s0 ins i)).1 (ins i)).1 := rfl
    rw [e, hs]
    by_cases h15 : i = 15
    · subst h15
      obtain ⟨f1, f2, f3, f4, f5⟩ := lone_s1_frame
        { (update_time (isrState hdr s0 ins 15)).1 with
          debounce_counter_s1 := 16, s1_active := 1 }
      simp only [if_true]
      rw [f1, f2, f3, f4, f5]
      exact ⟨by rw [← im, ← u1], by rw [← i2, ← u3], by rw [← ic2, ← u5], rfl, rfl⟩
    · simp only [if_neg h15]
      refine ⟨by rw [← im, ← u1], by rw [← i2, ← u3], by rw [← ic2, ← u5], ?_, trivial⟩
      show (update_time (isrState hdr s0 ins i)).1.s1_active = _
      rw [u2, i1]
      by_cases hlt : i < 15
      · rw [if_pos (by omega), if_pos (by omega)]
      · rw [if_neg (by omega), if_neg (by omega)]

theorem held_s2_invariant (hdr : Header) (s0 : State) (ins : Nat → Nat × Nat) (N : Nat)
    (hm : s0.meter_mode = METER_MODE_SHOW_TIME)
    (h1 : s0.s1_active = 0) (c1 : s0.debounce_counter_s1 = 0)
    (h2 : s0.s2_active = 0) (c2 : s0.debounce_counter_s2 = 0)
    (hp : ∀ i, i < N → (ins i).2 &&& S2_BIT hdr = 0)
    (hr : ∀ i, i < N → (ins i).1 &&& S1_BIT hdr ≠ 0) (i : Nat) (hi : i ≤ N) :
    (isrState hdr s0 ins i).meter_mode = METER_MODE_SHOW_TIME ∧
    (isrState hdr s0 ins i).s1_active = 0 ∧
    (isrState hdr s0 ins i).debounce_counter_s1 = 0 ∧
    (isrState hdr s0 ins i).s2_active = (if i < 16 then 0 else 1) ∧
    (isrState hdr s0 ins i).debounce_counter_s2 = min i 16 := by
  induction i with
  | zero => exact ⟨hm, h1, c1, h2, c2⟩
  | succ i ih =>
    obtain ⟨im, i1, ic1, i2, ic2⟩ := ih (by omega)
    obtain ⟨u1, u2, u3, u4, u5⟩ := update_time_frame (isrState hdr s0 ins i)
    have hs := held_s2_step hdr (update_time (isrState hdr s0 ins i)).1 (ins i) i
      (by rw [u1]; exact im) (by rw [u2]; exact i1) (by rw [u4]; exact ic1)
      (by rw [u3]; exact i2) (by rw [u5]; exact ic2) (hp i (by omega)) (hr i (by omega))
    have e : isrState hdr s0 ins (i + 1) =
        (debounce_buttons hdr (update_time (isrState hdr s0 ins i)).1 (ins i)).1 := rfl
    rw [e, hs]
    by_cases h15 : i = 15
    · subst h15
      obtain ⟨f1, f2, f3, f4, f5⟩ := lone_s2_frame
        { (update_time (isrState hdr s0 ins 15)).1 with
          debounce_counter_s2 := 16, s2_active := 1 }
      simp only [if_true]
      rw [f1, f2, f3, f4, f5]
      exact ⟨by rw [← im, ← u1], by rw [← i1, ← u2], by rw [← ic1, ← u4], rfl, rfl⟩
    · simp only [if_neg h15]
      refine ⟨by rw [← im, ← u1], by rw [← i1, ← u2], by rw [← ic1, ← u4], ?_, trivial⟩
      show (update_time (isrState hdr s0 ins i)).1.s2_active = _
      rw [u3, i2]
      by_cases hlt : i < 15
      · rw [if_pos (by omega), if_pos (by omega)]
      · rw [if_neg (by omega), if_neg (by omega)]

theorem indicator_sum_range (f : Nat → Nat) (N : Nat)
    (hf : ∀ i, i < N → f i = if i = 15 then 1 else 0) (M : Nat) (hM : M ≤ N) :
    ((List.range M).map f).sum = if 16 ≤ M then 1 else 0 := by
  induction M with
  | zero => rfl
  | succ M ih =>
    rw [List.range_succ, List.map_append, List.sum_append, ih (by omega)]
    simp only [List.map_cons, List.map_nil, List.sum_cons, List.sum_nil, Nat.add_zero]
    rw [hf M (by omega)]
    split_ifs <;> omega

/-- C15. From a state in show-time mode with both buttons inactive and both
counters 0, on a run of `Watchdog_ISR` in which S1 reads pressed and S2 reads
released on each of the first `N` invocations: invocation 16 (index 15) calls
`s1_pressed` once and no other of the `N` invocations calls it, so the number
of calls is 1 if `N ≥ 16` and 0 if `N < 16`; `s2_pressed` is never called; on
invocation 16 the button handling is `add_hour` followed by `show_time` on the
state left by the time update, and on every other invocation it changes
nothing but the S1 counter, which stops at 16.  The same holds for S2 and
`add_minute` with the buttons exchanged.  In any state, an invocation that
finds a button active leaves that button's debounce counter as it is. -/
theorem C15_single_increment (hdr : Header) (s0 : State) (ins : Nat → Nat × Nat) (N : Nat)
    (hm : s0.meter_mode = METER_MODE_SHOW_TIME)
    (h1 : s0.s1_active = 0) (c1 : s0.debounce_counter_s1 = 0)
    (h2 : s0.s2_active = 0) (c2 : s0.debounce_counter_s2 = 0) :
    ((∀ i, i < N → (ins i).1 &&& S1_BIT hdr = 0) →
      (∀ i, i < N → (ins i).2 &&& S2_BIT hdr ≠ 0) →
      (∀ i, i < N →
        (isrEvents hdr s0 ins i).count Event.s1_pressed = (if i = 15 then 1 else 0) ∧
        (isrEvents hdr s0 ins i).count Event.s2_pressed = 0 ∧
        isrState hdr s0 ins (i + 1) =
          (if i = 15 then
            show_time (add_hour { (update_time (isrState hdr s0 ins i)).1 with
              debounce_counter_s1 := 16, s1_active := 1 })
          else { (update_time (isrState hdr s0 ins i)).1 with
              debounce_counter_s1 := min (i + 1) 16 })) ∧
      ((List.range N).map
          (fun i => (isrEvents hdr s0 ins i).count Event.s1_pressed)).sum =
        (if 16 ≤ N then 1 else 0)) ∧
    ((∀ i, i < N → (ins i).2 &&& S2_BIT hdr = 0) →
      (∀ i, i < N → (ins i).1 &&& S1_BIT hdr ≠ 0) →
      (∀ i, i < N →
        (isrEvents hdr s0 ins i).count Event.s2_pressed = (if i = 15 then 1 else 0) ∧
        (isrEvents hdr s0 ins i).count Event.s1_pressed = 0 ∧
        isrState hdr s0 ins (i + 1) =
          (if i = 15 then
            show_time (add_minute { (update_time (isrState hdr s0 ins i)).1 with
              debounce_counter_s2 := 16, s2_active := 1 })
          else { (update_time (isrState hdr s0 ins i)).1 with
              debounce_counter_s2 := min (i + 1) 16 })) ∧
      ((List.range N).map
          (fun i => (isrEvents hdr s0 ins i).count Event.s2_pressed)).sum =
        (if 16 ≤ N then 1 else 0)) ∧
    (∀ (s : State) (rd : Nat × Nat), s.s1_active ≠ 0 →
      (Watchdog_ISR hdr s rd).1.debounce_counter_s1 = s.debounce_counter_s1) ∧
    (∀ (s : State) (rd : Nat × Nat), s.s2_active ≠ 0 →
      (Watchdog_ISR hdr s rd).1.debounce_counter_s2 = s.debounce_counter_s2) := by
  refine ⟨fun hp hr => ?_, fun hp hr => ?_, fun s rd ha => ?_, fun s rd ha => ?_⟩
  · have per : ∀ i, i < N →
        (isrEvents hdr s0 ins i).count Event.s1_pressed = (if i = 15 then 1 else 0) ∧
        (isrEvents hdr s0 ins i).count Event.s2_pressed = 0 ∧
        isrState hdr s0 ins (i + 1) =
          (if i = 15 then
            show_time (add_hour { (update_time (isrState hdr s0 ins i)).1 with
              debounce_counter_s1 := 16, s1_active := 1 })
          else { (update_time (isrState hdr s0 ins i)).1 with
              debounce_counter_s1 := min (i + 1) 16 }) := by
      intro i hi
      obtain ⟨im, i2, ic2, i1, ic1⟩ :=
        held_s1_invariant hdr s0 ins N hm h1 c1 h2 c2 hp hr i (by omega)
      obtain ⟨u1, u2, u3, u4, u5⟩ := update_time_frame (isrState hdr s0 ins i)
      have hs := held_s1_step hdr (update_time (isrState hdr s0 ins i)).1 (ins i) i
        (by rw [u1]; exact im) (by rw [u3]; exact i2) (by rw [u5]; exact ic2)
        (by rw [u2]; exact i1) (by rw [u4]; exact ic1) (hp i hi) (hr i hi)
      obtain ⟨-, -, e3, -⟩ := Watchdog_ISR_s1_spec hdr (isrState hdr s0 ins i) (ins i)
      obtain ⟨-, -, g3, -⟩ := Watchdog_ISR_s2_spec hdr (isrState hdr s0 ins i) (ins i)
      have e : isrState hdr s0 ins (i + 1) =
          (debounce_buttons hdr (update_time (isrState hdr s0 ins i)).1 (ins i)).1 := rfl
      refine ⟨?_, ?_, by rw [e, hs]⟩
      · rw [isrEvents, e3, i1, ic1]
        have hu : u8 (((min i 16 : Nat) : Int) + 1) = min i 16 + 1 := by
          simp only [u8]; omega
        rw [hu]
        by_cases h15 : i = 15
        · subst h15
          simp [hp 15 hi]
        · rw [if_neg h15]
          apply if_neg
          rintro ⟨a, -, b⟩
          split_ifs at a
          omega
      · rw [isrEvents, g3]
        exact if_neg (fun h => hr i hi h.2.1)
    exact ⟨per, indicator_sum_range _ N (fun i hi => (per i hi).1) N (Nat.le_refl N)⟩
  · have per : ∀ i, i < N →
        (isrEvents hdr s0 ins i).count Event.s2_pressed = (if i = 15 then 1 else 0) ∧
        (isrEvents hdr s0 ins i).count Event.s1_pressed = 0 ∧
        isrState hdr s0 ins (i + 1) =
          (if i = 15 then
            show_time (add_minute { (update_time (isrState hdr s0 ins i)).1 with
              debounce_counter_s2 := 16, s2_active := 1 })
          else { (update_time (isrState hdr s0 ins i)).1 with
              debounce_counter_s2 := min (i + 1) 16 }) := by
      intro i hi
      obtain ⟨im, i1, ic1, i2, ic2⟩ :=
        held_s2_invariant hdr s0 ins N hm h1 c1 h2 c2 hp hr i (by omega)
      obtain ⟨u1, u2, u3, u4, u5⟩ := update_time_frame (isrState hdr s0 ins i)
      have hs := held_s2_step hdr (update_time (isrState hdr s0 ins i)).1 (ins i) i
        (by rw [u1]; exact im) (by rw [u2]; exact i1) (by rw [u4]; exact ic1)
        (by rw [u3]; exact i2) (by rw [u5]; exact ic2) (hp i hi) (hr i hi)
      obtain ⟨-, -, e3, -⟩ := Watchdog_ISR_s2_spec hdr (isrState hdr s0 ins i) (ins i)
      obtain ⟨-, -, g3, -⟩ := Watchdog_ISR_s1_spec hdr (isrState hdr s0 ins i) (ins i)
      have e : isrState hdr s0 ins (i + 1) =
          (debounce_buttons hdr (update_time (isrState hdr s0 ins i)).1 (ins i)).1 := rfl
      refine ⟨?_, ?_, by rw [e, hs]⟩
      · rw [isrEvents, e3, i2, ic2]
        have hu : u8 (((min i 16 : Nat) : Int) + 1) = min i 16 + 1 := by
          simp only [u8]; omega
        rw [hu]
        by_cases h15 : i = 15
        · subst h15
          simp [hp 15 hi]
        · rw [if_neg h15]
          apply if_neg
          rintro ⟨a, -, b⟩
          split_ifs at a
          omega
      · rw [isrEvents, g3]
        exact if_neg (fun h => hr i hi h.2.1)
    exact ⟨per, indicator_sum_range _ N (fun i hi => (per i hi).1) N (Nat.le_refl N)⟩
  · rw [(Watchdog_ISR_s1_spec hdr s rd).2.1, if_neg ha]
  · rw [(Watchdog_ISR_s2_spec hdr s rd).2.1, if_neg ha]

set_option maxRecDepth 1000000 in
/-- C15 from cold start with S1 held for 40 invocations and S2 up: exactly
one call of `s1_pressed` in those 40 invocations, and the hour is 7 after
them. -/
theorem C15_single_increment_witness :
    ((List.range 40).map
      (fun i => (isrEvents msp430x20x2 init (fun _ => (8, 8)) i).count Event.s1_pressed)).sum
      = 1 ∧
    (isrState msp430x20x2 init (fun _ => (8, 8)) 40).hour = 7 :=
  ⟨((C15_single_increment msp430x20x2 init (fun _ => (8, 8)) 40 rfl rfl rfl rfl rfl).1
      (fun _ _ => by show (8 : Nat) &&& S1_BIT msp430x20x2 = 0; decide)
      (fun _ _ => by show (8 : Nat) &&& S2_BIT msp430x20x2 ≠ 0; decide)).2,
   by decide⟩


end Chronulator
